import Mathlib

/-!
# InfraPilotX backend: remote-repository synchronisation workflows

A shallow embedding of the Express route handlers under
`BE/infra-pilotx-backend/routes` (`cluster.js`, `cicd.js`, `app.js`, `ml.js`,
`monitoring.js`).  Every handler is an explicit state-passing function on a
`World`: the stored token, the file tree of the repository the request
addresses, the outcome scheduled for each remote call, and the trace of remote
calls issued so far.  A `try { ... } catch` block is a function into
`Except RemoteError Response × World` followed by the function of its `catch`.
-/

namespace InfraPilotX

/-! ## Request values -/

/-- JavaScript truthiness of a request field that is either missing or a string:
`!x` holds for `undefined` and for the empty string. -/
def truthy : Option String → Bool
  | some s => s != ""
  | none => false

/-- Interpolation of a field inside a template literal: a missing field prints as
`undefined`. -/
def str : Option String → String
  | some s => s
  | none => "undefined"

/-- The text `t` occurs inside `s`. -/
def containsText (s t : String) : Prop := t.data <:+: s.data

instance (s t : String) : Decidable (containsText s t) := by
  unfold containsText; infer_instance

/-! ## The remote repository (the Octokit client and what it talks to) -/

/-- An error thrown by a remote call: `error.status`, `error.message` and
`error.response?.data?.message`. -/
structure RemoteError where
  status : Nat
  message : String
  dataMessage : Option String := none
  deriving DecidableEq, Repr

/-- The error of a read of a path that is not in the tree. -/
def notFound : RemoteError :=
  { status := 404, message := "Not Found", dataMessage := some "Not Found" }

/-- One remote call, with the arguments the handler passed. -/
inductive Call where
  | getContent (owner repo : Option String) (path : String)
  | createOrUpdateFileContents (owner repo : Option String)
      (path message content branch : String)
  deriving DecidableEq, Repr

/-- A call is a write (`createOrUpdateFileContents`). -/
def Call.isWrite : Call → Bool
  | .createOrUpdateFileContents .. => true
  | .getContent .. => false

/-- The path a call addresses. -/
def Call.path : Call → String
  | .createOrUpdateFileContents _ _ path _ _ _ => path
  | .getContent _ _ path => path

/-- The write calls of a trace, in order. -/
def writes (log : List Call) : List Call := log.filter Call.isWrite

/-- A child of a directory, as `getContent` lists it. -/
structure Entry where
  name : String
  path : String
  type : String
  deriving DecidableEq, Repr

/-- What a successful `getContent` returns: a file or the children of a directory. -/
inductive Content where
  | file (path content : String)
  | dir (entries : List Entry)
  deriving DecidableEq, Repr

/-- The files of a repository: path and text. -/
abbrev Tree := List (String × String)

/-- A document of the `monitoring` collection: `{tool, deployedAt, status}`. -/
structure MonitoringDoc where
  tool : String
  deployedAt : Nat
  status : String
  deriving DecidableEq, Repr

/-- The state a handler runs in.  `tree` holds the files of the repository the
request addresses, on the branch its calls address (every write names `main`, every
read the default branch).  `faults n` is the outcome scheduled for the remote call
number `n` (counted over all calls of the trace): `none` lets the call through to
the tree, `some e` makes it throw `e`.  `monitoring` is the database collection of
that name and `now` the clock `new Date()` reads. -/
structure World where
  token : Option String := none
  tree : Tree := []
  faults : Nat → Option RemoteError := fun _ => none
  log : List Call := []
  monitoring : List MonitoringDoc := []
  now : Nat := 0

/-- Modelled from the spec: the remote content store behind `getContent`
(§4.1 `readPath`, §6 `GET content`): a path exists when it is a file of the tree or
a directory, that is, a proper ancestor of a file; a tree has no empty directory. -/
def pathExists (t : Tree) (path : String) : Bool :=
  t.any fun f => f.1 == path || (path.data ++ ['/']).isPrefixOf f.1.data

/-- Modelled from the spec: the file text stored at `path`, if `path` is a file. -/
def fileAt (t : Tree) (path : String) : Option String :=
  (t.find? fun f => f.1 == path).map Prod.snd

/-- Modelled from the spec: the children of directory `dir` (§4.1: a directory read
returns child entries), each with its name, its path and `file` or `dir`. -/
def dirEntries (t : Tree) (dir : String) : List Entry :=
  let pre := dir.data ++ ['/']
  let rests := (t.filter fun f => pre.isPrefixOf f.1.data).map fun f => f.1.data.drop pre.length
  let names := (rests.map fun r => r.takeWhile (· != '/')).eraseDups
  names.map fun n =>
    { name := String.mk n
      path := dir ++ "/" ++ String.mk n
      type := if rests.any (fun r => (n ++ ['/']).isPrefixOf r) then "dir" else "file" }

/-- Modelled from the spec: the answer of a read that goes through. -/
def contentAt (t : Tree) (path : String) : Content :=
  match fileAt t path with
  | some c => .file path c
  | none => .dir (dirEntries t path)

/-- Modelled from the spec: `writePath` (§4.1) creates the path if absent and
overwrites it if present. -/
def putFile : Tree → String → String → Tree
  | [], path, content => [(path, content)]
  | f :: t, path, content =>
    if f.1 == path then (path, content) :: t else f :: putFile t path content

/-- Appends a call to the trace. -/
def record (c : Call) (w : World) : World := { w with log := w.log ++ [c] }

/-- The answer of a write that goes through: `response.data.content.html_url`. -/
structure WriteResult where
  html_url : String
  deriving DecidableEq, Repr

/-- Modelled from the spec: the URL the remote reports for a committed file. -/
def htmlUrl (owner repo : Option String) (branch path : String) : String :=
  "https://github.com/" ++ str owner ++ "/" ++ str repo ++ "/blob/" ++ branch ++ "/" ++ path

/-- The call `octokit.rest.repos.getContent({owner, repo, path})`: succeeds with the
content when the path exists, throws a 404 error when it does not, and throws the
scheduled error when one is scheduled for this call. -/
def getContent (owner repo : Option String) (path : String) (w : World) :
    Except RemoteError Content × World :=
  match w.faults w.log.length with
  | some e => (.error e, record (.getContent owner repo path) w)
  | none =>
    if pathExists w.tree path then
      (.ok (contentAt w.tree path), record (.getContent owner repo path) w)
    else (.error notFound, record (.getContent owner repo path) w)

/-- The world after a write that went through: the call is in the trace and the file
is in the tree. -/
def committed (owner repo : Option String) (path message content branch : String)
    (w : World) : World :=
  { record (.createOrUpdateFileContents owner repo path message content branch) w with
    tree := putFile w.tree path content }

/-- The call `octokit.rest.repos.createOrUpdateFileContents({owner, repo, path,
message, content, branch})`; `content` is the text before its base64 transport
encoding.  A call that goes through commits the file; a failing call commits
nothing. -/
def createOrUpdateFileContents (owner repo : Option String)
    (path message content branch : String) (w : World) :
    Except RemoteError WriteResult × World :=
  match w.faults w.log.length with
  | some e =>
    (.error e, record (.createOrUpdateFileContents owner repo path message content branch) w)
  | none =>
    (.ok { html_url := htmlUrl owner repo branch path },
     committed owner repo path message content branch w)

/-- The helper `getGitHubToken()`: the token of the stored `githubConfig` record. -/
def getGitHubToken (w : World) : Option String := w.token

/-- No failure is scheduled for any remote call issued from now on. -/
def quiet (w : World) : Prop := ∀ n, w.log.length ≤ n → w.faults n = none

/-! ## Responses -/

/-- The value of a response field that holds a text or an object: a text, or an object
with no enumerable property of its own, which `res.json` prints as an empty object.
A field whose value is a function is left out of the body by `res.json`. -/
inductive ContentValue where
  | text (s : String)
  | emptyObject
  deriving DecidableEq, Repr

/-- An HTTP response: the status code and the fields of the JSON body. -/
structure Response where
  status : Nat := 200
  success : Option Bool := none
  message : Option String := none
  url : Option String := none
  error : Option String := none
  deployment : Option String := none
  content : Option ContentValue := none
  deriving DecidableEq, Repr

/-! ## The folder-ensure step -/

/-- The block every workflow repeats for its folder (`cluster.js` 132-152,
`cicd.js` 383-403, `app.js` 181-201 and 275-295, `ml.js` 118-138 and 274-294,
`monitoring.js` 128-148 and 239-259):
`try { await getContent(dir) } catch (error) { if (error.status === 404) { await
createOrUpdateFileContents(dir + '/.gitkeep', message, '', 'main') } else { throw error } }`. -/
def ensureFolder (owner repo : Option String) (dir message : String) (w : World) :
    Except RemoteError Unit × World :=
  match getContent owner repo dir w with
  | (.ok _, w1) => (.ok (), w1)
  | (.error e, w1) =>
    if e.status == 404 then
      match createOrUpdateFileContents owner repo (dir ++ "/.gitkeep") message "" "main" w1 with
      | (.ok _, w2) => (.ok (), w2)
      | (.error e2, w2) => (.error e2, w2)
    else (.error e, w1)

/-- The marker write of a directory: a zero-byte `.gitkeep` committed on `main`. -/
def marker (owner repo : Option String) (dir message : String) : Call :=
  .createOrUpdateFileContents owner repo (dir ++ "/.gitkeep") message "" "main"

/-- The world after a folder-ensure step in which no call failed: the read of the
folder and, when the folder was absent, the write of its marker. -/
def ensured (owner repo : Option String) (dir message : String) (w : World) : World :=
  if pathExists w.tree dir then record (.getContent owner repo dir) w
  else committed owner repo (dir ++ "/.gitkeep") message "" "main"
    (record (.getContent owner repo dir) w)

/-! ## Cluster projects (`routes/cluster.js`) -/

/-- The body of a `POST /create-project` request; `ns` is the field `namespace`. -/
structure CreateProjectBody where
  orgName : Option String := none
  repoName : Option String := none
  projectName : Option String := none
  clusterUrl : Option String := none
  ns : Option String := none
  repoUrl : Option String := none
  deriving DecidableEq, Repr

/-- Every field `create-project` requires is present and non-empty (`cluster.js` 111). -/
def CreateProjectBody.complete (b : CreateProjectBody) : Bool :=
  truthy b.orgName && truthy b.repoName && truthy b.projectName && truthy b.clusterUrl
    && truthy b.repoUrl

/-- The template literal `projectYaml` of `cluster.js` 155-249, one list item per
source line: the AppProject document, `---`, the ApplicationSet document. -/
def projectYaml (projectName clusterUrl repoUrl : String) : String :=
  String.join [
    "apiVersion: argoproj.io/v1alpha1\n",
    "kind: AppProject\n",
    "metadata:\n",
    "  annotations:\n",
    "    argocd-autopilot.argoproj-labs.io/default-dest-server: " ++ clusterUrl ++ "\n",
    "    argocd.argoproj.io/sync-options: PruneLast=true\n",
    "    argocd.argoproj.io/sync-wave: \"-2\"\n",
    "  creationTimestamp: null\n",
    "  name: " ++ projectName ++ "\n",
    "  namespace: argocd\n",
    "spec:\n",
    "  clusterResourceWhitelist:\n",
    "  - group: '*'\n",
    "    kind: '*'\n",
    "  description: " ++ projectName ++ " project\n",
    "  destinations:\n",
    "  - namespace: '*'\n",
    "    server: '*'\n",
    "  namespaceResourceWhitelist:\n",
    "  - group: '*'\n",
    "    kind: '*'\n",
    "  sourceRepos:\n",
    "  - '*'\n",
    "status: \x7b\x7d\n",
    "\n",
    "---\n",
    "apiVersion: argoproj.io/v1alpha1\n",
    "kind: ApplicationSet\n",
    "metadata:\n",
    "  annotations:\n",
    "    argocd.argoproj.io/sync-wave: \"0\"\n",
    "  creationTimestamp: null\n",
    "  name: " ++ projectName ++ "\n",
    "  namespace: argocd\n",
    "spec:\n",
    "  generators:\n",
    "  - git:\n",
    "      files:\n",
    "      - path: apps/**/config.json\n",
    "      repoURL: " ++ repoUrl ++ ".git\n",
    "      requeueAfterSeconds: 20\n",
    "      revision: \"\"\n",
    "      template:\n",
    "        metadata: \x7b\x7d\n",
    "        spec:\n",
    "          destination: \x7b\x7d\n",
    "          project: \"\"\n",
    "          source:\n",
    "            repoURL: \"\"\n",
    "  - git:\n",
    "      files:\n",
    "      - path: apps/**/config_dir.json\n",
    "      repoURL: " ++ repoUrl ++ ".git\n",
    "      requeueAfterSeconds: 20\n",
    "      revision: \"\"\n",
    "      template:\n",
    "        metadata: \x7b\x7d\n",
    "        spec:\n",
    "          destination: \x7b\x7d\n",
    "          project: \"\"\n",
    "          source:\n",
    "            directory:\n",
    "              exclude: '\x7b\x7b exclude \x7d\x7d'\n",
    "              include: '\x7b\x7b include \x7d\x7d'\n",
    "              jsonnet: \x7b\x7d\n",
    "              recurse: true\n",
    "            repoURL: \"\"\n",
    "  syncPolicy: \x7b\x7d\n",
    "  template:\n",
    "    metadata:\n",
    "      labels:\n",
    "        app.kubernetes.io/managed-by: argocd-autopilot\n",
    "        app.kubernetes.io/name: '\x7b\x7b appName \x7d\x7d'\n",
    "      name: " ++ projectName ++ "-\x7b\x7b userGivenName \x7d\x7d\n",
    "      namespace: argocd\n",
    "    spec:\n",
    "      destination:\n",
    "        namespace: '\x7b\x7b destNamespace \x7d\x7d'\n",
    "        server: '\x7b\x7b destServer \x7d\x7d'\n",
    "      ignoreDifferences:\n",
    "      - group: argoproj.io\n",
    "        jsonPointers:\n",
    "        - /status\n",
    "        kind: Application\n",
    "      project: " ++ projectName ++ "\n",
    "      source:\n",
    "        path: '\x7b\x7b srcPath \x7d\x7d'\n",
    "        repoURL: '\x7b\x7b srcRepoURL \x7d\x7d'\n",
    "        targetRevision: '\x7b\x7b srcTargetRevision \x7d\x7d'\n",
    "      syncPolicy:\n",
    "        automated:\n",
    "          allowEmpty: true\n",
    "          prune: true\n",
    "          selfHeal: true\n",
    "status: \x7b\x7d"]

/-- The path of a project file: `projects/${projectName}.yaml`. -/
def projectPath (projectName : String) : String := "projects/" ++ projectName ++ ".yaml"

/-- The `try` block of `router.post('/create-project')` (`cluster.js` 108-264). -/
def createProjectTry (b : CreateProjectBody) (w : World) : Except RemoteError Response × World :=
  if !truthy b.orgName || !truthy b.repoName || !truthy b.projectName || !truthy b.clusterUrl
      || !truthy b.repoUrl then
    (.ok { status := 400, message := some "Missing required fields" }, w)
  else if !truthy (getGitHubToken w) then
    (.ok { status := 400, message := some "GitHub token not configured" }, w)
  else
    -- Check if project already exists
    match getContent b.orgName b.repoName (projectPath (str b.projectName)) w with
    | (.ok _, w1) =>
      (.ok { status := 422,
             message := some ("Project \"" ++ str b.projectName ++ "\" already exists") }, w1)
    | (.error e, w1) =>
      if e.status != 404 then (.error e, w1)
      else
        -- Create projects folder if needed
        match ensureFolder b.orgName b.repoName "projects" "Create projects directory" w1 with
        | (.error e2, w2) => (.error e2, w2)
        | (.ok _, w2) =>
          -- Create project file
          match createOrUpdateFileContents b.orgName b.repoName (projectPath (str b.projectName))
              ("Add project " ++ str b.projectName)
              (projectYaml (str b.projectName) (str b.clusterUrl) (str b.repoUrl)) "main" w2 with
          | (.error e3, w3) => (.error e3, w3)
          | (.ok response, w3) =>
            (.ok { status := 201, message := some "Project created successfully",
                   url := some response.html_url }, w3)

/-- The `catch` block of `router.post('/create-project')` (`cluster.js` 266-278):
`error.response?.data?.message || 'Project already exists'` for a 422 error. -/
def createProjectCatch (error : RemoteError) : Response :=
  if error.status == 422 then
    { status := 422,
      message := some (if truthy error.dataMessage then str error.dataMessage
                       else "Project already exists") }
  else
    { status := 500, message := some "Failed to create project", error := some error.message }

/-- The handler `router.post('/create-project')`. -/
def createProject (b : CreateProjectBody) (w : World) : Response × World :=
  match createProjectTry b w with
  | (.ok res, w1) => (res, w1)
  | (.error e, w1) => (createProjectCatch e, w1)

/-- A complete create-project request, the one of the spec's duplicate-project
scenario. -/
def checkoutProject : CreateProjectBody :=
  { orgName := some "acme", repoName := some "infra", projectName := some "checkout-project",
    clusterUrl := some "https://kubernetes.default.svc",
    repoUrl := some "https://github.com/acme/infra" }

/-- A world in which the leaf is absent and the second remote call, the read of the
folder `projects`, fails with status 422. -/
def folderCheckFails422 : World :=
  { token := some "ghp_x",
    faults := fun n => if n = 1 then some { status := 422, message := "Validation Failed" }
      else none }

/-! ## CI pipelines (`routes/cicd.js`) -/

/-- The body of a `POST /create-pipeline` request. -/
structure CreatePipelineBody where
  orgName : Option String := none
  repoName : Option String := none
  pipelineName : Option String := none
  pipelineContent : Option String := none
  deriving DecidableEq, Repr

/-- The path of a pipeline script: `cicd/${pipelineName}.groovy`. -/
def pipelinePath (pipelineName : String) : String := "cicd/" ++ pipelineName ++ ".groovy"

/-- The `try` block of `router.post('/create-pipeline')` (`cicd.js` 363-419). -/
def createPipelineTry (b : CreatePipelineBody) (w : World) :
    Except RemoteError Response × World :=
  if !truthy (getGitHubToken w) then
    (.ok { status := 400, success := some false, message := some "GitHub token not configured" }, w)
  else if !truthy b.pipelineName || !truthy b.pipelineContent then
    (.ok { status := 400, success := some false,
           message := some "Pipeline name and content are required" }, w)
  else
    -- Check if cicd folder exists, create if not
    match ensureFolder b.orgName b.repoName "cicd" "Create CICD directory" w with
    | (.error e, w1) => (.error e, w1)
    | (.ok _, w1) =>
      -- Create pipeline file
      match createOrUpdateFileContents b.orgName b.repoName (pipelinePath (str b.pipelineName))
          ("Add " ++ str b.pipelineName ++ " pipeline via InfraPilotX")
          (str b.pipelineContent) "main" w1 with
      | (.error e2, w2) => (.error e2, w2)
      | (.ok response, w2) =>
        (.ok { success := some true, message := some "Pipeline created successfully",
               url := some response.html_url }, w2)

/-- The handler `router.post('/create-pipeline')` with its `catch` (`cicd.js` 420-426). -/
def createPipeline (b : CreatePipelineBody) (w : World) : Response × World :=
  match createPipelineTry b w with
  | (.ok res, w1) => (res, w1)
  | (.error e, w1) =>
    ({ status := 500, success := some false,
       message := some "Failed to create pipeline, already exists.",
       error := some e.message }, w1)

/-- What the property read `templates[language]` on an object literal finds: a
property of the literal itself, a method inherited from `Object.prototype`, the
object `Object.prototype` (through the accessor `__proto__`), or `undefined`. -/
inductive Property (α : Type) where
  | own (value : α)
  | inheritedFunction
  | inheritedObject
  | undefined
  deriving DecidableEq, Repr

/-- The names of the methods every object literal inherits from `Object.prototype`. -/
def objectPrototypeMethods : List String :=
  ["constructor", "hasOwnProperty", "isPrototypeOf", "propertyIsEnumerable", "toLocaleString",
   "toString", "valueOf", "__defineGetter__", "__defineSetter__", "__lookupGetter__",
   "__lookupSetter__"]

/-- The property read `obj[key]` on an object literal with the properties `props`. -/
def readProperty {α : Type} (props : List (String × α)) (key : String) : Property α :=
  match props.lookup key with
  | some v => .own v
  | none =>
    if key ∈ objectPrototypeMethods then .inheritedFunction
    else if key = "__proto__" then .inheritedObject
    else .undefined

/-- The query of `GET /template` of `cicd.js`. -/
structure TemplateQuery where
  language : Option String := none
  dockerImage : Option String := none
  registryUrl : Option String := none
  registryCredentialId : Option String := none
  deriving DecidableEq, Repr

/-- The `java` script of `templates` (`cicd.js` 132-199). -/
def javaTemplate (dockerImage registry credId : String) : String :=
  String.join [
    "pipeline \x7b\n",
    "  agent any\n",
    "  environment \x7b\n",
    "    DOCKER_IMAGE = \"" ++ dockerImage ++ "\"\n",
    "    REGISTRY = \"" ++ registry ++ "\"\n",
    "    CREDENTIALS_ID = \"" ++ credId ++ "\"\n",
    "  \x7d\n",
    "  stages \x7b\n",
    "    stage(\x27Checkout\x27) \x7b\n",
    "      steps \x7b\n",
    "        checkout scm\n",
    "      \x7d\n",
    "    \x7d\n",
    "    stage(\x27Build\x27) \x7b\n",
    "      steps \x7b\n",
    "        sh \x27./mvnw clean package -DskipTests\x27\n",
    "      \x7d\n",
    "    \x7d\n",
    "    stage(\x27Test\x27) \x7b\n",
    "      steps \x7b\n",
    "        sh \x27./mvnw test\x27\n",
    "      \x7d\n",
    "    \x7d\n",
    "    stage(\x27Build Docker Image\x27) \x7b\n",
    "      steps \x7b\n",
    "        script \x7b\n",
    "          docker.build(\"" ++ dockerImage ++ "\")\n",
    "        \x7d\n",
    "      \x7d\n",
    "    \x7d\n",
    "    stage(\x27Push Docker Image\x27) \x7b\n",
    "      steps \x7b\n",
    "        script \x7b\n",
    "          docker.withRegistry(\"https://" ++ registry ++ "\", \"" ++ credId ++ "\") \x7b\n",
    "            docker.image(\"" ++ dockerImage ++ "\").push()\n",
    "          \x7d\n",
    "        \x7d\n",
    "      \x7d\n",
    "    \x7d\n",
    "    stage(\x27Deploy to Dev\x27) \x7b\n",
    "      when \x7b\n",
    "        branch \x27dev\x27\n",
    "      \x7d\n",
    "      steps \x7b\n",
    "        sh \x27kubectl apply -f k8s/dev\x27\n",
    "      \x7d\n",
    "    \x7d\n",
    "    stage(\x27Deploy to Prod\x27) \x7b\n",
    "      when \x7b\n",
    "        branch \x27main\x27\n",
    "      \x7d\n",
    "      steps \x7b\n",
    "        sh \x27kubectl apply -f k8s/prod\x27\n",
    "      \x7d\n",
    "    \x7d\n",
    "  \x7d\n",
    "  post \x7b\n",
    "    always \x7b\n",
    "      junit \x27**/target/surefire-reports/*.xml\x27\n",
    "      archiveArtifacts artifacts: \x27**/target/*.jar\x27, fingerprint: true\n",
    "    \x7d\n",
    "    failure \x7b\n",
    "      mail to: \x27team@example.com\x27,\n",
    "           subject: \"Failed Pipeline: $\x7bcurrentBuild.fullDisplayName\x7d\",\n",
    "           body: \"Build $\x7benv.BUILD_URL\x7d failed\"\n",
    "    \x7d\n",
    "  \x7d\n",
    "\x7d"]

/-- The `python` script of `templates` (`cicd.js` 200-258). -/
def pythonTemplate (dockerImage registry credId : String) : String :=
  String.join [
    "pipeline \x7b\n",
    "  agent any\n",
    "  environment \x7b\n",
    "    DOCKER_IMAGE = \"" ++ dockerImage ++ "\"\n",
    "    REGISTRY = \"" ++ registry ++ "\"\n",
    "    CREDENTIALS_ID = \"" ++ credId ++ "\"\n",
    "  \x7d\n",
    "  stages \x7b\n",
    "    stage(\x27Checkout\x27) \x7b\n",
    "      steps \x7b\n",
    "        checkout scm\n",
    "      \x7d\n",
    "    \x7d\n",
    "    stage(\x27Setup Virtualenv\x27) \x7b\n",
    "      steps \x7b\n",
    "        sh \x27python -m venv venv\x27\n",
    "        sh \x27source venv/bin/activate && pip install -r requirements.txt\x27\n",
    "      \x7d\n",
    "    \x7d\n",
    "    stage(\x27Test\x27) \x7b\n",
    "      steps \x7b\n",
    "        sh \x27source venv/bin/activate && pytest\x27\n",
    "      \x7d\n",
    "    \x7d\n",
    "    stage(\x27Build Docker Image\x27) \x7b\n",
    "      steps \x7b\n",
    "        script \x7b\n",
    "          docker.build(\"" ++ dockerImage ++ "\")\n",
    "        \x7d\n",
    "      \x7d\n",
    "    \x7d\n",
    "    stage(\x27Push Docker Image\x27) \x7b\n",
    "      steps \x7b\n",
    "        script \x7b\n",
    "          docker.withRegistry(\"https://" ++ registry ++ "\", \"" ++ credId ++ "\") \x7b\n",
    "            docker.image(\"" ++ dockerImage ++ "\").push()\n",
    "          \x7d\n",
    "        \x7d\n",
    "      \x7d\n",
    "    \x7d\n",
    "    stage(\x27Deploy to Dev\x27) \x7b\n",
    "      when \x7b\n",
    "        branch \x27dev\x27\n",
    "      \x7d\n",
    "      steps \x7b\n",
    "        sh \x27kubectl apply -f k8s/dev\x27\n",
    "      \x7d\n",
    "    \x7d\n",
    "  \x7d\n",
    "  post \x7b\n",
    "    always \x7b\n",
    "      junit \x27**/test-reports/*.xml\x27\n",
    "    \x7d\n",
    "    failure \x7b\n",
    "      slackSend channel: \x27#builds\x27,\n",
    "                message: \"Build Failed: $\x7benv.JOB_NAME\x7d - $\x7benv.BUILD_NUMBER\x7d\"\n",
    "    \x7d\n",
    "  \x7d\n",
    "\x7d"]

/-- The `nodejs` script of `templates` (`cicd.js` 259-337). -/
def nodejsTemplate (dockerImage registry credId : String) : String :=
  String.join [
    "pipeline \x7b\n",
    "  agent any\n",
    "  environment \x7b\n",
    "    DOCKER_IMAGE = \"" ++ dockerImage ++ "\"\n",
    "    REGISTRY = \"" ++ registry ++ "\"\n",
    "    CREDENTIALS_ID = \"" ++ credId ++ "\"\n",
    "    NODE_ENV = \x27production\x27\n",
    "  \x7d\n",
    "  stages \x7b\n",
    "    stage(\x27Checkout\x27) \x7b\n",
    "      steps \x7b\n",
    "        checkout scm\n",
    "      \x7d\n",
    "    \x7d\n",
    "    stage(\x27Install Dependencies\x27) \x7b\n",
    "      steps \x7b\n",
    "        sh \x27npm ci\x27\n",
    "      \x7d\n",
    "    \x7d\n",
    "    stage(\x27Lint\x27) \x7b\n",
    "      steps \x7b\n",
    "        sh \x27npm run lint\x27\n",
    "      \x7d\n",
    "    \x7d\n",
    "    stage(\x27Test\x27) \x7b\n",
    "      steps \x7b\n",
    "        sh \x27npm test\x27\n",
    "      \x7d\n",
    "    \x7d\n",
    "    stage(\x27Build\x27) \x7b\n",
    "      steps \x7b\n",
    "        sh \x27npm run build\x27\n",
    "      \x7d\n",
    "    \x7d\n",
    "    stage(\x27Build Docker Image\x27) \x7b\n",
    "      steps \x7b\n",
    "        script \x7b\n",
    "          docker.build(\"" ++ dockerImage ++ "\")\n",
    "        \x7d\n",
    "      \x7d\n",
    "    \x7d\n",
    "    stage(\x27Push Docker Image\x27) \x7b\n",
    "      steps \x7b\n",
    "        script \x7b\n",
    "          docker.withRegistry(\"https://" ++ registry ++ "\", \"" ++ credId ++ "\") \x7b\n",
    "            docker.image(\"" ++ dockerImage ++ "\").push()\n",
    "          \x7d\n",
    "        \x7d\n",
    "      \x7d\n",
    "    \x7d\n",
    "    stage(\x27Deploy to Staging\x27) \x7b\n",
    "      when \x7b\n",
    "        branch \x27staging\x27\n",
    "      \x7d\n",
    "      steps \x7b\n",
    "        sh \x27kubectl apply -f k8s/staging\x27\n",
    "      \x7d\n",
    "    \x7d\n",
    "    stage(\x27Deploy to Production\x27) \x7b\n",
    "      when \x7b\n",
    "        branch \x27main\x27\n",
    "      \x7d\n",
    "      steps \x7b\n",
    "        input message: \x27Deploy to production?\x27, ok: \x27Deploy\x27\n",
    "        sh \x27kubectl apply -f k8s/production\x27\n",
    "      \x7d\n",
    "    \x7d\n",
    "  \x7d\n",
    "  post \x7b\n",
    "    always \x7b\n",
    "      junit \x27**/test-results.xml\x27\n",
    "      archiveArtifacts artifacts: \x27**/build/**\x27\n",
    "    \x7d\n",
    "    success \x7b\n",
    "      slackSend channel: \x27#builds\x27,\n",
    "                message: \"Build Succeeded: $\x7benv.JOB_NAME\x7d - $\x7benv.BUILD_NUMBER\x7d\"\n",
    "    \x7d\n",
    "  \x7d\n",
    "\x7d"]

/-- The object `templates` of `cicd.js` 131-338. -/
def templates (dockerImage registry credId : String) : List (String × String) :=
  [("java", javaTemplate dockerImage registry credId),
   ("python", pythonTemplate dockerImage registry credId),
   ("nodejs", nodejsTemplate dockerImage registry credId)]

/-- The handler `router.get('/template')` of `cicd.js` (116-359).  A value
`templates[language]` that is not `undefined` is truthy, whatever it is; the body
carries it as `content` when it is a text or an object and leaves it out when it is
a function. -/
def pipelineTemplate (q : TemplateQuery) : Response :=
  if !truthy q.language || !truthy q.dockerImage then
    { status := 400, success := some false,
      message := some "Language and Docker image are required" }
  else
    -- Default registry to Docker Hub if not provided
    let registry := if truthy q.registryUrl then str q.registryUrl else "docker.io"
    let credId :=
      if truthy q.registryCredentialId then str q.registryCredentialId else "dockerhub-creds"
    match readProperty (templates (str q.dockerImage) registry credId) (str q.language) with
    | .undefined => { status := 400, success := some false, message := some "Unsupported language" }
    | .own script =>
      { success := some true, content := some (.text script),
        message := some "Template loaded successfully" }
    | .inheritedObject =>
      { success := some true, content := some .emptyObject,
        message := some "Template loaded successfully" }
    | .inheritedFunction =>
      { success := some true, message := some "Template loaded successfully" }

/-! ## Application manifests (`routes/app.js`) -/

/-- The body of a `POST /create-manifests` request of `app.js`. -/
structure AppManifestsBody where
  orgName : Option String := none
  repoName : Option String := none
  appName : Option String := none
  deploymentYaml : Option String := none
  deriving DecidableEq, Repr

/-- The `try` block of `router.post('/create-manifests')` (`app.js` 150-227).
`yamlLoad` is `yaml.load`, which throws an error with a message on a text it cannot
parse. -/
def appCreateManifestsTry (yamlLoad : String → Except String Unit) (b : AppManifestsBody)
    (w : World) :
    Except RemoteError Response × World :=
  if !truthy (getGitHubToken w) then
    (.ok { status := 400, success := some false, message := some "GitHub token not configured" }, w)
  else if !truthy b.appName || !truthy b.deploymentYaml then
    (.ok { status := 400, success := some false,
           message := some "Application name and deployment manifest are required" }, w)
  else
  -- Validate YAML
  match yamlLoad (str b.deploymentYaml) with
  | .error msg =>
    (.ok { status := 400, success := some false, message := some "Invalid YAML format",
           error := some msg }, w)
  | .ok _ =>
    -- Create manifests folder if it doesn't exist
    match ensureFolder b.orgName b.repoName "manifests" "Create manifests directory" w with
    | (.error e, w1) => (.error e, w1)
    | (.ok _, w1) =>
      -- Create app folder inside manifests
      let appFolderPath := "manifests/" ++ str b.appName
      match createOrUpdateFileContents b.orgName b.repoName (appFolderPath ++ "/.gitkeep")
          ("Create " ++ str b.appName ++ " directory") "" "main" w1 with
      | (.error e2, w2) => (.error e2, w2)
      | (.ok _, w2) =>
        -- Create deployment.yaml
        match createOrUpdateFileContents b.orgName b.repoName (appFolderPath ++ "/deployment.yaml")
            ("Add deployment for " ++ str b.appName) (str b.deploymentYaml) "main" w2 with
        | (.error e3, w3) => (.error e3, w3)
        | (.ok _, w3) =>
          (.ok { success := some true,
                 message := some "Application manifest created successfully" }, w3)

/-- The handler `router.post('/create-manifests')` of `app.js` with its `catch` (228-234). -/
def appCreateManifests (yamlLoad : String → Except String Unit) (b : AppManifestsBody)
    (w : World) : Response × World :=
  match appCreateManifestsTry yamlLoad b w with
  | (.ok res, w1) => (res, w1)
  | (.error e, w1) =>
    ({ status := 500, success := some false,
       message := some "Failed to create application manifest",
       error := some e.message }, w1)

/-- The text `JSON.stringify` prints for one character of a string. -/
def jsonEscapeChar (c : Char) : List Char :=
  if c = '"' then ['\\', '"']
  else if c = '\\' then ['\\', '\\']
  else if c = '\n' then ['\\', 'n']
  else if c = '\r' then ['\\', 'r']
  else if c = '\t' then ['\\', 't']
  else if c = '\x08' then ['\\', 'b']
  else if c = '\x0c' then ['\\', 'f']
  else if c.toNat < 32 then
    ['\\', 'u', '0', '0', Nat.digitChar (c.toNat / 16), Nat.digitChar (c.toNat % 16)]
  else [c]

/-- The text `JSON.stringify` prints for a string value. -/
def jsonString (s : String) : String :=
  "\"" ++ String.mk (s.data.flatMap jsonEscapeChar) ++ "\""

/-- The registration object `config` of `app.js` 262-273 (`mlAppConfig` of `ml.js`
261-272, `monitoringAppConfig` of `monitoring.js` 226-237); `labels` is always `null`
and `include_` is the key `include`. -/
structure AppConfig where
  appName : String
  userGivenName : String
  destNamespace : String
  destServer : String
  srcPath : String
  srcRepoURL : String
  srcTargetRevision : String
  exclude : String
  include_ : String
  deriving DecidableEq, Repr

/-- The text `JSON.stringify(config, null, 2)` of a registration object. -/
def AppConfig.stringify (c : AppConfig) : String :=
  String.join [
    "\x7b\n",
    "  \"appName\": " ++ jsonString c.appName ++ ",\n",
    "  \"userGivenName\": " ++ jsonString c.userGivenName ++ ",\n",
    "  \"destNamespace\": " ++ jsonString c.destNamespace ++ ",\n",
    "  \"destServer\": " ++ jsonString c.destServer ++ ",\n",
    "  \"srcPath\": " ++ jsonString c.srcPath ++ ",\n",
    "  \"srcRepoURL\": " ++ jsonString c.srcRepoURL ++ ",\n",
    "  \"srcTargetRevision\": " ++ jsonString c.srcTargetRevision ++ ",\n",
    "  \"labels\": null,\n",
    "  \"exclude\": " ++ jsonString c.exclude ++ ",\n",
    "  \"include\": " ++ jsonString c.include_ ++ "\n",
    "\x7d"]

/-- The keys of a registration object with their values, in the order of the object
literal; `none` is the value `null`. -/
def AppConfig.entries (c : AppConfig) : List (String × Option String) :=
  [("appName", some c.appName), ("userGivenName", some c.userGivenName),
   ("destNamespace", some c.destNamespace), ("destServer", some c.destServer),
   ("srcPath", some c.srcPath), ("srcRepoURL", some c.srcRepoURL),
   ("srcTargetRevision", some c.srcTargetRevision), ("labels", none),
   ("exclude", some c.exclude), ("include", some c.include_)]

/-- The text `JSON.stringify(o, null, 2)` prints for a non-empty object `o` whose
values are strings or `null`: one `"key": value` line per key, indented by two. -/
def jsonObject (entries : List (String × Option String)) : String :=
  "\x7b\n" ++
    String.intercalate ",\n"
      (entries.map fun e => "  " ++ jsonString e.1 ++ ": " ++ (e.2.map jsonString).getD "null") ++
    "\n\x7d"

/-- The body of a `POST /deploy` request of `app.js`. -/
structure AppDeployBody where
  orgName : Option String := none
  repoName : Option String := none
  appName : Option String := none
  destServer : Option String := none
  destNamespace : Option String := none
  deriving DecidableEq, Repr

/-- The object `config` of `app.js` 258-273; a missing `destServer` or
`destNamespace` takes its default (`app.js` 240). -/
def appDeployConfig (b : AppDeployBody) : AppConfig :=
  let destServer := b.destServer.getD "https://kubernetes.default.svc"
  let destNamespace := b.destNamespace.getD "default"
  let repoUrl := "https://github.com/" ++ str b.orgName ++ "/" ++ str b.repoName ++ ".git"
  let srcPath := "manifests/" ++ str b.appName ++ "/"
  { appName := str b.appName, userGivenName := str b.appName,
    destNamespace := destNamespace, destServer := destServer,
    srcPath := srcPath, srcRepoURL := repoUrl, srcTargetRevision := "",
    exclude := "", include_ := "" }

/-- The `try` block of `router.post('/deploy')` (`app.js` 239-321). -/
def appDeployTry (b : AppDeployBody) (w : World) : Except RemoteError Response × World :=
  if !truthy (getGitHubToken w) then
    (.ok { status := 400, success := some false, message := some "GitHub token not configured" }, w)
  else if !truthy b.orgName || !truthy b.repoName || !truthy b.appName then
    (.ok { status := 400, success := some false,
           message := some "Organization, repository and application name are required" }, w)
  else
    -- Create config_dir.json
    let config := appDeployConfig b
    -- Create apps folder if it doesn't exist
    match ensureFolder b.orgName b.repoName "apps" "Create apps directory" w with
    | (.error e, w1) => (.error e, w1)
    | (.ok _, w1) =>
      -- Create app folder inside apps
      let appFolderPath := "apps/" ++ str b.appName
      match createOrUpdateFileContents b.orgName b.repoName (appFolderPath ++ "/.gitkeep")
          ("Create " ++ str b.appName ++ " app directory") "" "main" w1 with
      | (.error e2, w2) => (.error e2, w2)
      | (.ok _, w2) =>
        -- Create config_dir.json
        match createOrUpdateFileContents b.orgName b.repoName (appFolderPath ++ "/config_dir.json")
            ("Add ArgoCD config for " ++ str b.appName) config.stringify "main" w2 with
        | (.error e3, w3) => (.error e3, w3)
        | (.ok _, w3) =>
          (.ok { success := some true,
                 message := some "Application deployment initiated in ArgoCD" }, w3)

/-- The handler `router.post('/deploy')` of `app.js` with its `catch` (322-328). -/
def appDeploy (b : AppDeployBody) (w : World) : Response × World :=
  match appDeployTry b w with
  | (.ok res, w1) => (res, w1)
  | (.error e, w1) =>
    ({ status := 500, success := some false,
       message := some "Failed to deploy application, already there",
       error := some e.message }, w1)

/-! ## ML models (`routes/ml.js`) -/

/-- The body of a `POST /deploy` request of `ml.js`. -/
structure MlDeployBody where
  orgName : Option String := none
  repoName : Option String := none
  modelName : Option String := none
  deploymentYaml : Option String := none
  deriving DecidableEq, Repr

/-- The `try` block of `router.post('/deploy')` (`ml.js` 87-164). -/
def mlDeployTry (yamlLoad : String → Except String Unit) (b : MlDeployBody) (w : World) :
    Except RemoteError Response × World :=
  if !truthy (getGitHubToken w) then
    (.ok { status := 400, success := some false, message := some "GitHub token not configured" }, w)
  else if !truthy b.orgName || !truthy b.repoName || !truthy b.modelName
      || !truthy b.deploymentYaml then
    (.ok { status := 400, success := some false,
           message := some "All required fields are missing" }, w)
  else
  -- Validate YAML
  match yamlLoad (str b.deploymentYaml) with
  | .error msg =>
    (.ok { status := 400, success := some false, message := some "Invalid YAML format",
           error := some msg }, w)
  | .ok _ =>
    -- Create ml-models folder if it doesn't exist
    match ensureFolder b.orgName b.repoName "ml-models" "Create ml-models directory" w with
    | (.error e, w1) => (.error e, w1)
    | (.ok _, w1) =>
      -- Create model folder inside ml-models
      let modelFolderPath := "ml-models/" ++ str b.modelName
      match createOrUpdateFileContents b.orgName b.repoName (modelFolderPath ++ "/.gitkeep")
          ("Create " ++ str b.modelName ++ " directory") "" "main" w1 with
      | (.error e2, w2) => (.error e2, w2)
      | (.ok _, w2) =>
        -- Create deployment.yaml
        match createOrUpdateFileContents b.orgName b.repoName
            (modelFolderPath ++ "/deployment.yaml")
            ("Add deployment for " ++ str b.modelName) (str b.deploymentYaml) "main" w2 with
        | (.error e3, w3) => (.error e3, w3)
        | (.ok _, w3) =>
          (.ok { success := some true,
                 message := some "ML model manifest created successfully" }, w3)

/-- The handler `router.post('/deploy')` of `ml.js` with its `catch` (165-171). -/
def mlDeploy (yamlLoad : String → Except String Unit) (b : MlDeployBody) (w : World) :
    Response × World :=
  match mlDeployTry yamlLoad b w with
  | (.ok res, w1) => (res, w1)
  | (.error e, w1) =>
    ({ status := 500, success := some false,
       message := some "Failed to create ML model manifest, already there",
       error := some e.message }, w1)

/-- The body of a `POST /deploy-argocd` request of `ml.js`. -/
structure MlDeployArgocdBody where
  orgName : Option String := none
  repoName : Option String := none
  modelName : Option String := none
  destServer : Option String := none
  destNamespace : Option String := none
  deriving DecidableEq, Repr

/-- The object `mlAppConfig` of `ml.js` 257-272; a missing `destServer` or
`destNamespace` takes its default (`ml.js` 239). -/
def mlAppConfig (b : MlDeployArgocdBody) : AppConfig :=
  let destServer := b.destServer.getD "https://kubernetes.default.svc"
  let destNamespace := b.destNamespace.getD "default"
  let repoUrl := "https://github.com/" ++ str b.orgName ++ "/" ++ str b.repoName ++ ".git"
  let srcPath := "ml-models/" ++ str b.modelName ++ "/"
  { appName := str b.modelName, userGivenName := str b.modelName,
    destNamespace := destNamespace, destServer := destServer,
    srcPath := srcPath, srcRepoURL := repoUrl, srcTargetRevision := "",
    exclude := "", include_ := "" }

/-- The `try` block of `router.post('/deploy-argocd')` (`ml.js` 238-320). -/
def mlDeployArgocdTry (b : MlDeployArgocdBody) (w : World) :
    Except RemoteError Response × World :=
  if !truthy (getGitHubToken w) then
    (.ok { status := 400, success := some false, message := some "GitHub token not configured" }, w)
  else if !truthy b.orgName || !truthy b.repoName || !truthy b.modelName then
    (.ok { status := 400, success := some false,
           message := some "Organization, repository and model name are required" }, w)
  else
    -- Create ArgoCD application config
    let config := mlAppConfig b
    -- Create apps folder if it doesn't exist
    match ensureFolder b.orgName b.repoName "apps" "Create apps directory" w with
    | (.error e, w1) => (.error e, w1)
    | (.ok _, w1) =>
      -- Create app folder inside apps
      let appFolderPath := "apps/" ++ str b.modelName
      match createOrUpdateFileContents b.orgName b.repoName (appFolderPath ++ "/.gitkeep")
          ("Create " ++ str b.modelName ++ " app directory") "" "main" w1 with
      | (.error e2, w2) => (.error e2, w2)
      | (.ok _, w2) =>
        -- Create config_dir.json for ArgoCD
        match createOrUpdateFileContents b.orgName b.repoName (appFolderPath ++ "/config_dir.json")
            ("Add ArgoCD config for " ++ str b.modelName) config.stringify "main" w2 with
        | (.error e3, w3) => (.error e3, w3)
        | (.ok _, w3) =>
          (.ok { success := some true,
                 message := some "ML model deployment initiated in ArgoCD" }, w3)

/-- The handler `router.post('/deploy-argocd')` of `ml.js` with its `catch` (321-327). -/
def mlDeployArgocd (b : MlDeployArgocdBody) (w : World) : Response × World :=
  match mlDeployArgocdTry b w with
  | (.ok res, w1) => (res, w1)
  | (.error e, w1) =>
    ({ status := 500, success := some false,
       message := some "Failed to deploy ML model via ArgoCD, already there",
       error := some e.message }, w1)

/-! ## Monitoring (`routes/monitoring.js`) -/

/-- The constant `grafanaDeploymentTemplate` (`monitoring.js` 15-40). -/
def grafanaDeploymentTemplate : String :=
  String.join [
    "apiVersion: apps/v1\n",
    "kind: Deployment\n",
    "metadata:\n",
    "  name: grafana\n",
    "  namespace: default\n",
    "spec:\n",
    "  replicas: 1\n",
    "  selector:\n",
    "    matchLabels:\n",
    "      app: grafana\n",
    "  template:\n",
    "    metadata:\n",
    "      labels:\n",
    "        app: grafana\n",
    "    spec:\n",
    "      containers:\n",
    "      - name: grafana\n",
    "        image: grafana/grafana\n",
    "        ports:\n",
    "        - containerPort: 3000\n",
    "        volumeMounts:\n",
    "        - name: grafana-storage\n",
    "          mountPath: /var/lib/grafana\n",
    "      volumes:\n",
    "      - name: grafana-storage\n",
    "        emptyDir: \x7b\x7d"]

/-- The body of a `POST /create-manifests` request of `monitoring.js`. -/
structure MonitoringManifestsBody where
  orgName : Option String := none
  repoName : Option String := none
  deriving DecidableEq, Repr

/-- The `try` block of `router.post('/create-manifests')` (`monitoring.js` 108-174). -/
def monitoringCreateManifestsTry (b : MonitoringManifestsBody) (w : World) :
    Except RemoteError Response × World :=
  if !truthy (getGitHubToken w) then
    (.ok { status := 400, success := some false, message := some "GitHub token not configured" }, w)
  else if !truthy b.orgName || !truthy b.repoName then
    (.ok { status := 400, success := some false,
           message := some "Organization and repository name are required" }, w)
  else
    -- Create monitoring folder if it doesn't exist
    match ensureFolder b.orgName b.repoName "monitoring" "Create monitoring directory" w with
    | (.error e, w1) => (.error e, w1)
    | (.ok _, w1) =>
      -- Create grafana folder inside monitoring
      let grafanaFolderPath := "monitoring/grafana"
      match createOrUpdateFileContents b.orgName b.repoName (grafanaFolderPath ++ "/.gitkeep")
          "Create grafana directory" "" "main" w1 with
      | (.error e2, w2) => (.error e2, w2)
      | (.ok _, w2) =>
        -- Create deployment.yaml
        match createOrUpdateFileContents b.orgName b.repoName
            (grafanaFolderPath ++ "/deployment.yaml")
            "Add deployment for Grafana" grafanaDeploymentTemplate "main" w2 with
        | (.error e3, w3) => (.error e3, w3)
        | (.ok _, w3) =>
          (.ok { success := some true,
                 message := some "Grafana manifests created successfully" }, w3)

/-- The handler `router.post('/create-manifests')` of `monitoring.js` with its `catch`
(175-181). -/
def monitoringCreateManifests (b : MonitoringManifestsBody) (w : World) : Response × World :=
  match monitoringCreateManifestsTry b w with
  | (.ok res, w1) => (res, w1)
  | (.error e, w1) =>
    ({ status := 500, success := some false,
       message := some "Failed to create Grafana manifests, already there",
       error := some e.message }, w1)

/-- The body of a `POST /deploy-argocd` request of `monitoring.js`. -/
structure MonitoringDeployBody where
  orgName : Option String := none
  repoName : Option String := none
  destServer : Option String := none
  destNamespace : Option String := none
  deriving DecidableEq, Repr

/-- The object `monitoringAppConfig` of `monitoring.js` 222-237; a missing
`destServer` or `destNamespace` takes its default (`monitoring.js` 187). -/
def monitoringAppConfig (b : MonitoringDeployBody) : AppConfig :=
  let destServer := b.destServer.getD "https://kubernetes.default.svc"
  let destNamespace := b.destNamespace.getD "default"
  let repoUrl := "https://github.com/" ++ str b.orgName ++ "/" ++ str b.repoName ++ ".git"
  let srcPath := "monitoring/grafana/"
  { appName := "grafana", userGivenName := "grafana",
    destNamespace := destNamespace, destServer := destServer,
    srcPath := srcPath, srcRepoURL := repoUrl, srcTargetRevision := "",
    exclude := "", include_ := "" }

/-- The `try` block of `router.post('/deploy-argocd')` (`monitoring.js` 186-282). -/
def monitoringDeployArgocdTry (b : MonitoringDeployBody) (w : World) :
    Except RemoteError Response × World :=
  if !truthy (getGitHubToken w) then
    (.ok { status := 400, success := some false, message := some "GitHub token not configured" }, w)
  else if !truthy b.orgName || !truthy b.repoName then
    (.ok { status := 400, success := some false,
           message := some "Organization and repository are required" }, w)
  else
    -- First verify manifests exist
    match getContent b.orgName b.repoName "monitoring/grafana/deployment.yaml" w with
    | (.error e, w1) =>
      if e.status == 404 then
        (.ok { status := 400, success := some false,
               message := some "Grafana manifests not found. Please create them first." }, w1)
      else (.error e, w1)
    | (.ok _, w1) =>
      -- Create ArgoCD application config
      let config := monitoringAppConfig b
      -- Create apps/grafana folder if it doesn't exist
      match ensureFolder b.orgName b.repoName "apps/grafana" "Create grafana app directory" w1 with
      | (.error e2, w2) => (.error e2, w2)
      | (.ok _, w2) =>
        -- Create config_dir.json for ArgoCD
        match createOrUpdateFileContents b.orgName b.repoName "apps/grafana/config_dir.json"
            "Add ArgoCD config for Grafana" config.stringify "main" w2 with
        | (.error e3, w3) => (.error e3, w3)
        | (.ok _, w3) =>
          -- Store deployment in DB
          (.ok { success := some true, message := some "Grafana deployment initiated in ArgoCD" },
           { w3 with monitoring := w3.monitoring ++
               [{ tool := "grafana", deployedAt := w3.now, status := "Deployed via ArgoCD" }] })

/-- The handler `router.post('/deploy-argocd')` of `monitoring.js` with its `catch`
(283-289). -/
def monitoringDeployArgocd (b : MonitoringDeployBody) (w : World) : Response × World :=
  match monitoringDeployArgocdTry b w with
  | (.ok res, w1) => (res, w1)
  | (.error e, w1) =>
    ({ status := 500, success := some false,
       message := some "Failed to deploy Grafana via ArgoCD, already there",
       error := some e.message }, w1)

/-! ## Language templates (`routes/github.js`) -/

/-- A template file of `github.js`: `{ content, description }`. -/
structure FileTemplate where
  content : String
  description : String
  deriving DecidableEq, Repr

/-- The templates of one language: `{ dockerfile, jenkinsfile }`. -/
structure LanguageTemplates where
  dockerfile : FileTemplate
  jenkinsfile : FileTemplate
  deriving DecidableEq, Repr

/-- The `dockerfile` template of `java` in `templates` of `github.js`. -/
def javaDockerfile : FileTemplate :=
  { content := String.join [
      "FROM eclipse-temurin:17-jdk-jammy\n",
      "WORKDIR /app\n",
      "COPY .mvn/ .mvn\n",
      "COPY mvnw pom.xml ./\n",
      "RUN ./mvnw dependency:go-offline\n",
      "COPY src ./src\n",
      "RUN ./mvnw package -DskipTests\n",
      "ENTRYPOINT [\"java\", \"-jar\", \"/app/target/*.jar\"]"],
    description := "Java Dockerfile template with Maven build" }

/-- The `jenkinsfile` template of `java` in `templates` of `github.js`. -/
def javaJenkinsfile : FileTemplate :=
  { content := String.join [
      "@Library(\x27shared-ci-cd\x27)_\n",
      "pipeline \x7b\n",
      "  agent any\n",
      "  stages \x7b\n",
      "    stage(\x27Build\x27) \x7b\n",
      "      steps \x7b\n",
      "        script \x7b\n",
      "          if(env.BRANCH_NAME == \x27main\x27) \x7b\n",
      "            sharedPipelineJavaMain()\n",
      "          \x7d else if (env.CHANGE_ID) \x7b\n",
      "            sharedPipelineJavaPR()\n",
      "          \x7d else \x7b\n",
      "            sharedPipelineJavaDev()\n",
      "          \x7d\n",
      "        \x7d\n",
      "      \x7d\n",
      "    \x7d\n",
      "  \x7d\n",
      "\x7d"],
    description := "Java Jenkinsfile template with shared library" }

/-- The `dockerfile` template of `python` in `templates` of `github.js`. -/
def pythonDockerfile : FileTemplate :=
  { content := String.join [
      "FROM python:3.9-slim\n",
      "WORKDIR /app\n",
      "COPY requirements.txt .\n",
      "RUN pip install --no-cache-dir -r requirements.txt\n",
      "COPY . .\n",
      "CMD [\"python\", \"app.py\"]"],
    description := "Python Dockerfile template" }

/-- The `jenkinsfile` template of `python` in `templates` of `github.js`. -/
def pythonJenkinsfile : FileTemplate :=
  { content := String.join [
      "@Library(\x27shared-ci-cd\x27)_\n",
      "pipeline \x7b\n",
      "  agent any\n",
      "  stages \x7b\n",
      "    stage(\x27Setup\x27) \x7b\n",
      "      steps \x7b\n",
      "        script \x7b\n",
      "          sh \x27python -m venv venv\x27\n",
      "          sh \x27source venv/bin/activate\x27\n",
      "        \x7d\n",
      "      \x7d\n",
      "    \x7d\n",
      "    stage(\x27Build\x27) \x7b\n",
      "      steps \x7b\n",
      "        script \x7b\n",
      "          if(env.BRANCH_NAME == \x27main\x27) \x7b\n",
      "            sharedPipelinePythonMain()\n",
      "          \x7d else \x7b\n",
      "            sharedPipelinePythonDev()\n",
      "          \x7d\n",
      "        \x7d\n",
      "      \x7d\n",
      "    \x7d\n",
      "  \x7d\n",
      "\x7d"],
    description := "Python Jenkinsfile template" }

/-- The `dockerfile` template of `nodejs` in `templates` of `github.js`. -/
def nodejsDockerfile : FileTemplate :=
  { content := String.join [
      "FROM node:18-alpine\n",
      "WORKDIR /app\n",
      "COPY package*.json ./\n",
      "RUN npm ci\n",
      "COPY . .\n",
      "RUN npm run build\n",
      "CMD [\"npm\", \"start\"]"],
    description := "Node.js Dockerfile template" }

/-- The `jenkinsfile` template of `nodejs` in `templates` of `github.js`. -/
def nodejsJenkinsfile : FileTemplate :=
  { content := String.join [
      "@Library(\x27shared-ci-cd\x27)_\n",
      "pipeline \x7b\n",
      "  agent any\n",
      "  stages \x7b\n",
      "    stage(\x27Build\x27) \x7b\n",
      "      steps \x7b\n",
      "        script \x7b\n",
      "          if(env.BRANCH_NAME == \x27main\x27) \x7b\n",
      "            sharedPipelineNodeMain()\n",
      "          \x7d else if (env.CHANGE_ID) \x7b\n",
      "            sharedPipelineNodePR()\n",
      "          \x7d else \x7b\n",
      "            sharedPipelineNodeDev()\n",
      "          \x7d\n",
      "        \x7d\n",
      "      \x7d\n",
      "    \x7d\n",
      "  \x7d\n",
      "\x7d"],
    description := "Node.js Jenkinsfile template" }

/-- The object `templates` of `router.get('/templates/:language')` (`github.js` 297-407). -/
def languageTemplatesTable : List (String × LanguageTemplates) :=
  [("java", { dockerfile := javaDockerfile, jenkinsfile := javaJenkinsfile }),
   ("python", { dockerfile := pythonDockerfile, jenkinsfile := pythonJenkinsfile }),
   ("nodejs", { dockerfile := nodejsDockerfile, jenkinsfile := nodejsJenkinsfile })]

/-- The response of `GET /templates/:language`: the status and the fields of the body. -/
structure LanguageTemplatesResponse where
  status : Nat := 200
  message : Option String := none
  language : Option String := none
  dockerfile : Option FileTemplate := none
  jenkinsfile : Option FileTemplate := none
  deriving DecidableEq, Repr

/-- The handler `router.get('/templates/:language')` of `github.js` (295-417): the body
is `{ language, ...templates[language] }`, and spreading a function or
`Object.prototype` adds no field. -/
def languageTemplates (language : String) : LanguageTemplatesResponse :=
  match readProperty languageTemplatesTable language with
  | .undefined => { status := 400, message := some "Unsupported language" }
  | .own t =>
    { language := some language, dockerfile := some t.dockerfile,
      jenkinsfile := some t.jenkinsfile }
  | .inheritedFunction => { language := some language }
  | .inheritedObject => { language := some language }

/-! ## Deployment templates (`app.js` 78-146, `ml.js` 15-83)

The module-level skeleton is one object graph that lives as long as the process.
A handler state is the value of that graph; `{ ...deploymentTemplate }` copies the
top-level fields only, so the copy owns `apiVersion` and `kind` and shares the
objects `metadata` and `spec` with the skeleton: an assignment through the copy
into `metadata` or `spec` is an assignment into the skeleton. -/

/-- The object `labels: { app }`. -/
structure Labels where
  app : String
  deriving DecidableEq, Repr

/-- The object `metadata: { name, labels }`. -/
structure Metadata where
  name : String
  labels : Labels
  deriving DecidableEq, Repr

/-- An item of `ports`. -/
structure Port where
  containerPort : Nat
  deriving DecidableEq, Repr

/-- An item of `containers`. -/
structure Container where
  name : String
  image : String
  ports : List Port
  deriving DecidableEq, Repr

/-- The object `spec.template.spec`. -/
structure PodSpec where
  containers : List Container
  deriving DecidableEq, Repr

/-- The object `spec.template.metadata`. -/
structure PodMetadata where
  labels : Labels
  deriving DecidableEq, Repr

/-- The object `spec.template`. -/
structure PodTemplate where
  metadata : PodMetadata
  spec : PodSpec
  deriving DecidableEq, Repr

/-- The object `spec.selector`. -/
structure Selector where
  matchLabels : Labels
  deriving DecidableEq, Repr

/-- The object `spec`. -/
structure DeploymentSpec where
  replicas : Nat
  selector : Selector
  template : PodTemplate
  deriving DecidableEq, Repr

/-- A Deployment object. -/
structure Deployment where
  apiVersion : String
  kind : String
  metadata : Metadata
  spec : DeploymentSpec
  deriving DecidableEq, Repr

/-- The constant `deploymentTemplate` as the module is loaded (`app.js` 78-111). -/
def deploymentTemplate : Deployment :=
  { apiVersion := "apps/v1", kind := "Deployment",
    metadata := { name := "", labels := { app := "" } },
    spec :=
      { replicas := 1,
        selector := { matchLabels := { app := "" } },
        template :=
          { metadata := { labels := { app := "" } },
            spec := { containers := [{ name := "", image := "", ports := [{ containerPort := 80 }] }] } } } }

/-- The constant `mlDeploymentTemplate` as the module is loaded (`ml.js` 15-48). -/
def mlDeploymentTemplate : Deployment :=
  { apiVersion := "apps/v1", kind := "Deployment",
    metadata := { name := "", labels := { app := "" } },
    spec :=
      { replicas := 1,
        selector := { matchLabels := { app := "" } },
        template :=
          { metadata := { labels := { app := "" } },
            spec := { containers := [{ name := "", image := "", ports := [{ containerPort := 5000 }] }] } } } }

/-- The six assignments of a templates handler (`app.js` 127-132, `ml.js` 64-69) on
the shared objects `metadata` and `spec`, in order.  The first four always succeed;
`containers[0].name = ...` throws a `TypeError` when `containers` is empty, and the
objects then keep the first four assignments. -/
def assignFields (name image : String) (s : Deployment) : Except String Unit × Deployment :=
  let s4 : Deployment :=
    { s with
      metadata := { s.metadata with
        name := name ++ "-deployment"
        labels := { s.metadata.labels with app := name } }
      spec := { s.spec with
        selector := { s.spec.selector with
          matchLabels := { s.spec.selector.matchLabels with app := name } }
        template := { s.spec.template with
          metadata := { s.spec.template.metadata with
            labels := { s.spec.template.metadata.labels with app := name } } } } }
  match s4.spec.template.spec.containers with
  | [] => (.error "Cannot set properties of undefined (setting 'name')", s4)
  | c :: cs =>
    (.ok (),
     { s4 with spec := { s4.spec with template := { s4.spec.template with
         spec := { s4.spec.template.spec with
           containers := { c with name := name, image := image } :: cs } } } })

/-- The query of `GET /templates` of `app.js`. -/
structure AppTemplatesQuery where
  appName : Option String := none
  image : Option String := none
  deriving DecidableEq, Repr

/-- The handler `router.get('/templates')` of `app.js` (114-146), run on the current
value `s` of the skeleton `deploymentTemplate`; it returns the response and the
value of the skeleton afterwards.  `dump` is `yaml.dump`; the object it prints is
the copy `deployment`, whose `apiVersion` and `kind` are those of the skeleton and
whose `metadata` and `spec` are the skeleton's own objects. -/
def appTemplates (dump : Deployment → String) (q : AppTemplatesQuery) (s : Deployment) :
    Response × Deployment :=
  if !truthy q.appName || !truthy q.image then
    ({ status := 400, success := some false,
       message := some "Application name and image are required" }, s)
  else
    -- Create deployment.yaml
    match assignFields (str q.appName) (str q.image) s with
    | (.ok _, s1) =>
      let deployment : Deployment :=
        { apiVersion := s.apiVersion, kind := s.kind, metadata := s1.metadata, spec := s1.spec }
      ({ success := some true, deployment := some (dump deployment),
         message := some "Template generated successfully" }, s1)
    | (.error msg, s1) =>
      ({ status := 500, success := some false, message := some "Failed to generate template",
         error := some msg }, s1)

/-- The query of `GET /templates` of `ml.js`. -/
structure MlTemplatesQuery where
  modelName : Option String := none
  image : Option String := none
  deriving DecidableEq, Repr

/-- The handler `router.get('/templates')` of `ml.js` (51-83), run on the current
value `s` of the skeleton `mlDeploymentTemplate`. -/
def mlTemplates (dump : Deployment → String) (q : MlTemplatesQuery) (s : Deployment) :
    Response × Deployment :=
  if !truthy q.modelName || !truthy q.image then
    ({ status := 400, success := some false,
       message := some "Model name and image are required" }, s)
  else
    -- Create deployment.yaml
    match assignFields (str q.modelName) (str q.image) s with
    | (.ok _, s1) =>
      let deployment : Deployment :=
        { apiVersion := s.apiVersion, kind := s.kind, metadata := s1.metadata, spec := s1.spec }
      ({ success := some true, deployment := some (dump deployment),
         message := some "ML template generated successfully" }, s1)
    | (.error msg, s1) =>
      ({ status := 500, success := some false, message := some "Failed to generate ML template",
         error := some msg }, s1)

/-- The skeleton of `app.js` after the process has served the `/templates` requests
`qs`, oldest first. -/
def appSkeletonAfter (dump : Deployment → String) (qs : List AppTemplatesQuery) : Deployment :=
  qs.foldl (fun s q => (appTemplates dump q s).2) deploymentTemplate

/-- The skeleton of `ml.js` after the process has served the `/templates` requests
`qs`, oldest first. -/
def mlSkeletonAfter (dump : Deployment → String) (qs : List MlTemplatesQuery) : Deployment :=
  qs.foldl (fun s q => (mlTemplates dump q s).2) mlDeploymentTemplate

/-- The Deployment a templates handler is meant to print for a name, an image and the
port of its domain. -/
def filled (name image : String) (port : Nat) : Deployment :=
  { apiVersion := "apps/v1", kind := "Deployment",
    metadata := { name := name ++ "-deployment", labels := { app := name } },
    spec :=
      { replicas := 1,
        selector := { matchLabels := { app := name } },
        template :=
          { metadata := { labels := { app := name } },
            spec := { containers := [{ name := name, image := image,
                                       ports := [{ containerPort := port }] }] } } } }

/-- The same Deployment with every container port replaced by `port`. -/
def Deployment.withContainerPort (d : Deployment) (port : Nat) : Deployment :=
  { d with spec := { d.spec with template := { d.spec.template with
      spec := { d.spec.template.spec with
        containers := d.spec.template.spec.containers.map fun c =>
          { c with ports := c.ports.map fun _ => { containerPort := port } } } } } }

/-- The branch a write names; a read names none and addresses the default branch. -/
def Call.branch : Call → Option String
  | .createOrUpdateFileContents _ _ _ _ _ branch => some branch
  | .getContent _ _ _ => none

/-- Every write of a trace names the branch `main`. -/
def writesOnMain (log : List Call) : Prop := ∀ c ∈ log, c.isWrite = true → c.branch = some "main"

/-! ## Organization connections (`routes/github.js`) -/

/-- The fields of the answer of `octokit.rest.orgs.get` that the routes read. -/
structure OrgData where
  login : String
  id : Nat
  avatar_url : String
  deriving DecidableEq, Repr

/-- The fields of a repository of `octokit.rest.repos.listForOrg` that the routes read. -/
structure RemoteRepo where
  id : Nat
  name : String
  full_name : String
  private_ : Bool
  html_url : String
  default_branch : String
  deriving DecidableEq, Repr

/-- A repository as the routes store and return it (`github.js` 159-166, 275-282). -/
structure Repo where
  id : Nat
  name : String
  fullName : String
  private_ : Bool
  url : String
  defaultBranch : String
  deriving DecidableEq, Repr

/-- The mapping of a listed repository to the six fields the routes keep. -/
def toRepo (repo : RemoteRepo) : Repo :=
  { id := repo.id, name := repo.name, fullName := repo.full_name, private_ := repo.private_,
    url := repo.html_url, defaultBranch := repo.default_branch }

/-- A document of the collection `githubConnections`. The collection has no schema: a
document without a `repos` list has `repos = none`. -/
structure Connection where
  orgName : String
  orgId : Nat
  avatarUrl : String
  connectedAt : Nat
  reposCount : Nat
  repos : Option (List Repo)
  deriving DecidableEq, Repr

/-- The two remote operations of the connection routes, as answers by organization
name. -/
structure GitHubApi where
  orgsGet : String → Except RemoteError OrgData
  listForOrg : String → Except RemoteError (List RemoteRepo)

/-- A remote call of the connection routes. -/
inductive ApiCall where
  | orgsGet (org : String)
  | listForOrg (org : String)
  deriving DecidableEq, Repr

/-- The database and the trace of remote calls seen by the connection routes. -/
structure Store where
  /-- The `token` of the token document of `githubConfig`, if any. -/
  token : Option String := none
  /-- The collection `githubConnections`, in insertion order. -/
  connections : List Connection := []
  /-- The remote calls issued so far, oldest first. -/
  calls : List ApiCall := []
  /-- The clock read by `new Date()`. -/
  now : Nat := 0

/-- The query `findOne` by `orgName` on `githubConnections`: the first document whose
`orgName` is the given string. -/
def findOne (connections : List Connection) (orgName : String) : Option Connection :=
  connections.find? fun c => c.orgName == orgName

/-- The `org` object of a `/connect` answer. -/
structure OrgSummary where
  name : String
  id : Nat
  avatarUrl : String
  reposCount : Nat
  deriving DecidableEq, Repr

/-- The JSON answer of `POST /connect` with its HTTP status. -/
structure ConnectResponse where
  status : Nat := 200
  message : String
  org : Option OrgSummary := none
  existing : Option Bool := none
  repositories : Option (List Repo) := none
  error : Option String := none
  solution : Option String := none
  deriving DecidableEq, Repr

/-- The body of a `POST /connect` request. -/
structure ConnectBody where
  orgName : Option String := none
  deriving DecidableEq, Repr

/-- The `catch` block of `router.post('/connect')` (`github.js` 181-199). -/
def connectCatch (error : RemoteError) : ConnectResponse :=
  let errorMessage :=
    if error.status == 404 then "Organization not found"
    else if error.status == 403 then "Token lacks sufficient permissions"
    else "Failed to connect to organization"
  let solution :=
    if error.status == 404 then "Verify the organization name is correct"
    else if error.status == 403 then "Ensure token has admin:org and repo scopes"
    else "Please check the organization name and token permissions"
  { status := if error.status != 0 then error.status else 500,
    message := errorMessage, error := some error.message, solution := some solution }

/-- The handler `router.post('/connect')` (`github.js` 111-200). -/
def connect (api : GitHubApi) (b : ConnectBody) (s : Store) : ConnectResponse × Store :=
  if !truthy b.orgName then
    ({ status := 400, message := "Organization name is required",
       solution := some "Please provide a valid GitHub organization name" }, s)
  else if !truthy s.token then
    ({ status := 400, message := "GitHub token not configured",
       solution := some "First call /set-token endpoint with a valid GitHub token" }, s)
  else
    let orgName := str b.orgName
    let s1 := { s with calls := s.calls ++ [.orgsGet orgName] }
    match api.orgsGet orgName with
    | .error e => (connectCatch e, s1)
    | .ok orgData =>
      match findOne s1.connections orgName with
      | some existingConnection =>
        ({ message := "Organization already connected",
           org := some { name := orgData.login, id := orgData.id,
                         avatarUrl := orgData.avatar_url,
                         reposCount := existingConnection.reposCount },
           existing := some true }, s1)
      | none =>
        let s2 := { s1 with calls := s1.calls ++ [.listForOrg orgName] }
        match api.listForOrg orgName with
        | .error e => (connectCatch e, s2)
        | .ok repos =>
          let connection : Connection :=
            { orgName := orgData.login, orgId := orgData.id, avatarUrl := orgData.avatar_url,
              connectedAt := s2.now, reposCount := repos.length,
              repos := some (repos.map toRepo) }
          ({ message := "Connected successfully",
             org := some { name := orgData.login, id := orgData.id,
                           avatarUrl := orgData.avatar_url, reposCount := repos.length },
             repositories := connection.repos },
           { s2 with connections := s2.connections ++ [connection] })

/-- The JSON answer of `GET /repos/:orgName` with its HTTP status. -/
structure ReposResponse where
  status : Nat := 200
  message : Option String := none
  org : Option String := none
  count : Option Nat := none
  repositories : Option (List Repo) := none
  source : Option String := none
  error : Option String := none
  deriving DecidableEq, Repr

/-- The handler `router.get('/repos/:orgName')` (`github.js` 247-292). The test
`orgConnection?.repos` holds for every stored list, the empty one included. -/
def listRepos (api : GitHubApi) (orgName : String) (s : Store) : ReposResponse × Store :=
  if !truthy s.token then
    ({ status := 400, message := some "GitHub token not configured" }, s)
  else
    let orgConnection := findOne s.connections orgName
    match orgConnection.bind fun c => c.repos with
    | some repos =>
      ({ org := some orgName, count := orgConnection.map fun c => c.reposCount,
         repositories := some repos, source := some "cache" }, s)
    | none =>
      let s1 := { s with calls := s.calls ++ [.listForOrg orgName] }
      match api.listForOrg orgName with
      | .error e =>
        ({ status := 500, message := some "Failed to fetch repositories",
           error := some e.message }, s1)
      | .ok repos =>
        ({ org := some orgName, count := some repos.length,
           repositories := some (repos.map toRepo), source := some "api" }, s1)

/-- Every stored record that holds a repository list has `reposCount` equal to the
length of that list. -/
def countsAgree (connections : List Connection) : Prop :=
  ∀ c ∈ connections, ∀ l, c.repos = some l → c.reposCount = l.length

/-! ## Listings (`cicd.js` 61-113, `cluster.js` 68-105) -/

/-- JavaScript `s.endsWith(suffix)`. -/
def endsWith (s suffix : String) : Bool := suffix.data.isSuffixOf s.data

/-- An item of a listing answer. The source also copies `html_url` (and, for
pipelines, `sha`) from the remote entry; `Entry` does not carry them. -/
structure ListingItem where
  name : String
  path : String
  deriving DecidableEq, Repr

/-- The answer of a listing route with its HTTP status. `existing-projects` answers
the bare list, which is `items` here. -/
structure ListingResponse where
  status : Nat := 200
  success : Option Bool := none
  items : Option (List ListingItem) := none
  message : Option String := none
  error : Option String := none
  deriving DecidableEq, Repr

/-- The handler `router.get('/existing-pipelines')` (`cicd.js` 61-113). -/
def existingPipelines (orgName repoName : Option String) (w : World) : ListingResponse × World :=
  if !truthy (getGitHubToken w) then
    ({ status := 400, success := some false, message := some "GitHub token not configured" }, w)
  else
    match getContent orgName repoName "cicd" w with
    | (.ok data, w1) =>
      let pipelines : List Entry :=
        match data with
        | .dir entries => entries.filter fun file => endsWith file.name ".groovy"
        | .file _ _ => []
      ({ success := some true,
         items := some (pipelines.map fun file => ({ name := file.name, path := file.path } : ListingItem)) },
       w1)
    | (.error error, w1) =>
      if error.status == 404 then ({ success := some true, items := some [] }, w1)
      else
        ({ status := 500, success := some false, message := some "Failed to fetch pipelines",
           error := some error.message }, w1)

/-- The handler `router.get('/existing-projects')` (`cluster.js` 68-105). -/
def existingProjects (orgName repoName : Option String) (w : World) : ListingResponse × World :=
  if !truthy (getGitHubToken w) then
    ({ status := 400, message := some "GitHub token not configured" }, w)
  else
    match getContent orgName repoName "projects" w with
    | (.ok data, w1) =>
      let projects : List Entry :=
        match data with
        | .dir entries =>
          entries.filter fun f => endsWith f.name ".yaml" || endsWith f.name ".yml"
        | .file _ _ => []
      ({ items := some (projects.map fun p => ({ name := p.name, path := p.path } : ListingItem)) }, w1)
    | (.error error, w1) =>
      if error.status == 404 then ({ items := some [] }, w1)
      else
        ({ status := 500, message := some "Failed to fetch projects",
           error := some error.message }, w1)

/-! ## Traces of a run -/

/-- The content a write carries; a read carries none. -/
def Call.content : Call → String
  | .createOrUpdateFileContents _ _ _ _ content _ => content
  | .getContent _ _ _ => ""

/-- The remote tree after the calls `l`, the first of which is call number `n`: every
write that is not scheduled to fail stores its file, every other call leaves the tree
as it is. -/
def replay (faults : Nat → Option RemoteError) : Nat → List Call → Tree → Tree
  | _, [], t => t
  | n, c :: cs, t =>
    replay faults (n + 1) cs
      (if c.isWrite && (faults n).isNone then putFile t c.path c.content else t)

/-- The call at position `k` of the calls `l` issued from `w` on failed: a write that
raised an error, or a read that raised an error other than 404. -/
def failedAt (w : World) (l : List Call) (k : Nat) : Prop :=
  ∃ c e, l[k]? = some c ∧ w.faults (w.log.length + k) = some e ∧
    (c.isWrite = true ∨ e.status ≠ 404)

/-- A piece of a run from `w` to `w1` that issued the calls `l`: the log grew by `l`, the
tree is the replay of `l`, and a failed call is the last one and ends the piece with an
error (`ok = false`). -/
structure Traced (w : World) (ok : Bool) (w1 : World) (l : List Call) : Prop where
  log : w1.log = w.log ++ l
  faults : w1.faults = w.faults
  tree : w1.tree = replay w.faults w.log.length l w.tree
  abort : ∀ k, failedAt w l k → k + 1 = l.length ∧ ok = false

/-- A step of a workflow after its validation: ensure a folder, or write a file. -/
inductive Step where
  | ensure (dir message : String)
  | write (path message content : String)

/-- One step, as the handlers perform it: an error ends the step. -/
def runStep (o r : Option String) : Step → World → Except RemoteError Unit × World
  | .ensure d m, w => ensureFolder o r d m w
  | .write p m c, w =>
    match createOrUpdateFileContents o r p m c "main" w with
    | (.ok _, w1) => (.ok (), w1)
    | (.error e, w1) => (.error e, w1)

/-- The steps in order, as the handlers chain them: the first error ends the chain. -/
def runSteps (o r : Option String) : List Step → World → Except RemoteError Unit × World
  | [], w => (.ok (), w)
  | s :: ss, w =>
    match runStep o r s w with
    | (.ok _, w1) => runSteps o r ss w1
    | (.error e, w1) => (.error e, w1)

/-- The calls a step can issue, in order. -/
def Step.calls (o r : Option String) : Step → List Call
  | .ensure d m => [.getContent o r d, marker o r d m]
  | .write p m c => [.createOrUpdateFileContents o r p m c "main"]

/-- The calls a chain of steps can issue, in order. -/
def maxTrace (o r : Option String) : List Step → List Call
  | [] => []
  | s :: ss => s.calls o r ++ maxTrace o r ss

/-- Whether a result is a value. -/
def isOk {ε α : Type} : Except ε α → Bool
  | .ok _ => true
  | .error _ => false

/-- What tells the calls of one run apart: the kind of call and its path. -/
def Call.key (c : Call) : Bool × String := (c.isWrite, c.path)

/-- The workflow aborts at the first remote call that fails: the calls `l` the run
issued after `w.log` are pairwise distinct; a failed call is the last call and the
answer is a failure; every write that did not fail has its file, with the content
written, in the tree the run leaves. -/
def abortsAtFirstFailure (w : World) (out : Response × World) : Prop :=
  ∃ l, out.2.log = w.log ++ l ∧ l.Nodup ∧
    (∀ k, failedAt w l k →
      l.length = k + 1 ∧ 400 ≤ out.1.status ∧ out.1.success ≠ some true) ∧
    (∀ k c, l[k]? = some c → c.isWrite = true → w.faults (w.log.length + k) = none →
      fileAt out.2.tree c.path = some c.content)

/-- Whenever the run issued the write `leaf`, after the calls `a`, the folder is in the
remote tree at that moment, and it was there before the run or the marker write `mark`
is among the calls `a` and did not fail. -/
def folderPresentAtLeaf (w : World) (out : Response × World) (leaf : Call) (folder : String)
    (mark : Call) : Prop :=
  ∀ a post, out.2.log = w.log ++ a ++ leaf :: post →
    pathExists (replay w.faults w.log.length a w.tree) folder = true ∧
    (pathExists w.tree folder = true ∨
      ∃ j, a[j]? = some mark ∧ mark.content = "" ∧ w.faults (w.log.length + j) = none)

/-- The run from `w0` that produced `out` issued the reads `l0`, reached `w`, and from
there went through the steps. -/
structure Follows (w0 : World) (out : Response × World) (l0 : List Call) (w : World)
    (o r : Option String) (steps : List Step) : Prop where
  reads : Traced w0 true w l0
  same : w.tree = w0.tree
  log : out.2.log = (runSteps o r steps w).2.log
  tree : out.2.tree = (runSteps o r steps w).2.tree
  faults : out.2.faults = (runSteps o r steps w).2.faults
  failure : isOk (runSteps o r steps w).1 = false →
    400 ≤ out.1.status ∧ out.1.success ≠ some true

/-- The steps of `POST /create-manifests` of `app.js` after its validation. -/
def appCreateManifestsSteps (b : AppManifestsBody) : List Step :=
  [.ensure "manifests" "Create manifests directory",
   .write ("manifests/" ++ str b.appName ++ "/.gitkeep")
     ("Create " ++ str b.appName ++ " directory") "",
   .write ("manifests/" ++ str b.appName ++ "/deployment.yaml")
     ("Add deployment for " ++ str b.appName) (str b.deploymentYaml)]

/-- The steps of `POST /deploy` of `app.js` after its validation. -/
def appDeploySteps (b : AppDeployBody) : List Step :=
  [.ensure "apps" "Create apps directory",
   .write ("apps/" ++ str b.appName ++ "/.gitkeep")
     ("Create " ++ str b.appName ++ " app directory") "",
   .write ("apps/" ++ str b.appName ++ "/config_dir.json")
     ("Add ArgoCD config for " ++ str b.appName) (appDeployConfig b).stringify]

/-- The steps of `POST /deploy` of `ml.js` after its validation. -/
def mlDeploySteps (b : MlDeployBody) : List Step :=
  [.ensure "ml-models" "Create ml-models directory",
   .write ("ml-models/" ++ str b.modelName ++ "/.gitkeep")
     ("Create " ++ str b.modelName ++ " directory") "",
   .write ("ml-models/" ++ str b.modelName ++ "/deployment.yaml")
     ("Add deployment for " ++ str b.modelName) (str b.deploymentYaml)]

/-- The steps of `POST /deploy-argocd` of `ml.js` after its validation. -/
def mlDeployArgocdSteps (b : MlDeployArgocdBody) : List Step :=
  [.ensure "apps" "Create apps directory",
   .write ("apps/" ++ str b.modelName ++ "/.gitkeep")
     ("Create " ++ str b.modelName ++ " app directory") "",
   .write ("apps/" ++ str b.modelName ++ "/config_dir.json")
     ("Add ArgoCD config for " ++ str b.modelName) (mlAppConfig b).stringify]

/-- The steps of `POST /create-manifests` of `monitoring.js` after its validation. -/
def monitoringCreateManifestsSteps : List Step :=
  [.ensure "monitoring" "Create monitoring directory",
   .write "monitoring/grafana/.gitkeep" "Create grafana directory" "",
   .write "monitoring/grafana/deployment.yaml" "Add deployment for Grafana"
     grafanaDeploymentTemplate]

/-- The steps of `POST /deploy-argocd` of `monitoring.js` after the manifests were
found. -/
def monitoringDeployArgocdSteps (b : MonitoringDeployBody) : List Step :=
  [.ensure "apps/grafana" "Create grafana app directory",
   .write "apps/grafana/config_dir.json" "Add ArgoCD config for Grafana"
     (monitoringAppConfig b).stringify]

/-- The steps of `POST /create-pipeline` after its validation. -/
def createPipelineSteps (b : CreatePipelineBody) : List Step :=
  [.ensure "cicd" "Create CICD directory",
   .write (pipelinePath (str b.pipelineName))
     ("Add " ++ str b.pipelineName ++ " pipeline via InfraPilotX") (str b.pipelineContent)]

/-- The steps of `POST /create-project` after the leaf was found absent. -/
def createProjectSteps (b : CreateProjectBody) : List Step :=
  [.ensure "projects" "Create projects directory",
   .write (projectPath (str b.projectName)) ("Add project " ++ str b.projectName)
     (projectYaml (str b.projectName) (str b.clusterUrl) (str b.repoUrl))]

/-! ## Example requests and repositories -/

/-- A parser that accepts every text, standing for `yaml.load` on valid manifests. -/
def acceptAll : String → Except String Unit := fun _ => .ok ()

/-- A repository that already holds the manifest of the app `billing`. -/
def billingWorld : World :=
  { token := some "ghp_x", tree := [("manifests/billing/deployment.yaml", "kind: Deployment")] }

/-- A create-manifests request for the app `billing`. -/
def billingManifests : AppManifestsBody :=
  { orgName := some "acme", repoName := some "infra", appName := some "billing",
    deploymentYaml := some "kind: Deployment\nmetadata: \x7b\x7d" }

/-- A repository that holds a pipeline script with the empty name, `cicd/.groovy`, and
one named `build`. -/
def pipelinesWorld : World :=
  { token := some "ghp_x", tree := [("cicd/.groovy", "old"), ("cicd/build.groovy", "old")] }

/-- The repository of `pipelinesWorld` when the second remote call, the write that
follows the folder read, is refused with status 422. -/
def pipelineWriteRefused : World :=
  { pipelinesWorld with
    faults := fun n => if n = 1 then some { status := 422, message := "sha wasn\x27t supplied" }
      else none }

/-- A repository in which the app `billing` is already registered. -/
def billingRegistered : World :=
  { token := some "ghp_x", tree := [("apps/billing/config_dir.json", "\x7b\x7d")] }

/-- A deploy request for the app `billing`. -/
def billingDeploy : AppDeployBody :=
  { orgName := some "acme", repoName := some "infra", appName := some "billing" }

/-- The ten keys of a registration object, in order. -/
def configKeys : List String :=
  ["appName", "userGivenName", "destNamespace", "destServer", "srcPath", "srcRepoURL",
   "srcTargetRevision", "labels", "exclude", "include"]

/-- A parser that rejects every text, standing for `yaml.load` on a malformed manifest. -/
def rejectAll : String → Except String Unit := fun _ => .error "bad indentation of a mapping entry"

/-- A repository for which no token is stored. -/
def noTokenWorld : World :=
  { tree := [("manifests/billing/deployment.yaml", "kind: Deployment")] }

/-- A repository whose first remote call is refused with status 403. -/
def firstReadForbidden : World :=
  { token := some "ghp_x",
    faults := fun n => if n = 0 then some { status := 403, message := "Forbidden" } else none }

/-- A repository whose default branch is `master`, as listed by the remote. -/
def legacyRemoteRepo : RemoteRepo :=
  { id := 7, name := "infra", full_name := "Acme/infra", private_ := false,
    html_url := "https://github.com/Acme/infra", default_branch := "master" }

/-- A remote that knows one organization, whose login is spelled `Acme` and which it
finds under either spelling, and lists its one repository. -/
def acmeApi : GitHubApi :=
  { orgsGet := fun org =>
      if org == "acme" || org == "Acme" then
        .ok { login := "Acme", id := 1, avatar_url := "https://avatars.example/1" }
      else .error notFound
    listForOrg := fun org =>
      if org == "acme" || org == "Acme" then .ok [legacyRemoteRepo] else .error notFound }

/-- A store with a token and no connection. -/
def emptyStore : Store := { token := some "ghp_x" }

/-- A repository with a token in which the remote refuses the third call of the next
run. -/
def thirdCallRefused : World :=
  { token := some "ghp_x",
    faults := fun n => if n = 2 then some { status := 500, message := "Server Error" } else none }

/-! # Theorems -/

/-! ## The remote store: basic facts -/

theorem quiet_record {w : World} (c : Call) (h : quiet w) : quiet (record c w) := by
  intro n hn
  apply h
  simp [record] at hn
  omega

theorem quiet_head {w : World} (h : quiet w) : w.faults w.log.length = none :=
  h _ (Nat.le_refl _)

theorem getContent_through {w : World} (owner repo : Option String) (path : String)
    (h : w.faults w.log.length = none) :
    getContent owner repo path w =
      (if pathExists w.tree path then .ok (contentAt w.tree path) else .error notFound,
       record (.getContent owner repo path) w) := by
  simp only [getContent, h]
  split <;> rfl

theorem createOrUpdateFileContents_through {w : World} (owner repo : Option String)
    (path message content branch : String) (h : w.faults w.log.length = none) :
    createOrUpdateFileContents owner repo path message content branch w =
      (.ok { html_url := htmlUrl owner repo branch path },
       committed owner repo path message content branch w) := by
  simp only [createOrUpdateFileContents, h]

theorem fileAt_putFile_self (t : Tree) (path content : String) :
    fileAt (putFile t path content) path = some content := by
  induction t with
  | nil => simp [putFile, fileAt]
  | cons f t ih =>
    by_cases hf : f.1 = path
    · simp [putFile, fileAt, hf]
    · have hb : (f.1 == path) = false := by simpa using hf
      simp only [fileAt] at ih
      simp [putFile, fileAt, hb, List.find?_cons, ih]

theorem pathExists_putFile_self (t : Tree) (path content : String) :
    pathExists (putFile t path content) path = true := by
  induction t with
  | nil => simp [putFile, pathExists]
  | cons f t ih =>
    by_cases hf : f.1 = path
    · simp [putFile, pathExists, hf]
    · simp only [pathExists] at ih
      simp [putFile, pathExists, hf, ih]

/-- A write into a folder makes the folder exist. -/
theorem pathExists_putFile_child (t : Tree) (dir rest content : String) :
    pathExists (putFile t (dir ++ "/" ++ rest) content) dir = true := by
  induction t with
  | nil => simp [putFile, pathExists, String.data_append]
  | cons f t ih =>
    by_cases hf : f.1 = dir ++ "/" ++ rest
    · simp [putFile, pathExists, hf, String.data_append]
    · simp only [pathExists] at ih
      simp [putFile, pathExists, hf, ih]

/-- A write removes no path. -/
theorem pathExists_putFile_mono (t : Tree) (path content q : String)
    (h : pathExists t q = true) : pathExists (putFile t path content) q = true := by
  induction t with
  | nil => simp [pathExists] at h
  | cons f t ih =>
    by_cases hf : f.1 = path
    · subst hf
      simpa [putFile, pathExists] using h
    · have hb : (f.1 == path) = false := by simpa using hf
      simp only [pathExists, List.any_cons, Bool.or_eq_true] at h ih ⊢
      simp only [putFile, hb, Bool.false_eq_true, if_false, List.any_cons, Bool.or_eq_true]
      rcases h with h | h
      · exact Or.inl h
      · exact Or.inr (ih h)

/-- A path below a folder exists only if the folder does. -/
theorem pathExists_parent (t : Tree) (dir rest : String)
    (h : pathExists t (dir ++ "/" ++ rest) = true) : pathExists t dir = true := by
  simp only [pathExists, List.any_eq_true, Bool.or_eq_true, beq_iff_eq] at h ⊢
  obtain ⟨f, hf, h⟩ := h
  refine ⟨f, hf, Or.inr ?_⟩
  rcases h with h | h
  · rw [h]; simp [String.data_append]
  · rw [List.isPrefixOf_iff_prefix] at h ⊢
    refine List.IsPrefix.trans ?_ h
    simp [String.data_append]

@[simp] theorem record_log (c : Call) (w : World) : (record c w).log = w.log ++ [c] := rfl
@[simp] theorem record_tree (c : Call) (w : World) : (record c w).tree = w.tree := rfl
@[simp] theorem record_token (c : Call) (w : World) : (record c w).token = w.token := rfl
@[simp] theorem record_faults (c : Call) (w : World) : (record c w).faults = w.faults := rfl
@[simp] theorem record_monitoring (c : Call) (w : World) :
    (record c w).monitoring = w.monitoring := rfl

@[simp] theorem committed_log (o r : Option String) (p m c b : String) (w : World) :
    (committed o r p m c b w).log = w.log ++ [.createOrUpdateFileContents o r p m c b] := rfl
@[simp] theorem committed_tree (o r : Option String) (p m c b : String) (w : World) :
    (committed o r p m c b w).tree = putFile w.tree p c := rfl
@[simp] theorem committed_token (o r : Option String) (p m c b : String) (w : World) :
    (committed o r p m c b w).token = w.token := rfl
@[simp] theorem committed_faults (o r : Option String) (p m c b : String) (w : World) :
    (committed o r p m c b w).faults = w.faults := rfl
@[simp] theorem committed_monitoring (o r : Option String) (p m c b : String) (w : World) :
    (committed o r p m c b w).monitoring = w.monitoring := rfl

theorem quiet_committed {w : World} (o r : Option String) (p m c b : String) (h : quiet w) :
    quiet (committed o r p m c b w) := by
  intro n hn
  apply h
  simp at hn
  omega

theorem ensured_log (o r : Option String) (d m : String) (w : World) :
    (ensured o r d m w).log = w.log ++ [.getContent o r d] ++
      (if pathExists w.tree d then []
       else [.createOrUpdateFileContents o r (d ++ "/.gitkeep") m "" "main"]) := by
  unfold ensured; split <;> simp

theorem ensured_tree (o r : Option String) (d m : String) (w : World) :
    (ensured o r d m w).tree =
      if pathExists w.tree d then w.tree else putFile w.tree (d ++ "/.gitkeep") "" := by
  unfold ensured; split <;> simp

@[simp] theorem ensured_token (o r : Option String) (d m : String) (w : World) :
    (ensured o r d m w).token = w.token := by
  unfold ensured; split <;> simp

@[simp] theorem ensured_faults (o r : Option String) (d m : String) (w : World) :
    (ensured o r d m w).faults = w.faults := by
  unfold ensured; split <;> simp

@[simp] theorem ensured_monitoring (o r : Option String) (d m : String) (w : World) :
    (ensured o r d m w).monitoring = w.monitoring := by
  unfold ensured; split <;> simp

theorem quiet_ensured {w : World} (o r : Option String) (d m : String) (h : quiet w) :
    quiet (ensured o r d m w) := by
  unfold ensured
  split
  · exact quiet_record _ h
  · exact quiet_committed _ _ _ _ _ _ (quiet_record _ h)

theorem marker_path (d : String) : d ++ "/.gitkeep" = d ++ "/" ++ ".gitkeep" := by
  rw [String.append_assoc]; rfl

/-- The folder exists after the step. -/
theorem pathExists_ensured (o r : Option String) (d m : String) (w : World) :
    pathExists (ensured o r d m w).tree d = true := by
  rw [ensured_tree]
  split
  · assumption
  · rw [marker_path]; exact pathExists_putFile_child _ _ _ _

/-- The step keeps every path. -/
theorem pathExists_ensured_mono (o r : Option String) (d m q : String) (w : World)
    (h : pathExists w.tree q = true) : pathExists (ensured o r d m w).tree q = true := by
  rw [ensured_tree]
  split
  · assumption
  · exact pathExists_putFile_mono _ _ _ _ h

/-- With no failure scheduled the folder-ensure step succeeds. -/
theorem ensureFolder_quiet {w : World} (o r : Option String) (d m : String) (h : quiet w) :
    ensureFolder o r d m w = (.ok (), ensured o r d m w) := by
  unfold ensureFolder ensured
  rw [getContent_through _ _ _ (quiet_head h)]
  by_cases hd : pathExists w.tree d = true
  · simp [hd]
  · simp only [hd, if_false, Bool.false_eq_true]
    rw [createOrUpdateFileContents_through _ _ _ _ _ _ (quiet_head (quiet_record _ h))]
    simp [notFound]

/-! ## Texts -/

theorem containsText_join {l : List String} {x t : String} (hx : x ∈ l)
    (ht : containsText x t) : containsText (String.join l) t := by
  unfold containsText at *
  rw [String.data_join]
  exact ht.trans (List.infix_of_mem_flatten (List.mem_map_of_mem _ hx))

theorem containsText_line (pre post t : String) :
    containsText (pre ++ t ++ post) t := by
  unfold containsText
  exact ⟨pre.data, post.data, by simp [String.data_append]⟩

theorem projectYaml_name (projectName clusterUrl repoUrl : String) :
    containsText (projectYaml projectName clusterUrl repoUrl) ("name: " ++ projectName) := by
  apply containsText_join (x := "  name: " ++ projectName ++ "\n")
  · simp [List.mem_cons]
  · have : ("  name: " ++ projectName ++ "\n") = "  " ++ ("name: " ++ projectName) ++ "\n" := by
      rw [← String.append_assoc]; rfl
    rw [this]
    exact containsText_line _ _ _

/-! ## Cluster projects -/

theorem complete_fields {b : CreateProjectBody} (h : b.complete = true) :
    truthy b.orgName = true ∧ truthy b.repoName = true ∧ truthy b.projectName = true ∧
      truthy b.clusterUrl = true ∧ truthy b.repoUrl = true := by
  simpa [CreateProjectBody.complete, and_assoc] using h

/-- The leaf is present and its read goes through: the answer is 422 after that one
read. -/
theorem createProject_present {b : CreateProjectBody} {w : World}
    (hc : b.complete = true) (ht : truthy w.token = true)
    (hgo : w.faults w.log.length = none)
    (hleaf : pathExists w.tree (projectPath (str b.projectName)) = true) :
    createProject b w =
      ({ status := 422,
         message := some ("Project \"" ++ str b.projectName ++ "\" already exists") },
       record (.getContent b.orgName b.repoName (projectPath (str b.projectName))) w) := by
  obtain ⟨h1, h2, h3, h4, h5⟩ := complete_fields hc
  simp [createProject, createProjectTry, h1, h2, h3, h4, h5, getGitHubToken, ht,
    getContent_through _ _ _ hgo, hleaf]

/-- The leaf is absent and no call fails: the answer is 201 after the leaf read, the
folder-ensure step and the leaf write. -/
theorem createProject_absent {b : CreateProjectBody} {w : World}
    (hc : b.complete = true) (ht : truthy w.token = true) (hq : quiet w)
    (hleaf : pathExists w.tree (projectPath (str b.projectName)) = false) :
    createProject b w =
      ({ status := 201, message := some "Project created successfully",
         url := some (htmlUrl b.orgName b.repoName "main" (projectPath (str b.projectName))) },
       committed b.orgName b.repoName (projectPath (str b.projectName))
         ("Add project " ++ str b.projectName)
         (projectYaml (str b.projectName) (str b.clusterUrl) (str b.repoUrl)) "main"
         (ensured b.orgName b.repoName "projects" "Create projects directory"
           (record (.getContent b.orgName b.repoName (projectPath (str b.projectName))) w))) := by
  obtain ⟨h1, h2, h3, h4, h5⟩ := complete_fields hc
  have hq1 := quiet_record (.getContent b.orgName b.repoName (projectPath (str b.projectName))) hq
  have hq2 := quiet_ensured b.orgName b.repoName "projects" "Create projects directory" hq1
  simp [createProject, createProjectTry, h1, h2, h3, h4, h5, getGitHubToken, ht,
    getContent_through _ _ _ (quiet_head hq), hleaf, notFound, ensureFolder_quiet _ _ _ _ hq1,
    createOrUpdateFileContents_through _ _ _ _ _ _ (quiet_head hq2)]

/-! ## Claims on cluster projects -/

/-- C1: when `projects/<projectName>.yaml` is present in the remote tree, a
create-project request with all required fields and a configured token is answered
422 after the one read of the leaf: no write call is issued and the tree is
unchanged. -/
theorem createProject_existing_is_conflict (b : CreateProjectBody) (w : World)
    (hc : b.complete = true) (ht : truthy w.token = true)
    (hgo : w.faults w.log.length = none)
    (hleaf : pathExists w.tree (projectPath (str b.projectName)) = true) :
    (createProject b w).1.status = 422 ∧
      (createProject b w).2.log =
        w.log ++ [.getContent b.orgName b.repoName (projectPath (str b.projectName))] ∧
      writes (createProject b w).2.log = writes w.log ∧
      (createProject b w).2.tree = w.tree := by
  rw [createProject_present hc ht hgo hleaf]
  simp [writes, Call.isWrite]

theorem createProject_existing_is_conflict_witness :
    (createProject checkoutProject
        { token := some "ghp_x",
          tree := [("projects/checkout-project.yaml", "kind: AppProject")] }).1.status = 422 ∧
      (createProject checkoutProject
        { token := some "ghp_x",
          tree := [("projects/checkout-project.yaml", "kind: AppProject")] }).2.tree =
        [("projects/checkout-project.yaml", "kind: AppProject")] :=
  have h := createProject_existing_is_conflict checkoutProject
    { token := some "ghp_x", tree := [("projects/checkout-project.yaml", "kind: AppProject")] }
    (by decide) (by decide) rfl (by decide)
  ⟨h.1, h.2.2.2⟩

/-- C2: on a tree without `projects/<projectName>.yaml` and with no failing remote
call, the first of two create-project calls with the same arguments answers 201 and
leaves at `projects/<projectName>.yaml` a YAML text containing
`name: <projectName>`; the second answers 422, issues no write and leaves the tree
as the first left it. -/
theorem createProject_twice (b : CreateProjectBody) (w : World)
    (hc : b.complete = true) (ht : truthy w.token = true) (hq : quiet w)
    (hleaf : pathExists w.tree (projectPath (str b.projectName)) = false) :
    (createProject b w).1.status = 201 ∧
      fileAt (createProject b w).2.tree (projectPath (str b.projectName)) =
        some (projectYaml (str b.projectName) (str b.clusterUrl) (str b.repoUrl)) ∧
      containsText (projectYaml (str b.projectName) (str b.clusterUrl) (str b.repoUrl))
        ("name: " ++ str b.projectName) ∧
      (createProject b (createProject b w).2).1.status = 422 ∧
      (createProject b (createProject b w).2).2.tree = (createProject b w).2.tree ∧
      writes (createProject b (createProject b w).2).2.log =
        writes (createProject b w).2.log := by
  have h1 := createProject_absent hc ht hq hleaf
  have hq1 := quiet_record (.getContent b.orgName b.repoName (projectPath (str b.projectName))) hq
  have hq2 := quiet_ensured b.orgName b.repoName "projects" "Create projects directory" hq1
  have hq3 := quiet_committed b.orgName b.repoName (projectPath (str b.projectName))
    ("Add project " ++ str b.projectName)
    (projectYaml (str b.projectName) (str b.clusterUrl) (str b.repoUrl)) "main" hq2
  have h2 := createProject_present (b := b) (w := (createProject b w).2) hc
    (by rw [h1]; simpa using ht) (by rw [h1]; exact quiet_head hq3)
    (by rw [h1]; exact pathExists_putFile_self _ _ _)
  refine ⟨by rw [h1], by rw [h1]; exact fileAt_putFile_self _ _ _, projectYaml_name _ _ _,
    by rw [h2], by rw [h2]; rfl, by rw [h2]; simp [writes, Call.isWrite]⟩

theorem createProject_twice_witness :
    (createProject checkoutProject { token := some "ghp_x" }).1.status = 201 ∧
      (createProject checkoutProject
        (createProject checkoutProject { token := some "ghp_x" }).2).1.status = 422 :=
  have h := createProject_twice checkoutProject { token := some "ghp_x" }
    (by decide) (by decide) (fun _ _ => rfl) (by decide)
  ⟨h.1, h.2.2.2.1⟩

/-- The `catch` block answers 422 exactly for an error with status 422, and 500 for
every other error. -/
theorem createProjectCatch_status (e : RemoteError) :
    (createProjectCatch e).status = if e.status = 422 then 422 else 500 := by
  unfold createProjectCatch
  by_cases h : e.status = 422 <;> simp [h]

/-- A `try` block whose leaf read fails ends in an error or in the 201 answer. -/
theorem createProjectTry_leaf_error {b : CreateProjectBody} {w : World}
    (hc : b.complete = true) (ht : truthy w.token = true) {e : RemoteError}
    (hr : (getContent b.orgName b.repoName (projectPath (str b.projectName)) w).1 = .error e) :
    (∃ e2, (createProjectTry b w).1 = .error e2) ∨
      ∃ res, (createProjectTry b w).1 = .ok res ∧ res.status = 201 := by
  obtain ⟨h1, h2, h3, h4, h5⟩ := complete_fields hc
  simp only [createProjectTry, h1, h2, h3, h4, h5, getGitHubToken, ht, Bool.not_true,
    Bool.or_self, Bool.false_eq_true, if_false]
  rcases hg : getContent b.orgName b.repoName (projectPath (str b.projectName)) w with ⟨r, w1⟩
  rw [hg] at hr
  simp only at hr
  subst hr
  simp only
  split
  · exact Or.inl ⟨_, rfl⟩
  · rcases ensureFolder b.orgName b.repoName "projects" "Create projects directory" w1
      with ⟨_ | _, w2⟩
    · exact Or.inl ⟨_, rfl⟩
    · simp only
      rcases createOrUpdateFileContents b.orgName b.repoName (projectPath (str b.projectName))
        ("Add project " ++ str b.projectName)
        (projectYaml (str b.projectName) (str b.clusterUrl) (str b.repoUrl)) "main" w2
        with ⟨_ | _, w3⟩
      · exact Or.inl ⟨_, rfl⟩
      · exact Or.inr ⟨_, rfl, rfl⟩

/-- A `try` block whose leaf read succeeds ends in the 422 answer. -/
theorem createProjectTry_leaf_ok {b : CreateProjectBody} {w : World}
    (hc : b.complete = true) (ht : truthy w.token = true) {c : Content}
    (hr : (getContent b.orgName b.repoName (projectPath (str b.projectName)) w).1 = .ok c) :
    ∃ res, (createProjectTry b w).1 = .ok res ∧ res.status = 422 := by
  obtain ⟨h1, h2, h3, h4, h5⟩ := complete_fields hc
  simp only [createProjectTry, h1, h2, h3, h4, h5, getGitHubToken, ht, Bool.not_true,
    Bool.or_self, Bool.false_eq_true, if_false]
  rcases hg : getContent b.orgName b.repoName (projectPath (str b.projectName)) w with ⟨r, w1⟩
  rw [hg] at hr
  simp only at hr
  subst hr
  exact ⟨_, rfl, rfl⟩

theorem createProject_fst (b : CreateProjectBody) (w : World) :
    (createProject b w).1 =
      match (createProjectTry b w).1 with
      | .ok res => res
      | .error e => createProjectCatch e := by
  unfold createProject
  rcases createProjectTry b w with ⟨_ | _, w1⟩ <;> rfl

/-- C3, as the code has it: with all fields and a token, create-project answers 422
if and only if the read of `projects/<projectName>.yaml` succeeds (the leaf exists
when it is checked) or the `try` block ends in a thrown error whose status is 422;
a thrown error with any other status is answered 500; and a leaf read that goes
through succeeds exactly when the leaf is in the tree. -/
theorem createProject_conflict_iff (b : CreateProjectBody) (w : World)
    (hc : b.complete = true) (ht : truthy w.token = true) :
    ((createProject b w).1.status = 422 ↔
      ((∃ c, (getContent b.orgName b.repoName (projectPath (str b.projectName)) w).1 = .ok c) ∨
        ∃ e, (createProjectTry b w).1 = .error e ∧ e.status = 422)) ∧
      (∀ e, (createProjectTry b w).1 = .error e → e.status ≠ 422 →
        (createProject b w).1.status = 500) ∧
      (w.faults w.log.length = none →
        ((∃ c, (getContent b.orgName b.repoName (projectPath (str b.projectName)) w).1 = .ok c) ↔
          pathExists w.tree (projectPath (str b.projectName)) = true)) := by
  refine ⟨?_, ?_, ?_⟩
  · rw [createProject_fst]
    rcases hg : (getContent b.orgName b.repoName (projectPath (str b.projectName)) w).1
      with e | c
    · rcases createProjectTry_leaf_error hc ht hg with ⟨e2, h2⟩ | ⟨res, h2, h3⟩
      · rw [h2]
        simp [createProjectCatch_status]
      · rw [h2]
        simp [h3]
    · obtain ⟨res, h2, h3⟩ := createProjectTry_leaf_ok hc ht hg
      rw [h2]
      simp [h3]
  · intro e he hne
    rw [createProject_fst, he]
    simp [createProjectCatch_status, hne]
  · intro hgo
    rw [getContent_through _ _ _ hgo]
    by_cases hp : pathExists w.tree (projectPath (str b.projectName)) = true <;> simp [hp]

theorem createProject_conflict_iff_witness :
    (createProject checkoutProject folderCheckFails422).1.status = 422 ↔
      ((∃ c, (getContent checkoutProject.orgName checkoutProject.repoName
          (projectPath (str checkoutProject.projectName)) folderCheckFails422).1 = .ok c) ∨
        ∃ e, (createProjectTry checkoutProject folderCheckFails422).1 = .error e ∧
          e.status = 422) :=
  (createProject_conflict_iff checkoutProject folderCheckFails422 (by decide) (by decide)).1

/-- C3 fails as stated: the leaf is absent from the tree, the read of the folder
`projects` fails with status 422, and the answer is 422. -/
theorem createProject_conflict_without_leaf :
    pathExists folderCheckFails422.tree (projectPath "checkout-project") = false ∧
      (createProject checkoutProject folderCheckFails422).1 =
        { status := 422, message := some "Project already exists" } ∧
      ¬ ((createProject checkoutProject folderCheckFails422).1.status = 422 ↔
          pathExists folderCheckFails422.tree (projectPath "checkout-project") = true) := by
  decide

/-! ## The workflows when no remote call fails -/

theorem createPipeline_quiet {b : CreatePipelineBody} {w : World}
    (ht : truthy w.token = true) (hn : truthy b.pipelineName = true)
    (hc : truthy b.pipelineContent = true) (hq : quiet w) :
    createPipeline b w =
      ({ success := some true, message := some "Pipeline created successfully",
         url := some (htmlUrl b.orgName b.repoName "main" (pipelinePath (str b.pipelineName))) },
       committed b.orgName b.repoName (pipelinePath (str b.pipelineName))
         ("Add " ++ str b.pipelineName ++ " pipeline via InfraPilotX")
         (str b.pipelineContent) "main"
         (ensured b.orgName b.repoName "cicd" "Create CICD directory" w)) := by
  have hq1 := quiet_ensured b.orgName b.repoName "cicd" "Create CICD directory" hq
  simp [createPipeline, createPipelineTry, getGitHubToken, ht, hn, hc,
    ensureFolder_quiet _ _ _ _ hq, createOrUpdateFileContents_through _ _ _ _ _ _ (quiet_head hq1)]

theorem appCreateManifests_quiet {yamlLoad : String → Except String Unit}
    {b : AppManifestsBody} {w : World}
    (ht : truthy w.token = true) (hn : truthy b.appName = true)
    (hy : truthy b.deploymentYaml = true) (hl : yamlLoad (str b.deploymentYaml) = .ok ())
    (hq : quiet w) :
    appCreateManifests yamlLoad b w =
      ({ success := some true, message := some "Application manifest created successfully" },
       committed b.orgName b.repoName ("manifests/" ++ str b.appName ++ "/deployment.yaml")
         ("Add deployment for " ++ str b.appName) (str b.deploymentYaml) "main"
         (committed b.orgName b.repoName ("manifests/" ++ str b.appName ++ "/.gitkeep")
           ("Create " ++ str b.appName ++ " directory") "" "main"
           (ensured b.orgName b.repoName "manifests" "Create manifests directory" w))) := by
  have hq1 := quiet_ensured b.orgName b.repoName "manifests" "Create manifests directory" hq
  have hq2 := quiet_committed b.orgName b.repoName ("manifests/" ++ str b.appName ++ "/.gitkeep")
    ("Create " ++ str b.appName ++ " directory") "" "main" hq1
  simp [appCreateManifests, appCreateManifestsTry, getGitHubToken, ht, hn, hy, hl,
    ensureFolder_quiet _ _ _ _ hq, createOrUpdateFileContents_through _ _ _ _ _ _ (quiet_head hq1),
    createOrUpdateFileContents_through _ _ _ _ _ _ (quiet_head hq2)]

theorem appDeploy_quiet {b : AppDeployBody} {w : World}
    (ht : truthy w.token = true) (ho : truthy b.orgName = true) (hr : truthy b.repoName = true)
    (hn : truthy b.appName = true) (hq : quiet w) :
    appDeploy b w =
      ({ success := some true, message := some "Application deployment initiated in ArgoCD" },
       committed b.orgName b.repoName ("apps/" ++ str b.appName ++ "/config_dir.json")
         ("Add ArgoCD config for " ++ str b.appName)
         (appDeployConfig b).stringify "main"
         (committed b.orgName b.repoName ("apps/" ++ str b.appName ++ "/.gitkeep")
           ("Create " ++ str b.appName ++ " app directory") "" "main"
           (ensured b.orgName b.repoName "apps" "Create apps directory" w))) := by
  have hq1 := quiet_ensured b.orgName b.repoName "apps" "Create apps directory" hq
  have hq2 := quiet_committed b.orgName b.repoName ("apps/" ++ str b.appName ++ "/.gitkeep")
    ("Create " ++ str b.appName ++ " app directory") "" "main" hq1
  simp [appDeploy, appDeployTry, getGitHubToken, ht, ho, hr, hn,
    ensureFolder_quiet _ _ _ _ hq, createOrUpdateFileContents_through _ _ _ _ _ _ (quiet_head hq1),
    createOrUpdateFileContents_through _ _ _ _ _ _ (quiet_head hq2)]

theorem mlDeploy_quiet {yamlLoad : String → Except String Unit}
    {b : MlDeployBody} {w : World}
    (ht : truthy w.token = true) (ho : truthy b.orgName = true) (hr : truthy b.repoName = true)
    (hn : truthy b.modelName = true)
    (hy : truthy b.deploymentYaml = true) (hl : yamlLoad (str b.deploymentYaml) = .ok ())
    (hq : quiet w) :
    mlDeploy yamlLoad b w =
      ({ success := some true, message := some "ML model manifest created successfully" },
       committed b.orgName b.repoName ("ml-models/" ++ str b.modelName ++ "/deployment.yaml")
         ("Add deployment for " ++ str b.modelName) (str b.deploymentYaml) "main"
         (committed b.orgName b.repoName ("ml-models/" ++ str b.modelName ++ "/.gitkeep")
           ("Create " ++ str b.modelName ++ " directory") "" "main"
           (ensured b.orgName b.repoName "ml-models" "Create ml-models directory" w))) := by
  have hq1 := quiet_ensured b.orgName b.repoName "ml-models" "Create ml-models directory" hq
  have hq2 := quiet_committed b.orgName b.repoName ("ml-models/" ++ str b.modelName ++ "/.gitkeep")
    ("Create " ++ str b.modelName ++ " directory") "" "main" hq1
  simp [mlDeploy, mlDeployTry, getGitHubToken, ht, ho, hr, hn, hy, hl,
    ensureFolder_quiet _ _ _ _ hq, createOrUpdateFileContents_through _ _ _ _ _ _ (quiet_head hq1),
    createOrUpdateFileContents_through _ _ _ _ _ _ (quiet_head hq2)]

theorem mlDeployArgocd_quiet {b : MlDeployArgocdBody} {w : World}
    (ht : truthy w.token = true) (ho : truthy b.orgName = true) (hr : truthy b.repoName = true)
    (hn : truthy b.modelName = true) (hq : quiet w) :
    mlDeployArgocd b w =
      ({ success := some true, message := some "ML model deployment initiated in ArgoCD" },
       committed b.orgName b.repoName ("apps/" ++ str b.modelName ++ "/config_dir.json")
         ("Add ArgoCD config for " ++ str b.modelName)
         (mlAppConfig b).stringify "main"
         (committed b.orgName b.repoName ("apps/" ++ str b.modelName ++ "/.gitkeep")
           ("Create " ++ str b.modelName ++ " app directory") "" "main"
           (ensured b.orgName b.repoName "apps" "Create apps directory" w))) := by
  have hq1 := quiet_ensured b.orgName b.repoName "apps" "Create apps directory" hq
  have hq2 := quiet_committed b.orgName b.repoName ("apps/" ++ str b.modelName ++ "/.gitkeep")
    ("Create " ++ str b.modelName ++ " app directory") "" "main" hq1
  simp [mlDeployArgocd, mlDeployArgocdTry, getGitHubToken, ht, ho, hr, hn,
    ensureFolder_quiet _ _ _ _ hq, createOrUpdateFileContents_through _ _ _ _ _ _ (quiet_head hq1),
    createOrUpdateFileContents_through _ _ _ _ _ _ (quiet_head hq2)]

theorem monitoringCreateManifests_quiet {b : MonitoringManifestsBody} {w : World}
    (ht : truthy w.token = true) (ho : truthy b.orgName = true) (hr : truthy b.repoName = true)
    (hq : quiet w) :
    monitoringCreateManifests b w =
      ({ success := some true, message := some "Grafana manifests created successfully" },
       committed b.orgName b.repoName "monitoring/grafana/deployment.yaml"
         "Add deployment for Grafana" grafanaDeploymentTemplate "main"
         (committed b.orgName b.repoName "monitoring/grafana/.gitkeep"
           "Create grafana directory" "" "main"
           (ensured b.orgName b.repoName "monitoring" "Create monitoring directory" w))) := by
  have hq1 := quiet_ensured b.orgName b.repoName "monitoring" "Create monitoring directory" hq
  have hq2 := quiet_committed b.orgName b.repoName "monitoring/grafana/.gitkeep"
    "Create grafana directory" "" "main" hq1
  have e1 : "monitoring/grafana" ++ "/.gitkeep" = "monitoring/grafana/.gitkeep" := rfl
  have e2 : "monitoring/grafana" ++ "/deployment.yaml" = "monitoring/grafana/deployment.yaml" := rfl
  simp only [monitoringCreateManifests, monitoringCreateManifestsTry, getGitHubToken, ht, ho, hr,
    ensureFolder_quiet _ _ _ _ hq, e1, e2,
    createOrUpdateFileContents_through _ _ _ _ _ _ (quiet_head hq1),
    createOrUpdateFileContents_through _ _ _ _ _ _ (quiet_head hq2)]
  simp

theorem monitoringDeployArgocd_quiet {b : MonitoringDeployBody} {w : World}
    (ht : truthy w.token = true) (ho : truthy b.orgName = true) (hr : truthy b.repoName = true)
    (hm : pathExists w.tree "monitoring/grafana/deployment.yaml" = true) (hq : quiet w) :
    (monitoringDeployArgocd b w).1 =
        { success := some true, message := some "Grafana deployment initiated in ArgoCD" } ∧
      (monitoringDeployArgocd b w).2.log =
        (committed b.orgName b.repoName "apps/grafana/config_dir.json"
          "Add ArgoCD config for Grafana"
          (monitoringAppConfig b).stringify "main"
          (ensured b.orgName b.repoName "apps/grafana" "Create grafana app directory"
            (record (.getContent b.orgName b.repoName "monitoring/grafana/deployment.yaml")
              w))).log := by
  have hq0 := quiet_record (.getContent b.orgName b.repoName "monitoring/grafana/deployment.yaml") hq
  have hq1 := quiet_ensured b.orgName b.repoName "apps/grafana" "Create grafana app directory" hq0
  simp [monitoringDeployArgocd, monitoringDeployArgocdTry, getGitHubToken, ht, ho, hr,
    getContent_through _ _ _ (quiet_head hq), hm,
    ensureFolder_quiet _ _ _ _ hq0, createOrUpdateFileContents_through _ _ _ _ _ _ (quiet_head hq1)]

/-! ## Claims on overwriting an existing leaf -/

@[simp] theorem writes_nil : writes [] = [] := rfl

@[simp] theorem writes_append (l k : List Call) : writes (l ++ k) = writes l ++ writes k := by
  simp [writes]

@[simp] theorem writes_read (o r : Option String) (p : String) (l : List Call) :
    writes (.getContent o r p :: l) = writes l := by
  simp [writes, Call.isWrite]

@[simp] theorem writes_write (o r : Option String) (p m c b : String) (l : List Call) :
    writes (.createOrUpdateFileContents o r p m c b :: l) =
      .createOrUpdateFileContents o r p m c b :: writes l := by
  simp [writes, Call.isWrite]

/-- A path below a domain folder exists only if the domain folder does. -/
theorem pathExists_domain (t : Tree) (dir dirSlash a leaf : String) (hs : dirSlash = dir ++ "/")
    (h : pathExists t (dirSlash ++ a ++ leaf) = true) : pathExists t dir = true := by
  subst hs
  rw [String.append_assoc] at h
  exact pathExists_parent _ _ _ h

/-- C4, as the code has it: when no remote call fails, creating an app, ML or
monitoring manifest at a leaf path that already exists returns success after exactly
two write calls, the zero-byte marker `.gitkeep` of the per-item directory and then
the overwrite of the leaf. -/
theorem manifest_overwrite_two_writes (yamlLoad : String → Except String Unit) (w : World)
    (ht : truthy w.token = true) (hq : quiet w) :
    (∀ b : AppManifestsBody, truthy b.appName = true → truthy b.deploymentYaml = true →
      yamlLoad (str b.deploymentYaml) = .ok () →
      pathExists w.tree ("manifests/" ++ str b.appName ++ "/deployment.yaml") = true →
      (appCreateManifests yamlLoad b w).1 =
          { success := some true,
            message := some "Application manifest created successfully" } ∧
        writes (appCreateManifests yamlLoad b w).2.log = writes w.log ++
          [.createOrUpdateFileContents b.orgName b.repoName
             ("manifests/" ++ str b.appName ++ "/.gitkeep")
             ("Create " ++ str b.appName ++ " directory") "" "main",
           .createOrUpdateFileContents b.orgName b.repoName
             ("manifests/" ++ str b.appName ++ "/deployment.yaml")
             ("Add deployment for " ++ str b.appName) (str b.deploymentYaml) "main"]) ∧
    (∀ b : MlDeployBody, truthy b.orgName = true → truthy b.repoName = true →
      truthy b.modelName = true → truthy b.deploymentYaml = true →
      yamlLoad (str b.deploymentYaml) = .ok () →
      pathExists w.tree ("ml-models/" ++ str b.modelName ++ "/deployment.yaml") = true →
      (mlDeploy yamlLoad b w).1 =
          { success := some true, message := some "ML model manifest created successfully" } ∧
        writes (mlDeploy yamlLoad b w).2.log = writes w.log ++
          [.createOrUpdateFileContents b.orgName b.repoName
             ("ml-models/" ++ str b.modelName ++ "/.gitkeep")
             ("Create " ++ str b.modelName ++ " directory") "" "main",
           .createOrUpdateFileContents b.orgName b.repoName
             ("ml-models/" ++ str b.modelName ++ "/deployment.yaml")
             ("Add deployment for " ++ str b.modelName) (str b.deploymentYaml) "main"]) ∧
    (∀ b : MonitoringManifestsBody, truthy b.orgName = true → truthy b.repoName = true →
      pathExists w.tree "monitoring/grafana/deployment.yaml" = true →
      (monitoringCreateManifests b w).1 =
          { success := some true, message := some "Grafana manifests created successfully" } ∧
        writes (monitoringCreateManifests b w).2.log = writes w.log ++
          [.createOrUpdateFileContents b.orgName b.repoName "monitoring/grafana/.gitkeep"
             "Create grafana directory" "" "main",
           .createOrUpdateFileContents b.orgName b.repoName "monitoring/grafana/deployment.yaml"
             "Add deployment for Grafana" grafanaDeploymentTemplate "main"]) := by
  refine ⟨?_, ?_, ?_⟩
  · intro b hn hy hl hleaf
    have hd := pathExists_domain _ "manifests" _ _ _ rfl hleaf
    rw [appCreateManifests_quiet ht hn hy hl hq]
    simp [ensured_log, hd]
  · intro b ho hr hn hy hl hleaf
    have hd := pathExists_domain _ "ml-models" _ _ _ rfl hleaf
    rw [mlDeploy_quiet ht ho hr hn hy hl hq]
    simp [ensured_log, hd]
  · intro b ho hr hleaf
    have hd : pathExists w.tree "monitoring" = true :=
      pathExists_parent w.tree "monitoring" "grafana/deployment.yaml" hleaf
    rw [monitoringCreateManifests_quiet ht ho hr hq]
    simp [ensured_log, hd]

theorem manifest_overwrite_two_writes_witness :
    (appCreateManifests acceptAll billingManifests billingWorld).1.success = some true ∧
      (writes (appCreateManifests acceptAll billingManifests billingWorld).2.log).length = 2 := by
  have h := (manifest_overwrite_two_writes acceptAll billingWorld (by decide)
    (fun _ _ => rfl)).1 billingManifests (by decide) (by decide) rfl (by decide)
  rw [h.1, h.2]
  decide

/-- C4 fails as stated: on a tree that holds `manifests/billing/deployment.yaml`,
app create-manifests for `billing` succeeds after two write calls, not one: the
first writes the marker `manifests/billing/.gitkeep`. -/
theorem manifest_overwrite_not_one_write :
    pathExists billingWorld.tree "manifests/billing/deployment.yaml" = true ∧
      (appCreateManifests acceptAll billingManifests billingWorld).1.success = some true ∧
      writes (appCreateManifests acceptAll billingManifests billingWorld).2.log =
        [.createOrUpdateFileContents (some "acme") (some "infra") "manifests/billing/.gitkeep"
           "Create billing directory" "" "main",
         .createOrUpdateFileContents (some "acme") (some "infra")
           "manifests/billing/deployment.yaml" "Add deployment for billing"
           "kind: Deployment\nmetadata: \x7b\x7d" "main"] ∧
      (writes (appCreateManifests acceptAll billingManifests billingWorld).2.log).length ≠ 1 := by
  decide

/-- C5, as the code has it: for every non-empty pipelineName and non-empty
pipelineContent, with a token stored and no remote call failing, create-pipeline on
a tree that holds `cicd/<pipelineName>.groovy` returns success after exactly one
write call, to `cicd/<pipelineName>.groovy` with content pipelineContent; and
whenever a remote call fails, whatever the failure, the answer is 500 with the
message `Failed to create pipeline, already exists.`. -/
theorem createPipeline_overwrite (b : CreatePipelineBody) (w : World)
    (ht : truthy w.token = true) (hn : truthy b.pipelineName = true)
    (hc : truthy b.pipelineContent = true) (hq : quiet w)
    (hleaf : pathExists w.tree (pipelinePath (str b.pipelineName)) = true) :
    (createPipeline b w).1 =
        { success := some true, message := some "Pipeline created successfully",
          url := some (htmlUrl b.orgName b.repoName "main" (pipelinePath (str b.pipelineName))) } ∧
      writes (createPipeline b w).2.log = writes w.log ++
        [.createOrUpdateFileContents b.orgName b.repoName (pipelinePath (str b.pipelineName))
           ("Add " ++ str b.pipelineName ++ " pipeline via InfraPilotX")
           (str b.pipelineContent) "main"] ∧
      ∀ (v : World) (e : RemoteError), (createPipelineTry b v).1 = .error e →
        (createPipeline b v).1 =
          { status := 500, success := some false,
            message := some "Failed to create pipeline, already exists.",
            error := some e.message } := by
  have hd := pathExists_domain _ "cicd" _ _ _ rfl hleaf
  rw [createPipeline_quiet ht hn hc hq]
  refine ⟨rfl, by simp [ensured_log, hd], ?_⟩
  intro v e he
  unfold createPipeline
  rcases hv : createPipelineTry b v with ⟨r, v1⟩
  rw [hv] at he
  simp only at he
  subst he
  rfl

theorem createPipeline_overwrite_witness :
    (createPipeline { pipelineName := some "build", pipelineContent := some "pipeline" }
        pipelinesWorld).1.success = some true ∧
      (writes (createPipeline { pipelineName := some "build", pipelineContent := some "pipeline" }
        pipelinesWorld).2.log).length = 1 := by
  have h := createPipeline_overwrite { pipelineName := some "build", pipelineContent := some "pipeline" }
    pipelinesWorld (by decide) (by decide) (by decide) (fun _ _ => rfl) (by decide)
  rw [h.1, h.2.1]
  decide

/-- C5 fails as stated: on a tree that holds `cicd/.groovy`, create-pipeline with the
empty pipelineName and a non-empty pipelineContent is answered 400 and writes
nothing; and when the write of an existing `cicd/build.groovy` is refused, the
answer says the pipeline already exists. -/
theorem createPipeline_empty_name_rejected :
    pathExists pipelinesWorld.tree (pipelinePath "") = true ∧
      (createPipeline { pipelineName := some "", pipelineContent := some "pipeline" }
        pipelinesWorld).1 =
        { status := 400, success := some false,
          message := some "Pipeline name and content are required" } ∧
      writes (createPipeline { pipelineName := some "", pipelineContent := some "pipeline" }
        pipelinesWorld).2.log = [] ∧
      (createPipeline { pipelineName := some "build", pipelineContent := some "pipeline" }
        pipelineWriteRefused).1 =
        { status := 500, success := some false,
          message := some "Failed to create pipeline, already exists.",
          error := some "sha wasn\x27t supplied" } := by
  decide

/-! ## Claims on the folder-ensure step -/

/-- What the folder-ensure step issues, whatever fails: the read of the folder, and
the write of the marker exactly when that read threw a 404 error. -/
theorem ensureFolder_log (o r : Option String) (d m : String) (w : World) :
    (ensureFolder o r d m w).2.log = w.log ++ [.getContent o r d] ++
      (match (getContent o r d w).1 with
       | .error e =>
         if e.status = 404 then [.createOrUpdateFileContents o r (d ++ "/.gitkeep") m "" "main"]
         else []
       | .ok _ => []) := by
  unfold ensureFolder
  have hw : (getContent o r d w).2 = record (.getContent o r d) w := by
    unfold getContent; split
    · rfl
    · split <;> rfl
  rcases hg : getContent o r d w with ⟨res, w1⟩
  rw [hg] at hw
  simp only at hw
  subst hw
  cases res with
  | ok c => simp
  | error e =>
    by_cases h4 : e.status = 404
    · have hl : ∀ v : World, (createOrUpdateFileContents o r (d ++ "/.gitkeep") m "" "main" v).2.log
          = v.log ++ [.createOrUpdateFileContents o r (d ++ "/.gitkeep") m "" "main"] := by
        intro v; unfold createOrUpdateFileContents; split <;> rfl
      simp only [h4, beq_self_eq_true, if_true]
      rcases hc : createOrUpdateFileContents o r (d ++ "/.gitkeep") m "" "main"
        (record (.getContent o r d) w) with ⟨res2, w2⟩
      have := hl (record (.getContent o r d) w)
      rw [hc] at this
      cases res2 <;> simpa using this
    · simp [h4]

/-- C7: for every folder absent from the tree, with no remote call failing, the
folder-ensure step run twice in immediate succession writes the marker on the first
run (the one write, after which the folder exists) and issues no write on the second
run, and the tree after the second run is the tree after the first. -/
theorem ensureFolder_twice (o r : Option String) (d m : String) (w : World)
    (hq : quiet w) (habs : pathExists w.tree d = false) :
    (ensureFolder o r d m w).1 = .ok () ∧
      writes (ensureFolder o r d m w).2.log = writes w.log ++ [marker o r d m] ∧
      pathExists (ensureFolder o r d m w).2.tree d = true ∧
      (ensureFolder o r d m (ensureFolder o r d m w).2).1 = .ok () ∧
      writes (ensureFolder o r d m (ensureFolder o r d m w).2).2.log =
        writes (ensureFolder o r d m w).2.log ∧
      (ensureFolder o r d m (ensureFolder o r d m w).2).2.tree =
        (ensureFolder o r d m w).2.tree := by
  have h1 := ensureFolder_quiet o r d m hq
  have hq1 := quiet_ensured o r d m hq
  have h2 := ensureFolder_quiet o r d m hq1
  have hp := pathExists_ensured o r d m w
  rw [h1, h2]
  refine ⟨rfl, ?_, hp, rfl, ?_, ?_⟩
  · simp [ensured_log, habs, marker]
  · rw [ensured_log (w := ensured o r d m w)]
    simp [hp]
  · rw [ensured_tree (w := ensured o r d m w)]
    simp [hp]

theorem ensureFolder_twice_witness :
    writes (ensureFolder (some "acme") (some "infra") "cicd" "Create CICD directory" {}).2.log =
        [marker (some "acme") (some "infra") "cicd" "Create CICD directory"] ∧
      (ensureFolder (some "acme") (some "infra") "cicd" "Create CICD directory"
        (ensureFolder (some "acme") (some "infra") "cicd" "Create CICD directory" {}).2).2.tree =
        (ensureFolder (some "acme") (some "infra") "cicd" "Create CICD directory" {}).2.tree :=
  have h := ensureFolder_twice (some "acme") (some "infra") "cicd" "Create CICD directory" {}
    (fun _ _ => rfl) (by decide)
  ⟨h.2.1, h.2.2.2.2.2⟩

/-- C8, as the code has it: when a folder is absent and its read goes through, the
folder-ensure step issues exactly one write call, to the folder path followed by
`/.gitkeep`, with empty content, on branch `main`. -/
theorem ensureFolder_absent_one_write (o r : Option String) (d m : String) (w : World)
    (hgo : w.faults w.log.length = none) (habs : pathExists w.tree d = false) :
    writes (ensureFolder o r d m w).2.log =
      writes w.log ++ [.createOrUpdateFileContents o r (d ++ "/.gitkeep") m "" "main"] := by
  rw [ensureFolder_log, getContent_through _ _ _ hgo]
  simp [habs, notFound]

theorem ensureFolder_absent_one_write_witness :
    writes (ensureFolder none none "cicd" "Create CICD directory" {}).2.log =
      writes [] ++
        [.createOrUpdateFileContents none none ("cicd" ++ "/.gitkeep") "Create CICD directory" ""
           "main"] :=
  ensureFolder_absent_one_write none none "cicd" "Create CICD directory" {} rfl (by decide)

/-- C8 fails as stated: on an empty tree the folder-ensure step for `cicd` writes
`cicd/.gitkeep`, which is not `cicd/.keep`. -/
theorem ensureFolder_marker_is_gitkeep :
    (writes (ensureFolder none none "cicd" "Create CICD directory" {}).2.log).map Call.path =
        ["cicd/.gitkeep"] ∧
      "cicd" ++ "/.keep" ∉
        (writes (ensureFolder none none "cicd" "Create CICD directory" {}).2.log).map Call.path := by
  decide

/-- C6, as the code has it.  In the folder-ensure step the marker is written exactly
when the read of the folder threw a 404 error.  With a token stored and no remote
call failing, every workflow writes the marker of its checked folder (`projects`,
`cicd`, `manifests`, `apps`, `ml-models`, `monitoring`, and `apps/grafana` in
monitoring deploy-argocd) exactly when that folder is absent from the tree, and the
workflows with a per-item directory that they do not check (`manifests/<appName>`,
`apps/<appName>`, `ml-models/<modelName>`, `apps/<modelName>`, `monitoring/grafana`)
write its marker on every run. -/
theorem marker_writes (yamlLoad : String → Except String Unit) (w : World)
    (ht : truthy w.token = true) (hq : quiet w) :
    (∀ (v : World) (o r : Option String) (d m : String),
      writes (ensureFolder o r d m v).2.log = writes v.log ++
        (match (getContent o r d v).1 with
         | .error e => if e.status = 404 then [marker o r d m] else []
         | .ok _ => [])) ∧
    (∀ b : CreateProjectBody, b.complete = true →
      pathExists w.tree (projectPath (str b.projectName)) = false →
      writes (createProject b w).2.log = writes w.log ++
        (if pathExists w.tree "projects" then []
         else [marker b.orgName b.repoName "projects" "Create projects directory"]) ++
        [.createOrUpdateFileContents b.orgName b.repoName (projectPath (str b.projectName))
           ("Add project " ++ str b.projectName)
           (projectYaml (str b.projectName) (str b.clusterUrl) (str b.repoUrl)) "main"]) ∧
    (∀ b : CreatePipelineBody, truthy b.pipelineName = true → truthy b.pipelineContent = true →
      writes (createPipeline b w).2.log = writes w.log ++
        (if pathExists w.tree "cicd" then []
         else [marker b.orgName b.repoName "cicd" "Create CICD directory"]) ++
        [.createOrUpdateFileContents b.orgName b.repoName (pipelinePath (str b.pipelineName))
           ("Add " ++ str b.pipelineName ++ " pipeline via InfraPilotX")
           (str b.pipelineContent) "main"]) ∧
    (∀ b : AppManifestsBody, truthy b.appName = true → truthy b.deploymentYaml = true →
      yamlLoad (str b.deploymentYaml) = .ok () →
      writes (appCreateManifests yamlLoad b w).2.log = writes w.log ++
        (if pathExists w.tree "manifests" then []
         else [marker b.orgName b.repoName "manifests" "Create manifests directory"]) ++
        [marker b.orgName b.repoName ("manifests/" ++ str b.appName)
           ("Create " ++ str b.appName ++ " directory"),
         .createOrUpdateFileContents b.orgName b.repoName
           ("manifests/" ++ str b.appName ++ "/deployment.yaml")
           ("Add deployment for " ++ str b.appName) (str b.deploymentYaml) "main"]) ∧
    (∀ b : AppDeployBody, truthy b.orgName = true → truthy b.repoName = true →
      truthy b.appName = true →
      writes (appDeploy b w).2.log = writes w.log ++
        (if pathExists w.tree "apps" then []
         else [marker b.orgName b.repoName "apps" "Create apps directory"]) ++
        [marker b.orgName b.repoName ("apps/" ++ str b.appName)
           ("Create " ++ str b.appName ++ " app directory"),
         .createOrUpdateFileContents b.orgName b.repoName
           ("apps/" ++ str b.appName ++ "/config_dir.json")
           ("Add ArgoCD config for " ++ str b.appName) (appDeployConfig b).stringify "main"]) ∧
    (∀ b : MlDeployBody, truthy b.orgName = true → truthy b.repoName = true →
      truthy b.modelName = true → truthy b.deploymentYaml = true →
      yamlLoad (str b.deploymentYaml) = .ok () →
      writes (mlDeploy yamlLoad b w).2.log = writes w.log ++
        (if pathExists w.tree "ml-models" then []
         else [marker b.orgName b.repoName "ml-models" "Create ml-models directory"]) ++
        [marker b.orgName b.repoName ("ml-models/" ++ str b.modelName)
           ("Create " ++ str b.modelName ++ " directory"),
         .createOrUpdateFileContents b.orgName b.repoName
           ("ml-models/" ++ str b.modelName ++ "/deployment.yaml")
           ("Add deployment for " ++ str b.modelName) (str b.deploymentYaml) "main"]) ∧
    (∀ b : MlDeployArgocdBody, truthy b.orgName = true → truthy b.repoName = true →
      truthy b.modelName = true →
      writes (mlDeployArgocd b w).2.log = writes w.log ++
        (if pathExists w.tree "apps" then []
         else [marker b.orgName b.repoName "apps" "Create apps directory"]) ++
        [marker b.orgName b.repoName ("apps/" ++ str b.modelName)
           ("Create " ++ str b.modelName ++ " app directory"),
         .createOrUpdateFileContents b.orgName b.repoName
           ("apps/" ++ str b.modelName ++ "/config_dir.json")
           ("Add ArgoCD config for " ++ str b.modelName) (mlAppConfig b).stringify "main"]) ∧
    (∀ b : MonitoringManifestsBody, truthy b.orgName = true → truthy b.repoName = true →
      writes (monitoringCreateManifests b w).2.log = writes w.log ++
        (if pathExists w.tree "monitoring" then []
         else [marker b.orgName b.repoName "monitoring" "Create monitoring directory"]) ++
        [marker b.orgName b.repoName "monitoring/grafana" "Create grafana directory",
         .createOrUpdateFileContents b.orgName b.repoName "monitoring/grafana/deployment.yaml"
           "Add deployment for Grafana" grafanaDeploymentTemplate "main"]) ∧
    (∀ b : MonitoringDeployBody, truthy b.orgName = true → truthy b.repoName = true →
      pathExists w.tree "monitoring/grafana/deployment.yaml" = true →
      writes (monitoringDeployArgocd b w).2.log = writes w.log ++
        (if pathExists w.tree "apps/grafana" then []
         else [marker b.orgName b.repoName "apps/grafana" "Create grafana app directory"]) ++
        [.createOrUpdateFileContents b.orgName b.repoName "apps/grafana/config_dir.json"
           "Add ArgoCD config for Grafana" (monitoringAppConfig b).stringify "main"]) := by
  refine ⟨?_, ?_, ?_, ?_, ?_, ?_, ?_, ?_, ?_⟩
  · intro v o r d m
    rw [ensureFolder_log]
    rcases (getContent o r d v).1 with e | c
    · by_cases h4 : e.status = 404 <;> simp [h4, marker]
    · simp
  · intro b hc hleaf
    rw [createProject_absent hc ht hq hleaf]
    by_cases hd : pathExists w.tree "projects" = true <;> simp [ensured_log, hd, marker]
  · intro b hn hc
    rw [createPipeline_quiet ht hn hc hq]
    by_cases hd : pathExists w.tree "cicd" = true <;> simp [ensured_log, hd, marker]
  · intro b hn hy hl
    rw [appCreateManifests_quiet ht hn hy hl hq]
    by_cases hd : pathExists w.tree "manifests" = true <;> simp [ensured_log, hd, marker]
  · intro b ho hr hn
    rw [appDeploy_quiet ht ho hr hn hq]
    by_cases hd : pathExists w.tree "apps" = true <;> simp [ensured_log, hd, marker]
  · intro b ho hr hn hy hl
    rw [mlDeploy_quiet ht ho hr hn hy hl hq]
    by_cases hd : pathExists w.tree "ml-models" = true <;> simp [ensured_log, hd, marker]
  · intro b ho hr hn
    rw [mlDeployArgocd_quiet ht ho hr hn hq]
    by_cases hd : pathExists w.tree "apps" = true <;> simp [ensured_log, hd, marker]
  · intro b ho hr
    rw [monitoringCreateManifests_quiet ht ho hr hq]
    by_cases hd : pathExists w.tree "monitoring" = true <;> simp [ensured_log, hd, marker]
  · intro b ho hr hm
    rw [(monitoringDeployArgocd_quiet ht ho hr hm hq).2]
    by_cases hd : pathExists w.tree "apps/grafana" = true <;>
      simp [ensured_log, hd, marker]

theorem marker_writes_witness :
    writes (appCreateManifests acceptAll billingManifests billingWorld).2.log =
      writes billingWorld.log ++
        (if pathExists billingWorld.tree "manifests" then []
         else [marker billingManifests.orgName billingManifests.repoName "manifests"
           "Create manifests directory"]) ++
        [marker billingManifests.orgName billingManifests.repoName
           ("manifests/" ++ str billingManifests.appName)
           ("Create " ++ str billingManifests.appName ++ " directory"),
         .createOrUpdateFileContents billingManifests.orgName billingManifests.repoName
           ("manifests/" ++ str billingManifests.appName ++ "/deployment.yaml")
           ("Add deployment for " ++ str billingManifests.appName)
           (str billingManifests.deploymentYaml) "main"] :=
  (marker_writes acceptAll billingWorld (by decide) (fun _ _ => rfl)).2.2.2.1
    billingManifests (by decide) (by decide) rfl

/-- C6 fails as stated: the directory `manifests/billing` is present and app
create-manifests writes the marker `manifests/billing/.gitkeep` into it; the
directory `apps/billing` is present and app deploy writes the marker
`apps/billing/.gitkeep` into it. -/
theorem marker_written_into_present_directory :
    pathExists billingWorld.tree "manifests/billing" = true ∧
      marker (some "acme") (some "infra") "manifests/billing" "Create billing directory" ∈
        (appCreateManifests acceptAll billingManifests billingWorld).2.log ∧
      pathExists billingRegistered.tree "apps/billing" = true ∧
      marker (some "acme") (some "infra") "apps/billing" "Create billing app directory" ∈
        (appDeploy billingDeploy billingRegistered).2.log := by
  decide

/-! ## Claims on the Deployment templates -/

/-- The skeleton of `app.js` is, at every moment, the value it was loaded with or the
Deployment filled for the name and image of an earlier request. -/
theorem appSkeleton_reach (dump : Deployment → String) (qs : List AppTemplatesQuery) :
    appSkeletonAfter dump qs = deploymentTemplate ∨
      ∃ a i, appSkeletonAfter dump qs = filled a i 80 := by
  unfold appSkeletonAfter
  induction qs using List.reverseRecOn with
  | nil => exact Or.inl rfl
  | append_singleton qs q ih =>
    rw [List.foldl_append]
    simp only [List.foldl_cons, List.foldl_nil]
    by_cases hv : truthy q.appName = true ∧ truthy q.image = true
    · right
      refine ⟨str q.appName, str q.image, ?_⟩
      rcases ih with h | ⟨a, i, h⟩ <;> rw [h] <;>
        simp [appTemplates, hv.1, hv.2, assignFields, deploymentTemplate, filled]
    · have : (!truthy q.appName || !truthy q.image) = true := by
        rcases Bool.eq_false_or_eq_true (truthy q.appName) with h | h <;>
          rcases Bool.eq_false_or_eq_true (truthy q.image) with h2 | h2 <;> simp_all
      simpa [appTemplates, this] using ih

/-- The skeleton of `ml.js` is, at every moment, the value it was loaded with or the
Deployment filled for the name and image of an earlier request. -/
theorem mlSkeleton_reach (dump : Deployment → String) (qs : List MlTemplatesQuery) :
    mlSkeletonAfter dump qs = mlDeploymentTemplate ∨
      ∃ a i, mlSkeletonAfter dump qs = filled a i 5000 := by
  unfold mlSkeletonAfter
  induction qs using List.reverseRecOn with
  | nil => exact Or.inl rfl
  | append_singleton qs q ih =>
    rw [List.foldl_append]
    simp only [List.foldl_cons, List.foldl_nil]
    by_cases hv : truthy q.modelName = true ∧ truthy q.image = true
    · right
      refine ⟨str q.modelName, str q.image, ?_⟩
      rcases ih with h | ⟨a, i, h⟩ <;> rw [h] <;>
        simp [mlTemplates, hv.1, hv.2, assignFields, mlDeploymentTemplate, filled]
    · have : (!truthy q.modelName || !truthy q.image) = true := by
        rcases Bool.eq_false_or_eq_true (truthy q.modelName) with h | h <;>
          rcases Bool.eq_false_or_eq_true (truthy q.image) with h2 | h2 <;> simp_all
      simpa [mlTemplates, this] using ih

/-- C9: whatever `/templates` requests the process served before, the app
`/templates` operation answers a non-empty appName and image with the text of the
Deployment filled for that name and image (port 80), so two requests with the same
parameters get the same text; the same holds for the ML `/templates` operation with
modelName and image (port 5000). -/
theorem templates_deterministic (dump : Deployment → String) :
    (∀ (qs : List AppTemplatesQuery) (q : AppTemplatesQuery),
      truthy q.appName = true → truthy q.image = true →
      (appTemplates dump q (appSkeletonAfter dump qs)).1 =
        { success := some true,
          deployment := some (dump (filled (str q.appName) (str q.image) 80)),
          message := some "Template generated successfully" }) ∧
    (∀ (qs : List MlTemplatesQuery) (q : MlTemplatesQuery),
      truthy q.modelName = true → truthy q.image = true →
      (mlTemplates dump q (mlSkeletonAfter dump qs)).1 =
        { success := some true,
          deployment := some (dump (filled (str q.modelName) (str q.image) 5000)),
          message := some "ML template generated successfully" }) := by
  constructor
  · intro qs q hn hi
    rcases appSkeleton_reach dump qs with h | ⟨a, i, h⟩ <;> rw [h] <;>
      simp [appTemplates, hn, hi, assignFields, deploymentTemplate, filled]
  · intro qs q hn hi
    rcases mlSkeleton_reach dump qs with h | ⟨a, i, h⟩ <;> rw [h] <;>
      simp [mlTemplates, hn, hi, assignFields, mlDeploymentTemplate, filled]

theorem templates_deterministic_witness :
    (appTemplates (fun d => d.metadata.name ++ " " ++ d.kind)
        { appName := some "billing", image := some "nginx:1.25" }
        (appSkeletonAfter (fun d => d.metadata.name ++ " " ++ d.kind)
          [{ appName := some "orders", image := some "redis:7" }, { appName := some "x" }])).1 =
      (appTemplates (fun d => d.metadata.name ++ " " ++ d.kind)
        { appName := some "billing", image := some "nginx:1.25" }
        (appSkeletonAfter (fun d => d.metadata.name ++ " " ++ d.kind) [])).1 := by
  rw [(templates_deterministic _).1 _ _ (by decide) (by decide),
    (templates_deterministic _).1 _ _ (by decide) (by decide)]

/-- C10, the code at the failing input: one `/templates` request on the freshly
loaded module leaves the skeleton `deploymentTemplate` (`mlDeploymentTemplate`) with
the name, labels and image of the request instead of empty strings. -/
theorem templates_mutate_skeleton (dump : Deployment → String) :
    (appTemplates dump { appName := some "billing", image := some "nginx:1.25" }
        deploymentTemplate).2 = filled "billing" "nginx:1.25" 80 ∧
      (appTemplates dump { appName := some "billing", image := some "nginx:1.25" }
        deploymentTemplate).2.metadata.name = "billing-deployment" ∧
      (appTemplates dump { appName := some "billing", image := some "nginx:1.25" }
        deploymentTemplate).2 ≠ deploymentTemplate ∧
      (mlTemplates dump { modelName := some "churn", image := some "churn:2" }
        mlDeploymentTemplate).2 = filled "churn" "churn:2" 5000 ∧
      (mlTemplates dump { modelName := some "churn", image := some "churn:2" }
        mlDeploymentTemplate).2 ≠ mlDeploymentTemplate := by
  refine ⟨rfl, rfl, ?_, rfl, ?_⟩
  · rw [show (appTemplates dump { appName := some "billing", image := some "nginx:1.25" }
        deploymentTemplate).2 = filled "billing" "nginx:1.25" 80 from rfl]
    decide
  · rw [show (mlTemplates dump { modelName := some "churn", image := some "churn:2" }
        mlDeploymentTemplate).2 = filled "churn" "churn:2" 5000 from rfl]
    decide

/-! ## Claims on the generated texts -/

/-- A text occurs in a joined text when it occurs inside one of the joined lines. -/
theorem containsText_join_mid {l : List String} (pre t post line : String)
    (hl : line ∈ l) (h : line = pre ++ t ++ post) : containsText (String.join l) t := by
  subst h
  exact containsText_join hl (containsText_line _ _ _)

/-- C11: for every projectName, clusterUrl and repoUrl, the AppProject and
ApplicationSet text that create-project generates contains each of the six
placeholders `{{ appName }}`, `{{ destNamespace }}`, `{{ destServer }}`,
`{{ srcPath }}`, `{{ srcRepoURL }}` and `{{ srcTargetRevision }}` as literal text. -/
theorem projectYaml_placeholders (projectName clusterUrl repoUrl : String) :
    containsText (projectYaml projectName clusterUrl repoUrl) "\x7b\x7b appName \x7d\x7d" ∧
    containsText (projectYaml projectName clusterUrl repoUrl) "\x7b\x7b destNamespace \x7d\x7d" ∧
    containsText (projectYaml projectName clusterUrl repoUrl) "\x7b\x7b destServer \x7d\x7d" ∧
    containsText (projectYaml projectName clusterUrl repoUrl) "\x7b\x7b srcPath \x7d\x7d" ∧
    containsText (projectYaml projectName clusterUrl repoUrl) "\x7b\x7b srcRepoURL \x7d\x7d" ∧
    containsText (projectYaml projectName clusterUrl repoUrl)
      "\x7b\x7b srcTargetRevision \x7d\x7d" := by
  refine ⟨?_, ?_, ?_, ?_, ?_, ?_⟩
  · exact containsText_join_mid "        app.kubernetes.io/name: \x27" _ "\x27\n"
      ("        app.kubernetes.io/name: \x27\x7b\x7b appName \x7d\x7d\x27\n")
      (by simp [List.mem_cons]) (by decide)
  · exact containsText_join_mid "        namespace: \x27" _ "\x27\n"
      ("        namespace: \x27\x7b\x7b destNamespace \x7d\x7d\x27\n")
      (by simp [List.mem_cons]) (by decide)
  · exact containsText_join_mid "        server: \x27" _ "\x27\n"
      ("        server: \x27\x7b\x7b destServer \x7d\x7d\x27\n")
      (by simp [List.mem_cons]) (by decide)
  · exact containsText_join_mid "        path: \x27" _ "\x27\n"
      ("        path: \x27\x7b\x7b srcPath \x7d\x7d\x27\n")
      (by simp [List.mem_cons]) (by decide)
  · exact containsText_join_mid "        repoURL: \x27" _ "\x27\n"
      ("        repoURL: \x27\x7b\x7b srcRepoURL \x7d\x7d\x27\n")
      (by simp [List.mem_cons]) (by decide)
  · exact containsText_join_mid "        targetRevision: \x27" _ "\x27\n"
      ("        targetRevision: \x27\x7b\x7b srcTargetRevision \x7d\x7d\x27\n")
      (by simp [List.mem_cons]) (by decide)

/-- Whatever was served before, the app `/templates` handler prints the Deployment
filled for the name and image of the request. -/
theorem appTemplates_deployment (dump : Deployment → String) (qs : List AppTemplatesQuery)
    (q : AppTemplatesQuery) (hn : truthy q.appName = true) (hi : truthy q.image = true) :
    (appTemplates dump q (appSkeletonAfter dump qs)).1.deployment =
      some (dump (filled (str q.appName) (str q.image) 80)) := by
  rcases appSkeleton_reach dump qs with h | ⟨a, i, h⟩ <;> rw [h] <;>
    simp [appTemplates, hn, hi, assignFields, deploymentTemplate, filled]

/-- Whatever was served before, the ML `/templates` handler prints the Deployment
filled for the name and image of the request. -/
theorem mlTemplates_deployment (dump : Deployment → String) (qs : List MlTemplatesQuery)
    (q : MlTemplatesQuery) (hn : truthy q.modelName = true) (hi : truthy q.image = true) :
    (mlTemplates dump q (mlSkeletonAfter dump qs)).1.deployment =
      some (dump (filled (str q.modelName) (str q.image) 5000)) := by
  rcases mlSkeleton_reach dump qs with h | ⟨a, i, h⟩ <;> rw [h] <;>
    simp [mlTemplates, hn, hi, assignFields, mlDeploymentTemplate, filled]

/-- C12: for every non-empty appName and image, and whatever the process served
before, the object the app `/templates` operation serializes is a Deployment whose
`metadata.name` is appName followed by `-deployment`, whose `metadata.labels.app`,
`spec.selector.matchLabels.app`, `spec.template.metadata.labels.app` and
`containers[0].name` are appName, whose `containers[0].image` is image and whose
`containers[0].ports[0].containerPort` is 80. -/
theorem appTemplates_structure (qs : List AppTemplatesQuery) (q : AppTemplatesQuery)
    (hn : truthy q.appName = true) (hi : truthy q.image = true) :
    ∃ d : Deployment,
      (∀ dump : Deployment → String,
        (appTemplates dump q (appSkeletonAfter dump qs)).1.status = 200 ∧
        (appTemplates dump q (appSkeletonAfter dump qs)).1.deployment = some (dump d)) ∧
      d.apiVersion = "apps/v1" ∧ d.kind = "Deployment" ∧
      d.metadata.name = str q.appName ++ "-deployment" ∧
      d.metadata.labels.app = str q.appName ∧
      d.spec.selector.matchLabels.app = str q.appName ∧
      d.spec.template.metadata.labels.app = str q.appName ∧
      ∃ c cs p ps, d.spec.template.spec.containers = c :: cs ∧
        c.name = str q.appName ∧ c.image = str q.image ∧
        c.ports = p :: ps ∧ p.containerPort = 80 := by
  refine ⟨filled (str q.appName) (str q.image) 80, ?_, rfl, rfl, rfl, rfl, rfl, rfl,
    _, _, _, _, rfl, rfl, rfl, rfl, rfl⟩
  intro dump
  refine ⟨?_, appTemplates_deployment dump qs q hn hi⟩
  rcases appSkeleton_reach dump qs with h | ⟨a, i, h⟩ <;> rw [h] <;>
    simp [appTemplates, hn, hi, assignFields, deploymentTemplate, filled]

theorem appTemplates_structure_witness :
    ∃ d : Deployment,
      (∀ dump : Deployment → String,
        (appTemplates dump { appName := some "billing", image := some "nginx:1.25" }
          (appSkeletonAfter dump [{ appName := some "orders", image := some "redis:7" }])
          ).1.deployment = some (dump d)) ∧
      d.metadata.name = "billing-deployment" := by
  obtain ⟨d, h1, _, _, h2, _⟩ := appTemplates_structure
    [{ appName := some "orders", image := some "redis:7" }]
    { appName := some "billing", image := some "nginx:1.25" } (by decide) (by decide)
  exact ⟨d, fun dump => (h1 dump).2, h2⟩

/-- C13: for every non-empty name and image, and whatever either module served
before, the Deployment the ML `/templates` operation serializes is the one the app
`/templates` operation serializes for the same name and image with the container
port 5000 in place of 80; the requests carry a name and an image and nothing that
reaches a port. -/
theorem mlTemplates_matches_appTemplates (aqs : List AppTemplatesQuery)
    (mqs : List MlTemplatesQuery) (name image : Option String)
    (hn : truthy name = true) (hi : truthy image = true) :
    ∃ dApp dMl : Deployment,
      (∀ dump : Deployment → String,
        (appTemplates dump { appName := name, image := image }
          (appSkeletonAfter dump aqs)).1.deployment = some (dump dApp)) ∧
      (∀ dump : Deployment → String,
        (mlTemplates dump { modelName := name, image := image }
          (mlSkeletonAfter dump mqs)).1.deployment = some (dump dMl)) ∧
      dMl = dApp.withContainerPort 5000 ∧ dApp = dApp.withContainerPort 80 ∧
      dApp = filled (str name) (str image) 80 ∧ dMl = filled (str name) (str image) 5000 := by
  refine ⟨filled (str name) (str image) 80, filled (str name) (str image) 5000,
    fun dump => appTemplates_deployment dump aqs _ hn hi,
    fun dump => mlTemplates_deployment dump mqs _ hn hi, rfl, rfl, rfl, rfl⟩

theorem mlTemplates_matches_appTemplates_witness :
    ∃ dApp dMl : Deployment,
      (∀ dump : Deployment → String,
        (appTemplates dump { appName := some "churn", image := some "churn:2" }
          (appSkeletonAfter dump [])).1.deployment = some (dump dApp)) ∧
      (∀ dump : Deployment → String,
        (mlTemplates dump { modelName := some "churn", image := some "churn:2" }
          (mlSkeletonAfter dump [])).1.deployment = some (dump dMl)) ∧
      dMl = dApp.withContainerPort 5000 := by
  obtain ⟨a, m, h1, h2, h3, _⟩ := mlTemplates_matches_appTemplates [] [] (some "churn")
    (some "churn:2") (by decide) (by decide)
  exact ⟨a, m, h1, h2, h3⟩

theorem jsonString_keys :
    jsonString "appName" = "\"appName\"" ∧ jsonString "userGivenName" = "\"userGivenName\"" ∧
    jsonString "destNamespace" = "\"destNamespace\"" ∧
    jsonString "destServer" = "\"destServer\"" ∧ jsonString "srcPath" = "\"srcPath\"" ∧
    jsonString "srcRepoURL" = "\"srcRepoURL\"" ∧
    jsonString "srcTargetRevision" = "\"srcTargetRevision\"" ∧
    jsonString "labels" = "\"labels\"" ∧ jsonString "exclude" = "\"exclude\"" ∧
    jsonString "include" = "\"include\"" := by
  decide

/-- The text written for a registration object is the JSON object of its ten keys. -/
theorem stringify_eq_jsonObject (c : AppConfig) : c.stringify = jsonObject c.entries := by
  obtain ⟨k1, k2, k3, k4, k5, k6, k7, k8, k9, k10⟩ := jsonString_keys
  apply String.ext
  simp only [AppConfig.stringify, jsonObject, AppConfig.entries, String.intercalate,
    String.intercalate.go, List.map, Option.map, Option.getD, k1, k2, k3, k4, k5, k6, k7, k8,
    k9, k10, String.data_append, String.data_join, List.flatten, List.append_assoc,
    List.append_nil]
  simp

/-! ## Claims on the registration config -/

theorem monitoringDeployArgocd_tree {b : MonitoringDeployBody} {w : World}
    (ht : truthy w.token = true) (ho : truthy b.orgName = true) (hr : truthy b.repoName = true)
    (hm : pathExists w.tree "monitoring/grafana/deployment.yaml" = true) (hq : quiet w) :
    (monitoringDeployArgocd b w).2.tree =
      putFile (ensured b.orgName b.repoName "apps/grafana" "Create grafana app directory"
          (record (.getContent b.orgName b.repoName "monitoring/grafana/deployment.yaml") w)).tree
        "apps/grafana/config_dir.json" (monitoringAppConfig b).stringify := by
  have hq0 := quiet_record (.getContent b.orgName b.repoName "monitoring/grafana/deployment.yaml") hq
  have hq1 := quiet_ensured b.orgName b.repoName "apps/grafana" "Create grafana app directory" hq0
  simp [monitoringDeployArgocd, monitoringDeployArgocdTry, getGitHubToken, ht, ho, hr,
    getContent_through _ _ _ (quiet_head hq), hm,
    ensureFolder_quiet _ _ _ _ hq0, createOrUpdateFileContents_through _ _ _ _ _ _ (quiet_head hq1)]

/-- C14: the text written for a registration object is the JSON object of exactly the
keys appName, userGivenName, destNamespace, destServer, srcPath, srcRepoURL,
srcTargetRevision, labels, exclude and include; and with a token stored, non-empty
org, repo and name, and no remote call failing, app deploy, ML deploy-argocd and
monitoring deploy-argocd end by writing that text to `apps/<name>/config_dir.json`
(name `grafana` for monitoring) with srcPath `manifests/<appName>/`,
`ml-models/<modelName>/` or `monitoring/grafana/` and srcRepoURL
`https://github.com/<org>/<repo>.git`. -/
theorem registration_config (w : World) (ht : truthy w.token = true) (hq : quiet w) :
    (∀ c : AppConfig, c.stringify = jsonObject c.entries ∧
      c.entries.map Prod.fst = configKeys) ∧
    (∀ b : AppDeployBody, truthy b.orgName = true → truthy b.repoName = true →
      truthy b.appName = true →
      (appDeploy b w).2.log.getLast? =
          some (.createOrUpdateFileContents b.orgName b.repoName
            ("apps/" ++ str b.appName ++ "/config_dir.json")
            ("Add ArgoCD config for " ++ str b.appName)
            (jsonObject (appDeployConfig b).entries) "main") ∧
        fileAt (appDeploy b w).2.tree ("apps/" ++ str b.appName ++ "/config_dir.json") =
          some (jsonObject (appDeployConfig b).entries) ∧
        (appDeployConfig b).appName = str b.appName ∧
        (appDeployConfig b).srcPath = "manifests/" ++ str b.appName ++ "/" ∧
        (appDeployConfig b).srcRepoURL =
          "https://github.com/" ++ str b.orgName ++ "/" ++ str b.repoName ++ ".git") ∧
    (∀ b : MlDeployArgocdBody, truthy b.orgName = true → truthy b.repoName = true →
      truthy b.modelName = true →
      (mlDeployArgocd b w).2.log.getLast? =
          some (.createOrUpdateFileContents b.orgName b.repoName
            ("apps/" ++ str b.modelName ++ "/config_dir.json")
            ("Add ArgoCD config for " ++ str b.modelName)
            (jsonObject (mlAppConfig b).entries) "main") ∧
        fileAt (mlDeployArgocd b w).2.tree ("apps/" ++ str b.modelName ++ "/config_dir.json") =
          some (jsonObject (mlAppConfig b).entries) ∧
        (mlAppConfig b).appName = str b.modelName ∧
        (mlAppConfig b).srcPath = "ml-models/" ++ str b.modelName ++ "/" ∧
        (mlAppConfig b).srcRepoURL =
          "https://github.com/" ++ str b.orgName ++ "/" ++ str b.repoName ++ ".git") ∧
    (∀ b : MonitoringDeployBody, truthy b.orgName = true → truthy b.repoName = true →
      pathExists w.tree "monitoring/grafana/deployment.yaml" = true →
      (monitoringDeployArgocd b w).2.log.getLast? =
          some (.createOrUpdateFileContents b.orgName b.repoName
            "apps/grafana/config_dir.json" "Add ArgoCD config for Grafana"
            (jsonObject (monitoringAppConfig b).entries) "main") ∧
        fileAt (monitoringDeployArgocd b w).2.tree "apps/grafana/config_dir.json" =
          some (jsonObject (monitoringAppConfig b).entries) ∧
        (monitoringAppConfig b).appName = "grafana" ∧
        (monitoringAppConfig b).srcPath = "monitoring/grafana/" ∧
        (monitoringAppConfig b).srcRepoURL =
          "https://github.com/" ++ str b.orgName ++ "/" ++ str b.repoName ++ ".git") := by
  refine ⟨fun c => ⟨stringify_eq_jsonObject c, rfl⟩, ?_, ?_, ?_⟩
  · intro b ho hr hn
    rw [appDeploy_quiet ht ho hr hn hq, ← stringify_eq_jsonObject]
    exact ⟨by simp, fileAt_putFile_self _ _ _, rfl, rfl, rfl⟩
  · intro b ho hr hn
    rw [mlDeployArgocd_quiet ht ho hr hn hq, ← stringify_eq_jsonObject]
    exact ⟨by simp, fileAt_putFile_self _ _ _, rfl, rfl, rfl⟩
  · intro b ho hr hm
    rw [(monitoringDeployArgocd_quiet ht ho hr hm hq).2, monitoringDeployArgocd_tree ht ho hr hm hq,
      ← stringify_eq_jsonObject]
    exact ⟨by simp, fileAt_putFile_self _ _ _, rfl, rfl, rfl⟩

theorem registration_config_witness :
    fileAt (appDeploy billingDeploy billingRegistered).2.tree "apps/billing/config_dir.json" =
        some (jsonObject (appDeployConfig billingDeploy).entries) ∧
      (appDeployConfig billingDeploy).srcPath = "manifests/billing/" ∧
      (appDeployConfig billingDeploy).srcRepoURL = "https://github.com/acme/infra.git" :=
  have h := (registration_config billingRegistered (by decide) (fun _ _ => rfl)).2.1
    billingDeploy (by decide) (by decide) (by decide)
  ⟨h.2.1, h.2.2.2.1, h.2.2.2.2⟩

/-! ## Claims on the pipeline templates -/

theorem javaTemplate_slots (d r c : String) :
    containsText (javaTemplate d r c) ("DOCKER_IMAGE = \"" ++ d ++ "\"") ∧
    containsText (javaTemplate d r c) ("docker.build(\"" ++ d ++ "\")") ∧
    containsText (javaTemplate d r c)
      ("docker.withRegistry(\"https://" ++ r ++ "\", \"" ++ c ++ "\")") ∧
    containsText (javaTemplate d r c) ("docker.image(\"" ++ d ++ "\").push()") := by
  refine ⟨?_, ?_, ?_, ?_⟩
  · exact containsText_join_mid "    " _ "\n" ("    DOCKER_IMAGE = \"" ++ d ++ "\"\n")
      (by simp [List.mem_cons]) (by apply String.ext; simp [String.data_append])
  · exact containsText_join_mid "          " _ "\n"
      ("          docker.build(\"" ++ d ++ "\")\n")
      (by simp [List.mem_cons]) (by apply String.ext; simp [String.data_append])
  · exact containsText_join_mid "          " _ " \x7b\n"
      ("          docker.withRegistry(\"https://" ++ r ++ "\", \"" ++ c ++ "\") \x7b\n")
      (by simp [List.mem_cons]) (by apply String.ext; simp [String.data_append])
  · exact containsText_join_mid "            " _ "\n"
      ("            docker.image(\"" ++ d ++ "\").push()\n")
      (by simp [List.mem_cons]) (by apply String.ext; simp [String.data_append])

theorem pythonTemplate_slots (d r c : String) :
    containsText (pythonTemplate d r c) ("DOCKER_IMAGE = \"" ++ d ++ "\"") ∧
    containsText (pythonTemplate d r c) ("docker.build(\"" ++ d ++ "\")") ∧
    containsText (pythonTemplate d r c)
      ("docker.withRegistry(\"https://" ++ r ++ "\", \"" ++ c ++ "\")") ∧
    containsText (pythonTemplate d r c) ("docker.image(\"" ++ d ++ "\").push()") ∧
    containsText (pythonTemplate d r c) "pytest" := by
  refine ⟨?_, ?_, ?_, ?_, ?_⟩
  · exact containsText_join_mid "    " _ "\n" ("    DOCKER_IMAGE = \"" ++ d ++ "\"\n")
      (by simp [List.mem_cons]) (by apply String.ext; simp [String.data_append])
  · exact containsText_join_mid "          " _ "\n"
      ("          docker.build(\"" ++ d ++ "\")\n")
      (by simp [List.mem_cons]) (by apply String.ext; simp [String.data_append])
  · exact containsText_join_mid "          " _ " \x7b\n"
      ("          docker.withRegistry(\"https://" ++ r ++ "\", \"" ++ c ++ "\") \x7b\n")
      (by simp [List.mem_cons]) (by apply String.ext; simp [String.data_append])
  · exact containsText_join_mid "            " _ "\n"
      ("            docker.image(\"" ++ d ++ "\").push()\n")
      (by simp [List.mem_cons]) (by apply String.ext; simp [String.data_append])
  · exact containsText_join_mid "        sh \x27source venv/bin/activate && " _ "\x27\n"
      ("        sh \x27source venv/bin/activate && pytest\x27\n")
      (by simp [List.mem_cons]) (by decide)

theorem nodejsTemplate_slots (d r c : String) :
    containsText (nodejsTemplate d r c) ("DOCKER_IMAGE = \"" ++ d ++ "\"") ∧
    containsText (nodejsTemplate d r c) ("docker.build(\"" ++ d ++ "\")") ∧
    containsText (nodejsTemplate d r c)
      ("docker.withRegistry(\"https://" ++ r ++ "\", \"" ++ c ++ "\")") ∧
    containsText (nodejsTemplate d r c) ("docker.image(\"" ++ d ++ "\").push()") := by
  refine ⟨?_, ?_, ?_, ?_⟩
  · exact containsText_join_mid "    " _ "\n" ("    DOCKER_IMAGE = \"" ++ d ++ "\"\n")
      (by simp [List.mem_cons]) (by apply String.ext; simp [String.data_append])
  · exact containsText_join_mid "          " _ "\n"
      ("          docker.build(\"" ++ d ++ "\")\n")
      (by simp [List.mem_cons]) (by apply String.ext; simp [String.data_append])
  · exact containsText_join_mid "          " _ " \x7b\n"
      ("          docker.withRegistry(\"https://" ++ r ++ "\", \"" ++ c ++ "\") \x7b\n")
      (by simp [List.mem_cons]) (by apply String.ext; simp [String.data_append])
  · exact containsText_join_mid "            " _ "\n"
      ("            docker.image(\"" ++ d ++ "\").push()\n")
      (by simp [List.mem_cons]) (by apply String.ext; simp [String.data_append])

/-- C16: for every language among java, python and nodejs and every non-empty
dockerImage d, the get-template operation returns a script that contains
`DOCKER_IMAGE = "d"`, `docker.build("d")`, `docker.withRegistry("https://r", "c")`
and `docker.image("d").push()`, where r and c are the handler's `registry` and
`credId`: the registryUrl and registryCredentialId of the request, or `docker.io`
and `dockerhub-creds` when those are missing or empty; the python script also
contains `pytest`. -/
theorem pipelineTemplate_slots (language : String)
    (hl : language ∈ ["java", "python", "nodejs"]) (d r c : Option String)
    (hd : truthy d = true) :
    ∃ script,
      pipelineTemplate
          { language := some language, dockerImage := d, registryUrl := r,
            registryCredentialId := c } =
        { success := some true, content := some (.text script),
          message := some "Template loaded successfully" } ∧
      containsText script ("DOCKER_IMAGE = \"" ++ str d ++ "\"") ∧
      containsText script ("docker.build(\"" ++ str d ++ "\")") ∧
      containsText script
        ("docker.withRegistry(\"https://" ++ (if truthy r then str r else "docker.io") ++
          "\", \"" ++ (if truthy c then str c else "dockerhub-creds") ++ "\")") ∧
      containsText script ("docker.image(\"" ++ str d ++ "\").push()") ∧
      (language = "python" → containsText script "pytest") := by
  have h1 : truthy (some "java") = true := by decide
  have h2 : truthy (some "python") = true := by decide
  have h3 : truthy (some "nodejs") = true := by decide
  simp only [List.mem_cons, List.mem_singleton, List.not_mem_nil, or_false] at hl
  rcases hl with h | h | h <;> subst h
  · obtain ⟨s1, s2, s3, s4⟩ := javaTemplate_slots (str d)
      (if truthy r then str r else "docker.io") (if truthy c then str c else "dockerhub-creds")
    refine ⟨_, ?_, s1, s2, s3, s4, fun h => absurd h (by decide)⟩
    simp [pipelineTemplate, h1, hd, readProperty, templates, List.lookup, str]
  · obtain ⟨s1, s2, s3, s4, s5⟩ := pythonTemplate_slots (str d)
      (if truthy r then str r else "docker.io") (if truthy c then str c else "dockerhub-creds")
    refine ⟨_, ?_, s1, s2, s3, s4, fun _ => s5⟩
    simp [pipelineTemplate, h2, hd, readProperty, templates, List.lookup, str]
  · obtain ⟨s1, s2, s3, s4⟩ := nodejsTemplate_slots (str d)
      (if truthy r then str r else "docker.io") (if truthy c then str c else "dockerhub-creds")
    refine ⟨_, ?_, s1, s2, s3, s4, fun h => absurd h (by decide)⟩
    simp [pipelineTemplate, h3, hd, readProperty, templates, List.lookup, str]

theorem pipelineTemplate_slots_witness :
    ∃ script,
      pipelineTemplate { language := some "python", dockerImage := some "svc:1.0" } =
        { success := some true, content := some (.text script),
          message := some "Template loaded successfully" } ∧
      containsText script "docker.build(\"svc:1.0\")" ∧ containsText script "pytest" := by
  obtain ⟨s, h, _, hb, _, _, hp⟩ := pipelineTemplate_slots "python" (by decide)
    (some "svc:1.0") none none (by decide)
  exact ⟨s, h, hb, hp rfl⟩

/-- Every language that is not a key of `templates` and not a property every object
inherits is rejected. -/
theorem pipelineTemplate_unsupported (q : TemplateQuery) (hl : truthy q.language = true)
    (hd : truthy q.dockerImage = true)
    (h1 : str q.language ∉ ["java", "python", "nodejs"])
    (h2 : str q.language ∉ objectPrototypeMethods) (h3 : str q.language ≠ "__proto__") :
    pipelineTemplate q =
      { status := 400, success := some false, message := some "Unsupported language" } := by
  simp only [List.mem_cons, List.mem_singleton, List.not_mem_nil, or_false, not_or] at h1
  obtain ⟨a, b, c⟩ := h1
  have ha : (str q.language == "java") = false := by simpa using a
  have hb : (str q.language == "python") = false := by simpa using b
  have hc : (str q.language == "nodejs") = false := by simpa using c
  simp [pipelineTemplate, hl, hd, readProperty, templates, List.lookup, h2, h3, ha, hb, hc]

/-- C15, the code at the failing input: the language `constructor` is none of java,
python and nodejs, and the CI pipeline get-template operation answers it 200 with
`success: true` and no script, and the operation `/templates/:language` of
`github.js` answers it 200; the language `go` is rejected by both. -/
theorem pipelineTemplate_inherited_language :
    "constructor" ∉ ["java", "python", "nodejs"] ∧
    pipelineTemplate { language := some "constructor", dockerImage := some "svc:1.0" } =
      { status := 200, success := some true, message := some "Template loaded successfully" } ∧
    languageTemplates "constructor" = { status := 200, language := some "constructor" } ∧
    pipelineTemplate { language := some "go", dockerImage := some "svc:1.0" } =
      { status := 400, success := some false, message := some "Unsupported language" } ∧
    languageTemplates "go" = { status := 400, message := some "Unsupported language" } := by
  decide

/-! ## Claims on rejected requests -/

/-- C17: for every deploymentYaml that `yaml.load` fails to parse, app
create-manifests and ML deploy answer 400 and issue no remote call, so the trace and
the tree are unchanged; with a token stored and the other required fields present
the answer is `Invalid YAML format` with the message of the parser. -/
theorem invalid_yaml_rejected (yamlLoad : String → Except String Unit) (w : World) :
    (∀ (b : AppManifestsBody) (msg : String), yamlLoad (str b.deploymentYaml) = .error msg →
      (appCreateManifests yamlLoad b w).1.status = 400 ∧
      (appCreateManifests yamlLoad b w).2 = w ∧
      (truthy w.token = true → truthy b.appName = true → truthy b.deploymentYaml = true →
        (appCreateManifests yamlLoad b w).1 =
          { status := 400, success := some false, message := some "Invalid YAML format",
            error := some msg })) ∧
    (∀ (b : MlDeployBody) (msg : String), yamlLoad (str b.deploymentYaml) = .error msg →
      (mlDeploy yamlLoad b w).1.status = 400 ∧
      (mlDeploy yamlLoad b w).2 = w ∧
      (truthy w.token = true → truthy b.orgName = true → truthy b.repoName = true →
        truthy b.modelName = true → truthy b.deploymentYaml = true →
        (mlDeploy yamlLoad b w).1 =
          { status := 400, success := some false, message := some "Invalid YAML format",
            error := some msg })) := by
  constructor
  · intro b msg hl
    by_cases ht : truthy w.token = true
    · by_cases hn : truthy b.appName = true
      · by_cases hy : truthy b.deploymentYaml = true
        · simp [appCreateManifests, appCreateManifestsTry, getGitHubToken, ht, hn, hy, hl]
        · simp [appCreateManifests, appCreateManifestsTry, getGitHubToken, ht, hn, hy]
      · simp [appCreateManifests, appCreateManifestsTry, getGitHubToken, ht, hn]
    · simp [appCreateManifests, appCreateManifestsTry, getGitHubToken, ht]
  · intro b msg hl
    by_cases ht : truthy w.token = true
    · by_cases hf : truthy b.orgName = true ∧ truthy b.repoName = true ∧
          truthy b.modelName = true ∧ truthy b.deploymentYaml = true
      · obtain ⟨ho, hr, hn, hy⟩ := hf
        simp [mlDeploy, mlDeployTry, getGitHubToken, ht, ho, hr, hn, hy, hl]
      · have hc : (!truthy b.orgName || !truthy b.repoName || !truthy b.modelName
            || !truthy b.deploymentYaml) = true := by
          rcases Bool.eq_false_or_eq_true (truthy b.orgName) with h1 | h1 <;>
          rcases Bool.eq_false_or_eq_true (truthy b.repoName) with h2 | h2 <;>
          rcases Bool.eq_false_or_eq_true (truthy b.modelName) with h3 | h3 <;>
          rcases Bool.eq_false_or_eq_true (truthy b.deploymentYaml) with h4 | h4 <;>
          simp_all
        simp only [mlDeploy, mlDeployTry, getGitHubToken, ht, hc, Bool.not_true,
          Bool.false_eq_true, if_false, if_true]
        refine ⟨trivial, trivial, ?_⟩
        intro _ ho hr hn hy
        exact absurd ⟨ho, hr, hn, hy⟩ hf
    · simp [mlDeploy, mlDeployTry, getGitHubToken, ht]

theorem invalid_yaml_rejected_witness :
    (appCreateManifests rejectAll billingManifests billingWorld).1 =
        { status := 400, success := some false, message := some "Invalid YAML format",
          error := some "bad indentation of a mapping entry" } ∧
      (appCreateManifests rejectAll billingManifests billingWorld).2.log = [] := by
  have h := (invalid_yaml_rejected rejectAll billingWorld).1 billingManifests
    "bad indentation of a mapping entry" rfl
  refine ⟨h.2.2 (by decide) (by decide) (by decide), ?_⟩
  rw [h.2.1]
  rfl

/-- C18: when no token is stored, every create and deploy workflow answers 400 at
once, for every request body, and issues no remote call: the world, with its trace
and its tree, is unchanged.  Seven workflows say `GitHub token not configured`;
create-project says it when the required fields are present and `Missing required
fields` otherwise. -/
theorem no_token_no_remote_call (yamlLoad : String → Except String Unit) (w : World)
    (ht : truthy w.token = false) :
    (∀ b : AppManifestsBody,
      appCreateManifests yamlLoad b w =
        ({ status := 400, success := some false,
           message := some "GitHub token not configured" }, w)) ∧
    (∀ b : AppDeployBody,
      appDeploy b w =
        ({ status := 400, success := some false,
           message := some "GitHub token not configured" }, w)) ∧
    (∀ b : CreatePipelineBody,
      createPipeline b w =
        ({ status := 400, success := some false,
           message := some "GitHub token not configured" }, w)) ∧
    (∀ b : CreateProjectBody,
      (createProject b w).1.status = 400 ∧ (createProject b w).2 = w ∧
      (b.complete = true →
        (createProject b w).1 =
          { status := 400, message := some "GitHub token not configured" })) ∧
    (∀ b : MonitoringManifestsBody,
      monitoringCreateManifests b w =
        ({ status := 400, success := some false,
           message := some "GitHub token not configured" }, w)) ∧
    (∀ b : MonitoringDeployBody,
      monitoringDeployArgocd b w =
        ({ status := 400, success := some false,
           message := some "GitHub token not configured" }, w)) ∧
    (∀ b : MlDeployBody,
      mlDeploy yamlLoad b w =
        ({ status := 400, success := some false,
           message := some "GitHub token not configured" }, w)) ∧
    (∀ b : MlDeployArgocdBody,
      mlDeployArgocd b w =
        ({ status := 400, success := some false,
           message := some "GitHub token not configured" }, w)) := by
  refine ⟨?_, ?_, ?_, ?_, ?_, ?_, ?_, ?_⟩
  · intro b; simp [appCreateManifests, appCreateManifestsTry, getGitHubToken, ht]
  · intro b; simp [appDeploy, appDeployTry, getGitHubToken, ht]
  · intro b; simp [createPipeline, createPipelineTry, getGitHubToken, ht]
  · intro b
    by_cases hc : b.complete = true
    · obtain ⟨h1, h2, h3, h4, h5⟩ := complete_fields hc
      simp [createProject, createProjectTry, getGitHubToken, ht, h1, h2, h3, h4, h5]
    · have hf : (!truthy b.orgName || !truthy b.repoName || !truthy b.projectName
          || !truthy b.clusterUrl || !truthy b.repoUrl) = true := by
        simp only [CreateProjectBody.complete] at hc
        rcases Bool.eq_false_or_eq_true (truthy b.orgName) with h1 | h1 <;>
        rcases Bool.eq_false_or_eq_true (truthy b.repoName) with h2 | h2 <;>
        rcases Bool.eq_false_or_eq_true (truthy b.projectName) with h3 | h3 <;>
        rcases Bool.eq_false_or_eq_true (truthy b.clusterUrl) with h4 | h4 <;>
        rcases Bool.eq_false_or_eq_true (truthy b.repoUrl) with h5 | h5 <;>
        simp_all
      simp only [createProject, createProjectTry, hf, if_true]
      exact ⟨trivial, trivial, fun h => absurd h hc⟩
  · intro b; simp [monitoringCreateManifests, monitoringCreateManifestsTry, getGitHubToken, ht]
  · intro b; simp [monitoringDeployArgocd, monitoringDeployArgocdTry, getGitHubToken, ht]
  · intro b; simp [mlDeploy, mlDeployTry, getGitHubToken, ht]
  · intro b; simp [mlDeployArgocd, mlDeployArgocdTry, getGitHubToken, ht]

theorem no_token_no_remote_call_witness :
    appCreateManifests acceptAll billingManifests noTokenWorld =
        ({ status := 400, success := some false,
           message := some "GitHub token not configured" }, noTokenWorld) ∧
      (createProject checkoutProject noTokenWorld).1.status = 400 :=
  have h := no_token_no_remote_call acceptAll noTokenWorld (by decide)
  ⟨h.1 billingManifests, (h.2.2.2.1 checkoutProject).1⟩

/-! ## Claims on failing reads -/

theorem getContent_faulted {w : World} {e : RemoteError} (o r : Option String) (p : String)
    (h : w.faults w.log.length = some e) :
    getContent o r p w = (.error e, record (.getContent o r p) w) := by
  simp only [getContent, h]

/-- A folder read that fails with a status other than 404 ends the folder-ensure step
with that error, before any write. -/
theorem ensureFolder_faulted {w : World} {e : RemoteError} (o r : Option String) (d m : String)
    (h : w.faults w.log.length = some e) (h4 : e.status ≠ 404) :
    ensureFolder o r d m w = (.error e, record (.getContent o r d) w) := by
  simp [ensureFolder, getContent_faulted o r d h, h4]

/-- The three outcomes of the folder read in the folder-ensure step. -/
theorem ensureFolder_classified (o r : Option String) (d m : String) (w : World) :
    match (getContent o r d w).1 with
    | .ok _ =>
      (ensureFolder o r d m w).1 = .ok () ∧ writes (ensureFolder o r d m w).2.log = writes w.log
    | .error e =>
      if e.status = 404 then
        writes (ensureFolder o r d m w).2.log = writes w.log ++ [marker o r d m]
      else
        (ensureFolder o r d m w).1 = .error e ∧
          writes (ensureFolder o r d m w).2.log = writes w.log := by
  have hlog := ensureFolder_log o r d m w
  rcases hg : getContent o r d w with ⟨res, w1⟩
  rw [hg] at hlog
  cases res with
  | ok c =>
    simp only at hlog ⊢
    refine ⟨?_, by simp [hlog]⟩
    simp [ensureFolder, hg]
  | error e =>
    simp only at hlog ⊢
    by_cases h4 : e.status = 404
    · simp [h4, hlog, marker]
    · simp only [h4, if_false] at hlog ⊢
      refine ⟨?_, by simp [hlog]⟩
      simp [ensureFolder, hg, h4]

/-- C19: an existence read is classified three ways.  In the folder-ensure step a
read that succeeds leads to no write, a read that fails with status 404 leads to the
marker write, and a read that fails with any other status ends the step with that
error and no write.  With a token stored and a valid request, a read that fails
with a status other than 404 ends every workflow with a failure response (500, or
for create-project the answer of its `catch` block, 422 or 500) right after that
read: no remote call follows, so no write is performed and the tree is unchanged. -/
theorem read_failure_propagates (yamlLoad : String → Except String Unit) (w : World)
    (e : RemoteError) (ht : truthy w.token = true) (h4 : e.status ≠ 404) :
    (∀ (v : World) (o r : Option String) (d m : String),
      match (getContent o r d v).1 with
      | .ok _ =>
        (ensureFolder o r d m v).1 = .ok () ∧ writes (ensureFolder o r d m v).2.log = writes v.log
      | .error e1 =>
        if e1.status = 404 then
          writes (ensureFolder o r d m v).2.log = writes v.log ++ [marker o r d m]
        else
          (ensureFolder o r d m v).1 = .error e1 ∧
            writes (ensureFolder o r d m v).2.log = writes v.log) ∧
    (∀ (v : World) (o r : Option String) (p : String),
      (record (.getContent o r p) v).tree = v.tree ∧
        writes (record (.getContent o r p) v).log = writes v.log) ∧
    ((createProjectCatch e).status = 422 ∨ (createProjectCatch e).status = 500) ∧
    (w.faults w.log.length = some e →
      (∀ b : CreatePipelineBody, truthy b.pipelineName = true →
        truthy b.pipelineContent = true →
        createPipeline b w =
          ({ status := 500, success := some false,
             message := some "Failed to create pipeline, already exists.",
             error := some e.message },
           record (.getContent b.orgName b.repoName "cicd") w)) ∧
      (∀ b : CreateProjectBody, b.complete = true →
        createProject b w =
          (createProjectCatch e,
           record (.getContent b.orgName b.repoName (projectPath (str b.projectName))) w)) ∧
      (∀ b : AppManifestsBody, truthy b.appName = true → truthy b.deploymentYaml = true →
        yamlLoad (str b.deploymentYaml) = .ok () →
        appCreateManifests yamlLoad b w =
          ({ status := 500, success := some false,
             message := some "Failed to create application manifest",
             error := some e.message },
           record (.getContent b.orgName b.repoName "manifests") w)) ∧
      (∀ b : AppDeployBody, truthy b.orgName = true → truthy b.repoName = true →
        truthy b.appName = true →
        appDeploy b w =
          ({ status := 500, success := some false,
             message := some "Failed to deploy application, already there",
             error := some e.message },
           record (.getContent b.orgName b.repoName "apps") w)) ∧
      (∀ b : MlDeployBody, truthy b.orgName = true → truthy b.repoName = true →
        truthy b.modelName = true → truthy b.deploymentYaml = true →
        yamlLoad (str b.deploymentYaml) = .ok () →
        mlDeploy yamlLoad b w =
          ({ status := 500, success := some false,
             message := some "Failed to create ML model manifest, already there",
             error := some e.message },
           record (.getContent b.orgName b.repoName "ml-models") w)) ∧
      (∀ b : MlDeployArgocdBody, truthy b.orgName = true → truthy b.repoName = true →
        truthy b.modelName = true →
        mlDeployArgocd b w =
          ({ status := 500, success := some false,
             message := some "Failed to deploy ML model via ArgoCD, already there",
             error := some e.message },
           record (.getContent b.orgName b.repoName "apps") w)) ∧
      (∀ b : MonitoringManifestsBody, truthy b.orgName = true → truthy b.repoName = true →
        monitoringCreateManifests b w =
          ({ status := 500, success := some false,
             message := some "Failed to create Grafana manifests, already there",
             error := some e.message },
           record (.getContent b.orgName b.repoName "monitoring") w)) ∧
      (∀ b : MonitoringDeployBody, truthy b.orgName = true → truthy b.repoName = true →
        monitoringDeployArgocd b w =
          ({ status := 500, success := some false,
             message := some "Failed to deploy Grafana via ArgoCD, already there",
             error := some e.message },
           record (.getContent b.orgName b.repoName "monitoring/grafana/deployment.yaml") w))) ∧
    (w.faults w.log.length = none → w.faults (w.log.length + 1) = some e →
      (∀ b : CreateProjectBody, b.complete = true →
        pathExists w.tree (projectPath (str b.projectName)) = false →
        createProject b w =
          (createProjectCatch e,
           record (.getContent b.orgName b.repoName "projects")
             (record (.getContent b.orgName b.repoName (projectPath (str b.projectName))) w))) ∧
      (∀ b : MonitoringDeployBody, truthy b.orgName = true → truthy b.repoName = true →
        pathExists w.tree "monitoring/grafana/deployment.yaml" = true →
        monitoringDeployArgocd b w =
          ({ status := 500, success := some false,
             message := some "Failed to deploy Grafana via ArgoCD, already there",
             error := some e.message },
           record (.getContent b.orgName b.repoName "apps/grafana")
             (record (.getContent b.orgName b.repoName "monitoring/grafana/deployment.yaml")
               w)))) := by
  refine ⟨fun v o r d m => ensureFolder_classified o r d m v, fun v o r p => ⟨rfl, by simp⟩,
    ?_, ?_, ?_⟩
  · rw [createProjectCatch_status]
    by_cases h : e.status = 422 <;> simp [h]
  · intro hf
    refine ⟨?_, ?_, ?_, ?_, ?_, ?_, ?_, ?_⟩
    · intro b hn hc
      simp [createPipeline, createPipelineTry, getGitHubToken, ht, hn, hc,
        ensureFolder_faulted _ _ _ _ hf h4]
    · intro b hc
      obtain ⟨h1, h2, h3, h5, h6⟩ := complete_fields hc
      simp [createProject, createProjectTry, getGitHubToken, ht, h1, h2, h3, h5, h6,
        getContent_faulted _ _ _ hf, h4]
    · intro b hn hy hl
      simp [appCreateManifests, appCreateManifestsTry, getGitHubToken, ht, hn, hy, hl,
        ensureFolder_faulted _ _ _ _ hf h4]
    · intro b ho hr hn
      simp [appDeploy, appDeployTry, getGitHubToken, ht, ho, hr, hn,
        ensureFolder_faulted _ _ _ _ hf h4]
    · intro b ho hr hn hy hl
      simp [mlDeploy, mlDeployTry, getGitHubToken, ht, ho, hr, hn, hy, hl,
        ensureFolder_faulted _ _ _ _ hf h4]
    · intro b ho hr hn
      simp [mlDeployArgocd, mlDeployArgocdTry, getGitHubToken, ht, ho, hr, hn,
        ensureFolder_faulted _ _ _ _ hf h4]
    · intro b ho hr
      simp [monitoringCreateManifests, monitoringCreateManifestsTry, getGitHubToken, ht, ho, hr,
        ensureFolder_faulted _ _ _ _ hf h4]
    · intro b ho hr
      simp [monitoringDeployArgocd, monitoringDeployArgocdTry, getGitHubToken, ht, ho, hr,
        getContent_faulted _ _ _ hf, h4]
  · intro h0 h1
    refine ⟨?_, ?_⟩
    · intro b hc hleaf
      obtain ⟨f1, f2, f3, f5, f6⟩ := complete_fields hc
      have hf : (record (.getContent b.orgName b.repoName (projectPath (str b.projectName)))
          w).faults (record (.getContent b.orgName b.repoName
            (projectPath (str b.projectName))) w).log.length = some e := by
        simpa using h1
      simp [createProject, createProjectTry, getGitHubToken, ht, f1, f2, f3, f5, f6,
        getContent_through _ _ _ h0, hleaf, notFound, ensureFolder_faulted _ _ _ _ hf h4]
    · intro b ho hr hm
      have hf : (record (.getContent b.orgName b.repoName "monitoring/grafana/deployment.yaml")
          w).faults (record (.getContent b.orgName b.repoName
            "monitoring/grafana/deployment.yaml") w).log.length = some e := by
        simpa using h1
      simp [monitoringDeployArgocd, monitoringDeployArgocdTry, getGitHubToken, ht, ho, hr,
        getContent_through _ _ _ h0, hm, ensureFolder_faulted _ _ _ _ hf h4]

theorem read_failure_propagates_witness :
    createPipeline { pipelineName := some "build", pipelineContent := some "pipeline" }
        firstReadForbidden =
      ({ status := 500, success := some false,
         message := some "Failed to create pipeline, already exists.",
         error := some "Forbidden" },
       record (.getContent none none "cicd") firstReadForbidden) :=
  ((read_failure_propagates acceptAll firstReadForbidden
      { status := 403, message := "Forbidden" } (by decide) (by decide)).2.2.2.1 rfl).1
    { pipelineName := some "build", pipelineContent := some "pipeline" } (by decide) (by decide)

/-! ## Claims on the returned URL -/

/-- The URL a write that went through returns. -/
theorem createOrUpdateFileContents_url {w w1 : World} {res : WriteResult}
    (o r : Option String) (p m c b : String)
    (h : createOrUpdateFileContents o r p m c b w = (.ok res, w1)) :
    res.html_url = htmlUrl o r b p := by
  unfold createOrUpdateFileContents at h
  split at h
  · simp at h
  · simp only [Prod.mk.injEq, Except.ok.injEq] at h
    rw [← h.1]

theorem appCreateManifests_no_url (yamlLoad : String → Except String Unit)
    (b : AppManifestsBody) (w : World) : (appCreateManifests yamlLoad b w).1.url = none := by
  have h : ∀ res, (appCreateManifestsTry yamlLoad b w).1 = .ok res → res.url = none := by
    intro res
    simp only [appCreateManifestsTry]
    repeat' split
    all_goals (intro h; first | (cases h; rfl) | (simp at h))
  unfold appCreateManifests
  rcases hr : appCreateManifestsTry yamlLoad b w with ⟨r | r, w1⟩
  · rfl
  · exact h r (by rw [hr])

theorem mlDeploy_no_url (yamlLoad : String → Except String Unit)
    (b : MlDeployBody) (w : World) : (mlDeploy yamlLoad b w).1.url = none := by
  have h : ∀ res, (mlDeployTry yamlLoad b w).1 = .ok res → res.url = none := by
    intro res
    simp only [mlDeployTry]
    repeat' split
    all_goals (intro h; first | (cases h; rfl) | (simp at h))
  unfold mlDeploy
  rcases hr : mlDeployTry yamlLoad b w with ⟨r | r, w1⟩
  · rfl
  · exact h r (by rw [hr])

theorem monitoringCreateManifests_no_url (b : MonitoringManifestsBody) (w : World) :
    (monitoringCreateManifests b w).1.url = none := by
  have h : ∀ res, (monitoringCreateManifestsTry b w).1 = .ok res → res.url = none := by
    intro res
    simp only [monitoringCreateManifestsTry]
    repeat' split
    all_goals (intro h; first | (cases h; rfl) | (simp at h))
  unfold monitoringCreateManifests
  rcases hr : monitoringCreateManifestsTry b w with ⟨r | r, w1⟩
  · rfl
  · exact h r (by rw [hr])

/-- A create-pipeline run that ends in success returns the URL of its leaf write. -/
theorem createPipeline_url (b : CreatePipelineBody) (w : World)
    (hs : (createPipeline b w).1.success = some true) :
    ∃ (v : World) (res : WriteResult),
      createOrUpdateFileContents b.orgName b.repoName (pipelinePath (str b.pipelineName))
          ("Add " ++ str b.pipelineName ++ " pipeline via InfraPilotX")
          (str b.pipelineContent) "main" v = (.ok res, (createPipeline b w).2) ∧
        (createPipeline b w).1.url = some res.html_url ∧
        res.html_url = htmlUrl b.orgName b.repoName "main" (pipelinePath (str b.pipelineName)) := by
  by_cases ht : truthy (getGitHubToken w) = true
  · by_cases hf : (!truthy b.pipelineName || !truthy b.pipelineContent) = true
    · simp [createPipeline, createPipelineTry, ht, hf] at hs
    · rcases he : ensureFolder b.orgName b.repoName "cicd" "Create CICD directory" w
        with ⟨r1 | r1, w1⟩
      · simp [createPipeline, createPipelineTry, ht, hf, he] at hs
      · rcases hc : createOrUpdateFileContents b.orgName b.repoName
            (pipelinePath (str b.pipelineName))
            ("Add " ++ str b.pipelineName ++ " pipeline via InfraPilotX")
            (str b.pipelineContent) "main" w1 with ⟨r2 | r2, w2⟩
        · simp [createPipeline, createPipelineTry, ht, hf, he, hc] at hs
        · refine ⟨w1, r2, ?_, ?_, createOrUpdateFileContents_url _ _ _ _ _ _ hc⟩
          · simp [createPipeline, createPipelineTry, ht, hf, he, hc]
          · simp [createPipeline, createPipelineTry, ht, hf, he, hc]
  · simp [createPipeline, createPipelineTry, ht] at hs

/-- A create-project run that ends in 201 returns the URL of its leaf write. -/
theorem createProject_url (b : CreateProjectBody) (w : World)
    (hs : (createProject b w).1.status = 201) :
    ∃ (v : World) (res : WriteResult),
      createOrUpdateFileContents b.orgName b.repoName (projectPath (str b.projectName))
          ("Add project " ++ str b.projectName)
          (projectYaml (str b.projectName) (str b.clusterUrl) (str b.repoUrl)) "main" v =
          (.ok res, (createProject b w).2) ∧
        (createProject b w).1.url = some res.html_url ∧
        res.html_url = htmlUrl b.orgName b.repoName "main" (projectPath (str b.projectName)) := by
  have hcatch : ∀ e, (createProjectCatch e).status ≠ 201 := by
    intro e
    rw [createProjectCatch_status]
    split <;> decide
  by_cases hf : (!truthy b.orgName || !truthy b.repoName || !truthy b.projectName
      || !truthy b.clusterUrl || !truthy b.repoUrl) = true
  · simp [createProject, createProjectTry, hf] at hs
  · by_cases ht : truthy (getGitHubToken w) = true
    · rcases hg : getContent b.orgName b.repoName (projectPath (str b.projectName)) w
        with ⟨r0 | r0, w0⟩
      · by_cases h4 : r0.status = 404
        · rcases he : ensureFolder b.orgName b.repoName "projects" "Create projects directory" w0
            with ⟨r1 | r1, w1⟩
          · have := hcatch r1
            simp [createProject, createProjectTry, ht, hf, hg, h4, he] at hs
            exact absurd hs this
          · rcases hc : createOrUpdateFileContents b.orgName b.repoName
                (projectPath (str b.projectName)) ("Add project " ++ str b.projectName)
                (projectYaml (str b.projectName) (str b.clusterUrl) (str b.repoUrl)) "main" w1
              with ⟨r2 | r2, w2⟩
            · have := hcatch r2
              simp [createProject, createProjectTry, ht, hf, hg, h4, he, hc] at hs
              exact absurd hs this
            · refine ⟨w1, r2, ?_, ?_, createOrUpdateFileContents_url _ _ _ _ _ _ hc⟩
              · simp [createProject, createProjectTry, ht, hf, hg, h4, he, hc]
              · simp [createProject, createProjectTry, ht, hf, hg, h4, he, hc]
        · have := hcatch r0
          simp [createProject, createProjectTry, ht, hf, hg, h4] at hs
          exact absurd hs this
      · simp [createProject, createProjectTry, ht, hf, hg] at hs
    · simp [createProject, createProjectTry, ht, hf] at hs

/-- C20, as the code has it: create-pipeline and create-project, when they end in
success, return in `url` the URL that their leaf write returned; app
create-manifests, monitoring create-manifests and ML deploy return `success` and a
message and never a URL. -/
theorem created_url (yamlLoad : String → Except String Unit) (w : World) :
    (∀ b : CreatePipelineBody, (createPipeline b w).1.success = some true →
      ∃ (v : World) (res : WriteResult),
        createOrUpdateFileContents b.orgName b.repoName (pipelinePath (str b.pipelineName))
            ("Add " ++ str b.pipelineName ++ " pipeline via InfraPilotX")
            (str b.pipelineContent) "main" v = (.ok res, (createPipeline b w).2) ∧
          (createPipeline b w).1.url = some res.html_url ∧
          res.html_url =
            htmlUrl b.orgName b.repoName "main" (pipelinePath (str b.pipelineName))) ∧
    (∀ b : CreateProjectBody, (createProject b w).1.status = 201 →
      ∃ (v : World) (res : WriteResult),
        createOrUpdateFileContents b.orgName b.repoName (projectPath (str b.projectName))
            ("Add project " ++ str b.projectName)
            (projectYaml (str b.projectName) (str b.clusterUrl) (str b.repoUrl)) "main" v =
            (.ok res, (createProject b w).2) ∧
          (createProject b w).1.url = some res.html_url ∧
          res.html_url =
            htmlUrl b.orgName b.repoName "main" (projectPath (str b.projectName))) ∧
    (∀ b : AppManifestsBody, (appCreateManifests yamlLoad b w).1.url = none) ∧
    (∀ b : MonitoringManifestsBody, (monitoringCreateManifests b w).1.url = none) ∧
    (∀ b : MlDeployBody, (mlDeploy yamlLoad b w).1.url = none) :=
  ⟨fun b => createPipeline_url b w, fun b => createProject_url b w,
    fun b => appCreateManifests_no_url yamlLoad b w,
    fun b => monitoringCreateManifests_no_url b w, fun b => mlDeploy_no_url yamlLoad b w⟩

theorem created_url_witness :
    (createPipeline
        { orgName := some "acme", repoName := some "infra", pipelineName := some "build",
          pipelineContent := some "pipeline" }
        pipelinesWorld).1.url =
      some "https://github.com/acme/infra/blob/main/cicd/build.groovy" := by
  obtain ⟨v, res, _, h2, h3⟩ := (created_url acceptAll pipelinesWorld).1
    { orgName := some "acme", repoName := some "infra", pipelineName := some "build",
      pipelineContent := some "pipeline" } (by decide)
  rw [h2, h3]
  decide

/-- C20 fails as stated: app create-manifests for `billing` ends in success and its
response carries no URL. -/
theorem appCreateManifests_success_without_url :
    (appCreateManifests acceptAll billingManifests billingWorld).1 =
        { status := 200, success := some true,
          message := some "Application manifest created successfully" } ∧
      (appCreateManifests acceptAll billingManifests billingWorld).1.url = none := by
  decide

/-! ## Claims on defaults and unused fields -/

/-- C24: for every language and dockerImage, the answer of the get-template
operation when registryUrl is missing or empty is its answer for registryUrl
`docker.io`, and its answer when registryCredentialId is missing or empty is its
answer for registryCredentialId `dockerhub-creds`. -/
theorem pipelineTemplate_defaults (language dockerImage r c : Option String) :
    pipelineTemplate { language := language, dockerImage := dockerImage, registryUrl := none,
                       registryCredentialId := c } =
      pipelineTemplate { language := language, dockerImage := dockerImage,
                         registryUrl := some "docker.io", registryCredentialId := c } ∧
    pipelineTemplate { language := language, dockerImage := dockerImage, registryUrl := some "",
                       registryCredentialId := c } =
      pipelineTemplate { language := language, dockerImage := dockerImage,
                         registryUrl := some "docker.io", registryCredentialId := c } ∧
    pipelineTemplate { language := language, dockerImage := dockerImage, registryUrl := r,
                       registryCredentialId := none } =
      pipelineTemplate { language := language, dockerImage := dockerImage, registryUrl := r,
                         registryCredentialId := some "dockerhub-creds" } ∧
    pipelineTemplate { language := language, dockerImage := dockerImage, registryUrl := r,
                       registryCredentialId := some "" } =
      pipelineTemplate { language := language, dockerImage := dockerImage, registryUrl := r,
                         registryCredentialId := some "dockerhub-creds" } := by
  have h1 : truthy none = false := rfl
  have h2 : truthy (some "") = false := by decide
  have h3 : truthy (some "docker.io") = true := by decide
  have h4 : truthy (some "dockerhub-creds") = true := by decide
  refine ⟨?_, ?_, ?_, ?_⟩ <;> simp [pipelineTemplate, h1, h2, h3, h4, str]

/-- C30: the field `namespace` of a create-project request has no effect: two
requests that differ only in it, run in the same world, issue the same remote calls
with the same generated YAML, leave the same tree and get the same response. -/
theorem createProject_ignores_namespace (b : CreateProjectBody) (n : Option String)
    (w : World) : createProject { b with ns := n } w = createProject b w := by
  rfl

/-- C25: with a token stored and org and repo present, when
`monitoring/grafana/deployment.yaml` is absent from the tree and its read goes
through, monitoring deploy-argocd answers 400 `Grafana manifests not found. Please
create them first.` after that one read: it issues no write and inserts nothing
into the `monitoring` collection. -/
theorem monitoringDeployArgocd_manifests_absent (b : MonitoringDeployBody) (w : World)
    (ht : truthy w.token = true) (ho : truthy b.orgName = true) (hr : truthy b.repoName = true)
    (hgo : w.faults w.log.length = none)
    (habs : pathExists w.tree "monitoring/grafana/deployment.yaml" = false) :
    (monitoringDeployArgocd b w).1 =
        { status := 400, success := some false,
          message := some "Grafana manifests not found. Please create them first." } ∧
      (monitoringDeployArgocd b w).2.log =
        w.log ++ [.getContent b.orgName b.repoName "monitoring/grafana/deployment.yaml"] ∧
      writes (monitoringDeployArgocd b w).2.log = writes w.log ∧
      (monitoringDeployArgocd b w).2.tree = w.tree ∧
      (monitoringDeployArgocd b w).2.monitoring = w.monitoring := by
  simp [monitoringDeployArgocd, monitoringDeployArgocdTry, getGitHubToken, ht, ho, hr,
    getContent_through _ _ _ hgo, habs, notFound]

theorem monitoringDeployArgocd_manifests_absent_witness :
    (monitoringDeployArgocd { orgName := some "acme", repoName := some "infra" }
        { token := some "ghp_x" }).1 =
      { status := 400, success := some false,
        message := some "Grafana manifests not found. Please create them first." } :=
  (monitoringDeployArgocd_manifests_absent { orgName := some "acme", repoName := some "infra" }
    { token := some "ghp_x" } (by decide) (by decide) (by decide) rfl (by decide)).1

/-! ## The branch of a write -/

theorem writesOnMain_getContent {w w1 : World} {res : Except RemoteError Content}
    {o r : Option String} {p : String} (h : getContent o r p w = (res, w1))
    (hw : writesOnMain w.log) : writesOnMain w1.log := by
  have : w1 = record (.getContent o r p) w := by
    unfold getContent at h
    split at h
    · exact (congrArg Prod.snd h).symm
    · split at h <;> exact (congrArg Prod.snd h).symm
  subst this
  intro c hc hwr
  simp only [record_log, List.mem_append, List.mem_singleton] at hc
  rcases hc with hc | hc
  · exact hw c hc hwr
  · subst hc; simp [Call.isWrite] at hwr

theorem writesOnMain_write {w w1 : World} {res : Except RemoteError WriteResult}
    {o r : Option String} {p m c : String}
    (h : createOrUpdateFileContents o r p m c "main" w = (res, w1))
    (hw : writesOnMain w.log) : writesOnMain w1.log := by
  have : w1.log = w.log ++ [.createOrUpdateFileContents o r p m c "main"] := by
    unfold createOrUpdateFileContents at h
    split at h <;> (cases h; simp)
  intro x hx hwr
  rw [this] at hx
  simp only [List.mem_append, List.mem_singleton] at hx
  rcases hx with hx | hx
  · exact hw x hx hwr
  · subst hx; rfl

theorem writesOnMain_ensureFolder {w w1 : World} {res : Except RemoteError Unit}
    {o r : Option String} {d m : String} (h : ensureFolder o r d m w = (res, w1))
    (hw : writesOnMain w.log) : writesOnMain w1.log := by
  unfold ensureFolder at h
  rcases hg : getContent o r d w with ⟨r0 | r0, w0⟩
  · have h0 := writesOnMain_getContent hg hw
    rw [hg] at h
    simp only at h
    split at h
    · rcases hc : createOrUpdateFileContents o r (d ++ "/.gitkeep") m "" "main" w0
        with ⟨r2 | r2, w2⟩
      · have h2 := writesOnMain_write hc h0
        rw [hc] at h
        cases h; exact h2
      · have h2 := writesOnMain_write hc h0
        rw [hc] at h
        cases h; exact h2
    · cases h; exact h0
  · have h0 := writesOnMain_getContent hg hw
    rw [hg] at h
    cases h; exact h0

theorem writesOnMain_createProject (b : CreateProjectBody) (w : World)
    (hw : writesOnMain w.log) : writesOnMain (createProject b w).2.log := by
  have ht : writesOnMain (createProjectTry b w).2.log := by
    simp only [createProjectTry]
    repeat' split
    all_goals
      dsimp only
      repeat first
        | exact hw
        | refine writesOnMain_write (by assumption) ?_
        | refine writesOnMain_ensureFolder (by assumption) ?_
        | refine writesOnMain_getContent (by assumption) ?_
  unfold createProject
  split <;> (rename_i h; rw [h] at ht; exact ht)

theorem writesOnMain_createPipeline (b : CreatePipelineBody) (w : World)
    (hw : writesOnMain w.log) : writesOnMain (createPipeline b w).2.log := by
  have ht : writesOnMain (createPipelineTry b w).2.log := by
    simp only [createPipelineTry]
    repeat' split
    all_goals
      dsimp only
      repeat first
        | exact hw
        | refine writesOnMain_write (by assumption) ?_
        | refine writesOnMain_ensureFolder (by assumption) ?_
  unfold createPipeline
  split <;> (rename_i h; rw [h] at ht; exact ht)

theorem writesOnMain_appCreateManifests (yamlLoad : String → Except String Unit)
(b : AppManifestsBody) (w : World)
    (hw : writesOnMain w.log) : writesOnMain (appCreateManifests yamlLoad b w).2.log := by
  have ht : writesOnMain (appCreateManifestsTry yamlLoad b w).2.log := by
    simp only [appCreateManifestsTry]
    repeat' split
    all_goals
      dsimp only
      repeat first
        | exact hw
        | refine writesOnMain_write (by assumption) ?_
        | refine writesOnMain_ensureFolder (by assumption) ?_
  unfold appCreateManifests
  split <;> (rename_i h; rw [h] at ht; exact ht)

theorem writesOnMain_appDeploy (b : AppDeployBody) (w : World)
    (hw : writesOnMain w.log) : writesOnMain (appDeploy b w).2.log := by
  have ht : writesOnMain (appDeployTry b w).2.log := by
    simp only [appDeployTry]
    repeat' split
    all_goals
      dsimp only
      repeat first
        | exact hw
        | refine writesOnMain_write (by assumption) ?_
        | refine writesOnMain_ensureFolder (by assumption) ?_
  unfold appDeploy
  split <;> (rename_i h; rw [h] at ht; exact ht)

theorem writesOnMain_mlDeploy (yamlLoad : String → Except String Unit) (b : MlDeployBody)
(w : World)
    (hw : writesOnMain w.log) : writesOnMain (mlDeploy yamlLoad b w).2.log := by
  have ht : writesOnMain (mlDeployTry yamlLoad b w).2.log := by
    simp only [mlDeployTry]
    repeat' split
    all_goals
      dsimp only
      repeat first
        | exact hw
        | refine writesOnMain_write (by assumption) ?_
        | refine writesOnMain_ensureFolder (by assumption) ?_
  unfold mlDeploy
  split <;> (rename_i h; rw [h] at ht; exact ht)

theorem writesOnMain_mlDeployArgocd (b : MlDeployArgocdBody) (w : World)
    (hw : writesOnMain w.log) : writesOnMain (mlDeployArgocd b w).2.log := by
  have ht : writesOnMain (mlDeployArgocdTry b w).2.log := by
    simp only [mlDeployArgocdTry]
    repeat' split
    all_goals
      dsimp only
      repeat first
        | exact hw
        | refine writesOnMain_write (by assumption) ?_
        | refine writesOnMain_ensureFolder (by assumption) ?_
  unfold mlDeployArgocd
  split <;> (rename_i h; rw [h] at ht; exact ht)

theorem writesOnMain_monitoringCreateManifests (b : MonitoringManifestsBody) (w : World)
    (hw : writesOnMain w.log) : writesOnMain (monitoringCreateManifests b w).2.log := by
  have ht : writesOnMain (monitoringCreateManifestsTry b w).2.log := by
    simp only [monitoringCreateManifestsTry]
    repeat' split
    all_goals
      dsimp only
      repeat first
        | exact hw
        | refine writesOnMain_write (by assumption) ?_
        | refine writesOnMain_ensureFolder (by assumption) ?_
  unfold monitoringCreateManifests
  split <;> (rename_i h; rw [h] at ht; exact ht)

theorem writesOnMain_monitoringDeployArgocd (b : MonitoringDeployBody) (w : World)
    (hw : writesOnMain w.log) : writesOnMain (monitoringDeployArgocd b w).2.log := by
  have ht : writesOnMain (monitoringDeployArgocdTry b w).2.log := by
    simp only [monitoringDeployArgocdTry]
    repeat' split
    all_goals
      dsimp only
      repeat first
        | exact hw
        | refine writesOnMain_write (by assumption) ?_
        | refine writesOnMain_ensureFolder (by assumption) ?_
        | refine writesOnMain_getContent (by assumption) ?_
  unfold monitoringDeployArgocd
  split <;> (rename_i h; rw [h] at ht; exact ht)

/-! ## Organization connections -/

theorem connect_connections (api : GitHubApi) (b : ConnectBody) (s : Store) :
    (connect api b s).2.connections = s.connections ∨
    ∃ d repos, api.orgsGet (str b.orgName) = .ok d ∧ api.listForOrg (str b.orgName) = .ok repos ∧
      findOne s.connections (str b.orgName) = none ∧
      (connect api b s).2.connections = s.connections ++
        [{ orgName := d.login, orgId := d.id, avatarUrl := d.avatar_url,
           connectedAt := s.now, reposCount := repos.length,
           repos := some (repos.map toRepo) }] := by
  unfold connect
  split
  · exact .inl rfl
  · split
    · exact .inl rfl
    · dsimp only
      split
      · exact .inl rfl
      · rename_i d hd
        split
        · exact .inl rfl
        · rename_i hf
          split
          · exact .inl rfl
          · rename_i repos hr
            exact .inr ⟨d, repos, hd, hr, hf, rfl⟩

/-- C26: with a token configured, when the stored record of `orgName` holds a repos
list the listing answers exactly that list with source `cache` and leaves the store and
the trace of remote calls unchanged; when no record of `orgName` holds a list and the
remote listing answers, the answer is the remote list with source `api` and `count` its
length; and an answer with source `api` arises only when no such record exists. -/
theorem listRepos_cache_or_api (api : GitHubApi) (orgName : String) (s : Store)
    (ht : truthy s.token = true) :
    (∀ c l, findOne s.connections orgName = some c → c.repos = some l →
      listRepos api orgName s =
        ({ org := some orgName, count := some c.reposCount, repositories := some l,
           source := some "cache" }, s)) ∧
    (∀ repos, (∀ c, findOne s.connections orgName = some c → c.repos = none) →
      api.listForOrg orgName = .ok repos →
      listRepos api orgName s =
        ({ org := some orgName, count := some repos.length,
           repositories := some (repos.map toRepo), source := some "api" },
         { s with calls := s.calls ++ [.listForOrg orgName] }) ∧
      (repos.map toRepo).length = repos.length) ∧
    ((listRepos api orgName s).1.source = some "api" →
      (∀ c, findOne s.connections orgName = some c → c.repos = none) ∧
      ∃ l, (listRepos api orgName s).1.repositories = some l ∧
        (listRepos api orgName s).1.count = some l.length) := by
  refine ⟨?_, ?_, ?_⟩
  · intro c l hf hl
    simp [listRepos, ht, hf, hl]
  · intro repos hnone hr
    have hb : ((findOne s.connections orgName).bind fun c => c.repos) = none := by
      cases hf : findOne s.connections orgName with
      | none => rfl
      | some c => simp [hnone c hf]
    simp [listRepos, ht, hb, hr]
  · intro hsrc
    unfold listRepos at hsrc ⊢
    simp only [ht, Bool.not_true, Bool.false_eq_true, if_false] at hsrc ⊢
    split at hsrc
    · simp at hsrc
    · rename_i hb
      constructor
      · intro c hf
        cases hc : c.repos with
        | none => rfl
        | some l => simp [hf, hc] at hb
      · split at hsrc
        · simp at hsrc
        · rename_i repos hr
          simp [hr]

theorem listRepos_cache_or_api_witness :
    truthy emptyStore.token = true ∧
    listRepos acmeApi "acme" emptyStore =
      ({ org := some "acme", count := some 1, repositories := some [toRepo legacyRemoteRepo],
         source := some "api" },
       { emptyStore with calls := [.listForOrg "acme"] }) :=
  ⟨by decide,
   ((listRepos_cache_or_api acmeApi "acme" emptyStore (by decide)).2.1 [legacyRemoteRepo]
      (fun c h => by simp [findOne, emptyStore] at h) (by simp [acmeApi])).1⟩

theorem connect_same_login_twice (api : GitHubApi) (b : ConnectBody) (s : Store) (d : OrgData)
    (hd : api.orgsGet (str b.orgName) = .ok d) (hl : d.login = str b.orgName)
    (hi : (connect api b s).2.connections ≠ s.connections) :
    (connect api b (connect api b s).2).1.existing = some true ∧
    (connect api b (connect api b s).2).2.connections = (connect api b s).2.connections := by
  rcases connect_connections api b s with h | ⟨d1, repos, hd1, hr, hf, h⟩
  · exact absurd h hi
  · have hdd : d1 = d := by rw [hd] at hd1; cases hd1; rfl
    subst hdd
    have hn : truthy b.orgName = true := by
      by_contra hn
      apply hi
      simp [connect, hn]
    have ht : truthy s.token = true := by
      by_contra ht
      apply hi
      have ht2 : truthy s.token = false := by simpa using ht
      simp [connect, hn, ht2]
    have hs : (connect api b s).2 =
        { s with calls := s.calls ++ [.orgsGet (str b.orgName), .listForOrg (str b.orgName)],
                 connections := s.connections ++
                   [{ orgName := d1.login, orgId := d1.id, avatarUrl := d1.avatar_url,
                      connectedAt := s.now, reposCount := repos.length,
                      repos := some (repos.map toRepo) }] } := by
      simp [connect, hn, ht, hd, hf, hr]
    have hfind : ∃ c, findOne (s.connections ++
        [{ orgName := d1.login, orgId := d1.id, avatarUrl := d1.avatar_url,
           connectedAt := s.now, reposCount := repos.length,
           repos := some (repos.map toRepo) }]) (str b.orgName) = some c := by
      simp only [findOne] at hf ⊢
      rw [List.find?_append, hf]
      simp [hl]
    obtain ⟨c, hc⟩ := hfind
    rw [hs]
    simp [connect, hn, ht, hd, hc]

/-- C28: connecting is not idempotent when the remote spells the organization's login
differently from the request. The remote finds the organization `Acme` under the
requested name `acme`; the first request stores a record under the login `Acme`, the
second request looks for a record named `acme`, finds none, is answered `Connected
successfully` without `existing`, and the store then holds two records named `Acme`. -/
theorem connect_twice_inserts_twice :
    (connect acmeApi { orgName := some "acme" } emptyStore).2.connections.map
        (fun c => c.orgName) = ["Acme"] ∧
    (connect acmeApi { orgName := some "acme" }
        (connect acmeApi { orgName := some "acme" } emptyStore).2).1.existing = none ∧
    (connect acmeApi { orgName := some "acme" }
        (connect acmeApi { orgName := some "acme" } emptyStore).2).1.message
      = "Connected successfully" ∧
    (connect acmeApi { orgName := some "acme" }
        (connect acmeApi { orgName := some "acme" } emptyStore).2).2.connections.map
        (fun c => c.orgName) = ["Acme", "Acme"] := by
  decide

/-- C29: a `/connect` request leaves the store unchanged or appends one record whose
`reposCount` is the length of its repos list; so a store in which the counts agree
stays so, and every cached answer of `/repos/:orgName` on the resulting store has
`count` equal to the number of repositories it returns. -/
theorem connect_reposCount (api : GitHubApi) (b : ConnectBody) (s : Store)
    (h : countsAgree s.connections) :
    ((connect api b s).2.connections = s.connections ∨
      ∃ c l, (connect api b s).2.connections = s.connections ++ [c] ∧
        c.repos = some l ∧ c.reposCount = l.length) ∧
    countsAgree (connect api b s).2.connections ∧
    (∀ orgName, (listRepos api orgName (connect api b s).2).1.source = some "cache" →
      ∃ l, (listRepos api orgName (connect api b s).2).1.repositories = some l ∧
        (listRepos api orgName (connect api b s).2).1.count = some l.length) := by
  have h1 : (connect api b s).2.connections = s.connections ∨
      ∃ c l, (connect api b s).2.connections = s.connections ++ [c] ∧
        c.repos = some l ∧ c.reposCount = l.length := by
    rcases connect_connections api b s with h | ⟨d, repos, _, _, _, h⟩
    · exact .inl h
    · exact .inr ⟨_, repos.map toRepo, h, rfl, by simp⟩
  have h2 : countsAgree (connect api b s).2.connections := by
    rcases h1 with h1 | ⟨c, l, h1, hc, hl⟩
    · rw [h1]; exact h
    · rw [h1]
      intro x hx l2 hx2
      simp only [List.mem_append, List.mem_singleton] at hx
      rcases hx with hx | hx
      · exact h x hx l2 hx2
      · subst hx
        rw [hc] at hx2
        cases hx2
        exact hl
  refine ⟨h1, h2, ?_⟩
  intro orgName hsrc
  generalize (connect api b s).2 = t at h2 hsrc ⊢
  unfold listRepos at hsrc ⊢
  split at hsrc
  · simp at hsrc
  · rename_i ht
    simp only [ht, if_false]
    dsimp only at hsrc ⊢
    split at hsrc
    · rename_i l hb
      cases hf : findOne t.connections orgName with
      | none => simp [hf] at hb
      | some c =>
        simp only [hf, Option.bind_some] at hb
        have hmem : c ∈ t.connections := List.mem_of_find?_eq_some hf
        exact ⟨l, rfl, by simp [h2 c hmem l hb]⟩
    · split at hsrc <;> simp at hsrc

theorem connect_reposCount_witness :
    countsAgree emptyStore.connections ∧
    ∃ l, (listRepos acmeApi "Acme"
        (connect acmeApi { orgName := some "acme" } emptyStore).2).1.repositories = some l ∧
      (listRepos acmeApi "Acme"
        (connect acmeApi { orgName := some "acme" } emptyStore).2).1.count = some l.length :=
  ⟨fun c hc => by simp [emptyStore] at hc,
   (connect_reposCount acmeApi { orgName := some "acme" } emptyStore
      (fun c hc => by simp [emptyStore] at hc)).2.2 "Acme" (by decide)⟩

/-! ## Claims on the branch written to -/

/-- C21 (counterexample): the repository `infra`, whose default branch the connection
store records as `master`, receives both writes of a create-pipeline run on the branch
`main`. -/
theorem write_off_default_branch :
    (toRepo legacyRemoteRepo).defaultBranch = "master" ∧
    (writes (createPipeline
        { orgName := some "Acme", repoName := some (toRepo legacyRemoteRepo).name,
          pipelineName := some "build", pipelineContent := some "pipeline \x7b\x7d" }
        { token := some "ghp_x" }).2.log).map Call.branch = [some "main", some "main"] := by
  decide

/-- C21 (amended): every write a workflow issues, marker or leaf, names the branch
`main`, whatever the request, the remote tree and the failures of the remote: a trace
whose writes all name `main` keeps that property through each of the eight
handlers. -/
theorem writes_name_main (yamlLoad : String → Except String Unit) (w : World)
    (hw : writesOnMain w.log) :
    (∀ b, writesOnMain (createProject b w).2.log) ∧
    (∀ b, writesOnMain (createPipeline b w).2.log) ∧
    (∀ b, writesOnMain (appCreateManifests yamlLoad b w).2.log) ∧
    (∀ b, writesOnMain (appDeploy b w).2.log) ∧
    (∀ b, writesOnMain (mlDeploy yamlLoad b w).2.log) ∧
    (∀ b, writesOnMain (mlDeployArgocd b w).2.log) ∧
    (∀ b, writesOnMain (monitoringCreateManifests b w).2.log) ∧
    (∀ b, writesOnMain (monitoringDeployArgocd b w).2.log) :=
  ⟨fun b => writesOnMain_createProject b w hw,
   fun b => writesOnMain_createPipeline b w hw,
   fun b => writesOnMain_appCreateManifests yamlLoad b w hw,
   fun b => writesOnMain_appDeploy b w hw,
   fun b => writesOnMain_mlDeploy yamlLoad b w hw,
   fun b => writesOnMain_mlDeployArgocd b w hw,
   fun b => writesOnMain_monitoringCreateManifests b w hw,
   fun b => writesOnMain_monitoringDeployArgocd b w hw⟩

theorem writes_name_main_witness :
    writesOnMain billingWorld.log ∧
    writesOnMain (appCreateManifests acceptAll billingManifests billingWorld).2.log :=
  ⟨fun c hc => by simp [billingWorld] at hc,
   (writes_name_main acceptAll billingWorld
      (fun c hc => by simp [billingWorld] at hc)).2.2.1 billingManifests⟩

/-! ## Listings -/

theorem mem_eraseDups_loop {α : Type} [BEq α] [LawfulBEq α] (x : α) :
    ∀ as bs : List α, x ∈ List.eraseDups.loop as bs ↔ x ∈ as ∨ x ∈ bs := by
  intro as
  induction as with
  | nil => intro bs; simp [List.eraseDups.loop]
  | cons a as ih =>
    intro bs
    unfold List.eraseDups.loop
    cases hb : bs.elem a with
    | true =>
      have ha : a ∈ bs := by simpa using hb
      simp only [ih, List.mem_cons]
      constructor
      · rintro (h | h)
        · exact .inl (.inr h)
        · exact .inr h
      · rintro ((h | h) | h)
        · subst h; exact .inr ha
        · exact .inl h
        · exact .inr h
    | false =>
      simp only [ih, List.mem_cons]
      tauto

theorem mem_eraseDups {α : Type} [BEq α] [LawfulBEq α] (x : α) (as : List α) :
    x ∈ as.eraseDups ↔ x ∈ as := by
  simp [List.eraseDups, mem_eraseDups_loop]

theorem fileAt_mem {t : Tree} {p c : String} (h : fileAt t p = some c) : (p, c) ∈ t := by
  unfold fileAt at h
  cases hf : t.find? (fun f => f.1 == p) with
  | none => simp [hf] at h
  | some f =>
    have hm := List.mem_of_find?_eq_some hf
    have hp := List.find?_some hf
    simp only [hf, Option.map_some', Option.some.injEq] at h
    have : f = (p, c) := by
      cases f with
      | mk a b =>
        simp only [beq_iff_eq] at hp
        simp only at h
        rw [hp, h]
    rw [← this]; exact hm

theorem fileAt_putFile_ne (t : Tree) (p c q : String) (h : p ≠ q) :
    fileAt (putFile t p c) q = fileAt t q := by
  induction t with
  | nil => simp [putFile, fileAt, h]
  | cons f t ih =>
    simp only [fileAt] at ih
    by_cases hf : f.1 = p
    · have hq : ¬ f.1 = q := fun e => h (hf ▸ e)
      simp [putFile, fileAt, hf, h, hq, List.find?_cons]
    · have hb : (f.1 == p) = false := by simpa using hf
      by_cases hq : f.1 = q
      · subst hq
        simp [putFile, fileAt, hb, List.find?_cons]
      · simp [putFile, fileAt, hb, hq, List.find?_cons, ih]

theorem marker_ne (d : String) : d ++ "/.gitkeep" ≠ d := by
  intro h
  have := congrArg String.length h
  simp [String.length_append] at this
  have h9 : "/.gitkeep".length = 9 := by decide
  omega

theorem fileAt_ensured (o r : Option String) (d m : String) (w : World) :
    fileAt (ensured o r d m w).tree d = fileAt w.tree d := by
  rw [ensured_tree]
  split
  · rfl
  · exact fileAt_putFile_ne _ _ _ _ (marker_ne d)

/-- A file directly inside a directory appears in the listing of the directory under
its own name. -/
theorem dirEntries_mem {t : Tree} {dir n c : String} (hf : fileAt t (dir ++ "/" ++ n) = some c)
    (hn : '/' ∉ n.data) :
    ∃ e ∈ dirEntries t dir, e.name = n ∧ e.path = dir ++ "/" ++ n := by
  have hm := fileAt_mem hf
  have hdata : (dir ++ "/" ++ n).data = (dir.data ++ ['/']) ++ n.data := by
    simp [String.data_append]
  have hname : n.data ∈ ((t.filter fun f => (dir.data ++ ['/']).isPrefixOf f.1.data).map
      fun f => f.1.data.drop (dir.data ++ ['/']).length).map
        (fun r => r.takeWhile (· != '/')) := by
    simp only [List.mem_map, List.mem_filter]
    refine ⟨n.data, ⟨(dir ++ "/" ++ n, c), ⟨hm, ?_⟩, ?_⟩, ?_⟩
    · rw [List.isPrefixOf_iff_prefix, hdata]
      exact List.prefix_append _ _
    · rw [hdata, List.drop_left]
    · rw [List.takeWhile_eq_self_iff]
      intro x hx
      have : x ≠ '/' := fun e => hn (e ▸ hx)
      simpa using this
  unfold dirEntries
  simp only [List.mem_map]
  refine ⟨_, ⟨n.data, (mem_eraseDups _ _).2 hname, rfl⟩, ?_, ?_⟩ <;> rfl

theorem pipelinePath_split (n : String) : pipelinePath n = "cicd" ++ "/" ++ (n ++ ".groovy") := by
  unfold pipelinePath
  apply String.ext
  simp [String.data_append]

theorem projectPath_split (n : String) : projectPath n = "projects" ++ "/" ++ (n ++ ".yaml") := by
  unfold projectPath
  apply String.ext
  simp [String.data_append]

theorem existingPipelines_names (o r : Option String) (v : World) (items : List ListingItem)
    (h : (existingPipelines o r v).1.items = some items) :
    ∀ i ∈ items, endsWith i.name ".groovy" = true := by
  unfold existingPipelines at h
  split at h
  · simp at h
  · split at h
    · rename_i data w1 _
      simp only [Option.some.injEq] at h
      subst h
      intro i hi
      cases data with
      | file p c => simp at hi
      | dir entries =>
        simp only [List.mem_map, List.mem_filter] at hi
        obtain ⟨e, ⟨_, he⟩, rfl⟩ := hi
        exact he
    · split at h
      · simp only [Option.some.injEq] at h
        subst h
        intro i hi
        simp at hi
      · simp at h

theorem existingProjects_names (o r : Option String) (v : World) (items : List ListingItem)
    (h : (existingProjects o r v).1.items = some items) :
    ∀ i ∈ items, (endsWith i.name ".yaml" || endsWith i.name ".yml") = true := by
  unfold existingProjects at h
  split at h
  · simp at h
  · split at h
    · rename_i data w1 _
      simp only [Option.some.injEq] at h
      subst h
      intro i hi
      cases data with
      | file p c => simp at hi
      | dir entries =>
        simp only [List.mem_map, List.mem_filter] at hi
        obtain ⟨e, ⟨_, he⟩, rfl⟩ := hi
        exact he
    · split at h
      · simp only [Option.some.injEq] at h
        subst h
        intro i hi
        simp at hi
      · simp at h

/-- The listing of a directory that is not itself a file, read without a failure. -/
theorem existingPipelines_lists {v : World} (o r : Option String) {n c : String}
    (ht : truthy v.token = true) (hgo : v.faults v.log.length = none)
    (hdir : fileAt v.tree "cicd" = none) (hf : fileAt v.tree (pipelinePath n) = some c)
    (hn : '/' ∉ n.data) :
    ∃ items, (existingPipelines o r v).1.items = some items ∧
      ({ name := n ++ ".groovy", path := "cicd/" ++ n ++ ".groovy" } : ListingItem) ∈ items := by
  rw [pipelinePath_split] at hf
  have hn2 : '/' ∉ (n ++ ".groovy").data := by
    simp [String.data_append, hn]
  obtain ⟨e, he, hname, hpath⟩ := dirEntries_mem hf hn2
  have hex : pathExists v.tree "cicd" = true := by
    apply pathExists_parent _ "cicd" (n ++ ".groovy")
    simp only [pathExists, List.any_eq_true, Bool.or_eq_true, beq_iff_eq]
    exact ⟨_, fileAt_mem hf, .inl rfl⟩
  refine ⟨_, by simp [existingPipelines, getGitHubToken, ht, getContent_through _ _ _ hgo, hex,
    contentAt, hdir]; rfl, ?_⟩
  simp only [List.mem_map, List.mem_filter]
  refine ⟨e, ⟨he, ?_⟩, ?_⟩
  · rw [hname]
    simp [endsWith, String.data_append]
  · rw [hname, hpath, ← pipelinePath_split]; rfl

theorem existingProjects_lists {v : World} (o r : Option String) {n c : String}
    (ht : truthy v.token = true) (hgo : v.faults v.log.length = none)
    (hdir : fileAt v.tree "projects" = none) (hf : fileAt v.tree (projectPath n) = some c)
    (hn : '/' ∉ n.data) :
    ∃ items, (existingProjects o r v).1.items = some items ∧
      ({ name := n ++ ".yaml", path := "projects/" ++ n ++ ".yaml" } : ListingItem) ∈ items := by
  rw [projectPath_split] at hf
  have hn2 : '/' ∉ (n ++ ".yaml").data := by
    simp [String.data_append, hn]
  obtain ⟨e, he, hname, hpath⟩ := dirEntries_mem hf hn2
  have hex : pathExists v.tree "projects" = true := by
    apply pathExists_parent _ "projects" (n ++ ".yaml")
    simp only [pathExists, List.any_eq_true, Bool.or_eq_true, beq_iff_eq]
    exact ⟨_, fileAt_mem hf, .inl rfl⟩
  refine ⟨_, by simp [existingProjects, getGitHubToken, ht, getContent_through _ _ _ hgo, hex,
    contentAt, hdir]; rfl, ?_⟩
  simp only [List.mem_map, List.mem_filter]
  refine ⟨e, ⟨he, ?_⟩, ?_⟩
  · rw [hname]
    simp [endsWith, String.data_append]
  · rw [hname, hpath, ← projectPath_split]; rfl

theorem pipelinePath_ne (n : String) : pipelinePath n ≠ "cicd" := by
  intro h
  have := congrArg String.length h
  simp only [pipelinePath, String.length_append] at this
  have h1 : "cicd/".length = 5 := by decide
  have h2 : "cicd".length = 4 := by decide
  omega

theorem projectPath_ne (n : String) : projectPath n ≠ "projects" := by
  intro h
  have := congrArg String.length h
  simp only [projectPath, String.length_append] at this
  have h1 : "projects/".length = 9 := by decide
  have h2 : "projects".length = 8 := by decide
  omega

/-! ## Claims on listings -/

/-- C27: with a token configured and no remote call failing, on a tree in which the
domain folder is not itself a file: after a create-pipeline request with a non-empty
name without `/` and a content, which succeeds, the existing-pipelines listing of the
resulting repository has an item named `<pipelineName>.groovy` with path
`cicd/<pipelineName>.groovy`; after a complete create-project request with a name
without `/` whose leaf was absent, which is answered 201, the existing-projects listing
has an item named `<projectName>.yaml` with path `projects/<projectName>.yaml`; and no
listing of either kind, on any repository, has an item named `.gitkeep`. -/
theorem create_then_list (w : World) (ht : truthy w.token = true) (hq : quiet w) :
    (∀ (b : CreatePipelineBody) (n : String), b.pipelineName = some n → n ≠ "" →
      '/' ∉ n.data → truthy b.pipelineContent = true → fileAt w.tree "cicd" = none →
      (createPipeline b w).1.success = some true ∧
      ∃ items, (existingPipelines b.orgName b.repoName (createPipeline b w).2).1.items
          = some items ∧
        ({ name := n ++ ".groovy", path := "cicd/" ++ n ++ ".groovy" } : ListingItem) ∈ items) ∧
    (∀ (b : CreateProjectBody) (n : String), b.projectName = some n → '/' ∉ n.data →
      b.complete = true → pathExists w.tree (projectPath n) = false →
      fileAt w.tree "projects" = none →
      (createProject b w).1.status = 201 ∧
      ∃ items, (existingProjects b.orgName b.repoName (createProject b w).2).1.items
          = some items ∧
        ({ name := n ++ ".yaml", path := "projects/" ++ n ++ ".yaml" } : ListingItem) ∈ items) ∧
    (∀ (o r : Option String) (v : World) (items : List ListingItem),
      (existingPipelines o r v).1.items = some items → ∀ i ∈ items, i.name ≠ ".gitkeep") ∧
    (∀ (o r : Option String) (v : World) (items : List ListingItem),
      (existingProjects o r v).1.items = some items → ∀ i ∈ items, i.name ≠ ".gitkeep") := by
  refine ⟨?_, ?_, ?_, ?_⟩
  · intro b n hb hne hn hc hdir
    have hname : truthy b.pipelineName = true := by simp [hb, truthy, hne]
    have hstr : str b.pipelineName = n := by simp [hb, str]
    rw [createPipeline_quiet ht hname hc hq, hstr]
    refine ⟨rfl, ?_⟩
    have hq1 := quiet_ensured b.orgName b.repoName "cicd" "Create CICD directory" hq
    have hq2 := quiet_committed b.orgName b.repoName (pipelinePath n)
      ("Add " ++ n ++ " pipeline via InfraPilotX") (str b.pipelineContent) "main" hq1
    apply existingPipelines_lists b.orgName b.repoName _ (quiet_head hq2) _ _ hn
    · exact str b.pipelineContent
    · simpa using ht
    · simp only [committed_tree]
      rw [fileAt_putFile_ne _ _ _ _ (pipelinePath_ne n), fileAt_ensured]
      exact hdir
    · simp only [committed_tree]
      exact fileAt_putFile_self _ _ _
  · intro b n hb hn hc hleaf hdir
    have hstr : str b.projectName = n := by simp [hb, str]
    rw [← hstr] at hleaf
    rw [createProject_absent hc ht hq hleaf, hstr]
    refine ⟨rfl, ?_⟩
    have hq0 := quiet_record (.getContent b.orgName b.repoName (projectPath n)) hq
    have hq1 := quiet_ensured b.orgName b.repoName "projects" "Create projects directory" hq0
    have hq2 := quiet_committed b.orgName b.repoName (projectPath n)
      ("Add project " ++ n) (projectYaml n (str b.clusterUrl) (str b.repoUrl)) "main" hq1
    apply existingProjects_lists b.orgName b.repoName _ (quiet_head hq2) _ _ hn
    · exact projectYaml n (str b.clusterUrl) (str b.repoUrl)
    · simpa using ht
    · simp only [committed_tree]
      rw [fileAt_putFile_ne _ _ _ _ (projectPath_ne n), fileAt_ensured]
      simpa using hdir
    · simp only [committed_tree]
      exact fileAt_putFile_self _ _ _
  · intro o r v items h i hi hg
    have := existingPipelines_names o r v items h i hi
    rw [hg] at this
    exact absurd this (by decide)
  · intro o r v items h i hi hg
    have := existingProjects_names o r v items h i hi
    rw [hg] at this
    exact absurd this (by decide)

theorem create_then_list_witness :
    truthy pipelinesWorld.token = true ∧ quiet pipelinesWorld ∧
    ∃ items, (existingPipelines (some "acme") (some "infra")
        (createPipeline { orgName := some "acme", repoName := some "infra",
                          pipelineName := some "release", pipelineContent := some "node" }
          pipelinesWorld).2).1.items = some items ∧
      ({ name := "release" ++ ".groovy", path := "cicd/" ++ "release" ++ ".groovy" } :
        ListingItem) ∈ items :=
  ⟨by decide, fun _ _ => rfl,
   ((create_then_list pipelinesWorld (by decide) (fun _ _ => rfl)).1
      { orgName := some "acme", repoName := some "infra",
        pipelineName := some "release", pipelineContent := some "node" }
      "release" rfl (by decide) (by decide) (by decide) (by decide)).2⟩

/-! ## Traces -/

theorem replay_append (faults : Nat → Option RemoteError) (l1 l2 : List Call) :
    ∀ (n : Nat) (t : Tree),
      replay faults n (l1 ++ l2) t = replay faults (n + l1.length) l2 (replay faults n l1 t) := by
  induction l1 with
  | nil => intro n t; simp [replay]
  | cons c cs ih =>
    intro n t
    have hn : n + 1 + cs.length = n + (cs.length + 1) := by omega
    show replay faults (n + 1) (cs ++ l2) _ = replay faults (n + (cs.length + 1)) l2
      (replay faults (n + 1) cs _)
    rw [ih, hn]

theorem Traced.nil (w : World) : Traced w true w [] :=
  ⟨by simp, rfl, rfl, fun k ⟨c, e, h, _⟩ => by simp at h⟩

theorem Traced.trans {w w1 w2 : World} {ok : Bool} {l1 l2 : List Call}
    (h1 : Traced w true w1 l1) (h2 : Traced w1 ok w2 l2) : Traced w ok w2 (l1 ++ l2) := by
  have hlen : w1.log.length = w.log.length + l1.length := by rw [h1.log]; simp
  refine ⟨?_, ?_, ?_, ?_⟩
  · rw [h2.log, h1.log, List.append_assoc]
  · rw [h2.faults, h1.faults]
  · rw [h2.tree, h1.tree, h1.faults, hlen, replay_append]
  · rintro k ⟨c, e, hc, he, hk⟩
    by_cases hlt : k < l1.length
    · rw [List.getElem?_append_left hlt] at hc
      have := (h1.abort k ⟨c, e, hc, he, hk⟩).2
      simp at this
    · have hge : l1.length ≤ k := Nat.le_of_not_lt hlt
      rw [List.getElem?_append_right hge] at hc
      have hf : w1.faults (w1.log.length + (k - l1.length)) = some e := by
        rw [h1.faults, hlen]
        have : w.log.length + l1.length + (k - l1.length) = w.log.length + k := by omega
        rw [this]; exact he
      have := h2.abort (k - l1.length) ⟨c, e, hc, hf, hk⟩
      refine ⟨?_, this.2⟩
      rw [List.length_append]
      omega

theorem Traced.single {w w1 : World} {ok : Bool} {c : Call}
    (hlog : w1.log = w.log ++ [c]) (hfaults : w1.faults = w.faults)
    (htree : w1.tree = if c.isWrite && (w.faults w.log.length).isNone
      then putFile w.tree c.path c.content else w.tree)
    (hab : ∀ e, w.faults w.log.length = some e → (c.isWrite = true ∨ e.status ≠ 404) →
      ok = false) :
    Traced w ok w1 [c] := by
  refine ⟨hlog, hfaults, by simp [replay, htree], ?_⟩
  rintro k ⟨c1, e, hc, he, hk⟩
  have hk0 : k = 0 := by
    by_contra hne
    have : 1 ≤ k := Nat.one_le_iff_ne_zero.mpr hne
    rw [List.getElem?_eq_none (by simpa using this)] at hc
    simp at hc
  subst hk0
  simp at hc
  subst hc
  exact ⟨rfl, hab e (by simpa using he) hk⟩

theorem getContent_snd {w w1 : World} {res : Except RemoteError Content} {o r : Option String}
    {p : String} (h : getContent o r p w = (res, w1)) : w1 = record (.getContent o r p) w := by
  unfold getContent at h
  split at h
  · cases h; rfl
  · split at h <;> (cases h; rfl)

theorem getContent_ok {w w1 : World} {c : Content} {o r : Option String} {p : String}
    (h : getContent o r p w = (.ok c, w1)) :
    w.faults w.log.length = none ∧ pathExists w.tree p = true := by
  unfold getContent at h
  split at h
  · cases h
  · rename_i hf
    split at h
    · rename_i hp
      exact ⟨hf, hp⟩
    · cases h

theorem getContent_error {w w1 : World} {e : RemoteError} {o r : Option String} {p : String}
    (h : getContent o r p w = (.error e, w1)) :
    w.faults w.log.length = some e ∨ (w.faults w.log.length = none ∧ e = notFound) := by
  unfold getContent at h
  split at h
  · rename_i e1 hf
    cases h
    exact .inl hf
  · rename_i hf
    split at h
    · cases h
    · cases h
      exact .inr ⟨hf, rfl⟩

theorem traced_read {w w1 : World} {res : Except RemoteError Content} {o r : Option String}
    {p : String} {ok : Bool} (h : getContent o r p w = (res, w1))
    (hab : ∀ e, res = .error e → e.status ≠ 404 → ok = false) :
    Traced w ok w1 [.getContent o r p] := by
  have hs := getContent_snd h
  subst hs
  refine Traced.single (by simp) (by simp) (by simp [Call.isWrite]) ?_
  intro e he hk
  cases res with
  | ok c => rw [(getContent_ok h).1] at he; cases he
  | error e1 =>
    rcases getContent_error h with h1 | ⟨h1, _⟩
    · rw [h1] at he
      cases he
      rcases hk with hk | hk
      · simp [Call.isWrite] at hk
      · exact hab e rfl hk
    · rw [h1] at he
      cases he

theorem traced_write {w w1 : World} {res : Except RemoteError WriteResult}
    {o r : Option String} {p m c : String}
    (h : createOrUpdateFileContents o r p m c "main" w = (res, w1)) :
    Traced w (isOk res) w1 [.createOrUpdateFileContents o r p m c "main"] := by
  unfold createOrUpdateFileContents at h
  split at h
  · rename_i e hf
    cases h
    exact Traced.single (by simp) (by simp) (by simp [Call.isWrite, hf]) (fun _ _ _ => rfl)
  · rename_i hf
    cases h
    refine Traced.single (by simp) (by simp) (by simp [Call.isWrite, Call.path, Call.content, hf])
      ?_
    intro e he
    rw [hf] at he
    cases he

theorem write_ok_tree {w w1 : World} {x : WriteResult} {o r : Option String} {p m c : String}
    (h : createOrUpdateFileContents o r p m c "main" w = (.ok x, w1)) :
    w.faults w.log.length = none ∧ w1.tree = putFile w.tree p c := by
  unfold createOrUpdateFileContents at h
  split at h
  · cases h
  · rename_i hf
    cases h
    exact ⟨hf, by simp⟩

/-- The folder-ensure step under any schedule of failures. -/
theorem traced_ensure {w w1 : World} {res : Except RemoteError Unit} {o r : Option String}
    {d m : String} (h : ensureFolder o r d m w = (res, w1)) :
    ∃ l, List.Sublist l [.getContent o r d, marker o r d m] ∧ Traced w (isOk res) w1 l ∧
      (isOk res = true → pathExists w1.tree d = true ∧
        (pathExists w.tree d = true ∨
          (l = [.getContent o r d, marker o r d m] ∧ w.faults (w.log.length + 1) = none))) := by
  unfold ensureFolder at h
  rcases hg : getContent o r d w with ⟨e0 | c0, w0⟩
  · rw [hg] at h
    simp only at h
    split at h
    · rename_i h404
      have h404 : e0.status = 404 := by simpa using h404
      have t0 : Traced w true w0 [.getContent o r d] :=
        traced_read hg (fun e he hne => by cases he; exact absurd h404 hne)
      have hlen : w0.log.length = w.log.length + 1 := by rw [t0.log]; simp
      rcases hc : createOrUpdateFileContents o r (d ++ "/.gitkeep") m "" "main" w0
        with ⟨e2 | x2, w2⟩
      · rw [hc] at h
        cases h
        refine ⟨_, List.Sublist.refl _, t0.trans (traced_write hc), ?_⟩
        intro hok
        simp [isOk] at hok
      · rw [hc] at h
        cases h
        refine ⟨_, List.Sublist.refl _, t0.trans (traced_write hc), ?_⟩
        intro _
        obtain ⟨hf, ht⟩ := write_ok_tree hc
        refine ⟨?_, .inr ⟨rfl, ?_⟩⟩
        · rw [ht, marker_path]
          exact pathExists_putFile_child _ _ _ _
        · rw [← hlen, ← t0.faults]
          exact hf
    · rename_i h404
      cases h
      refine ⟨[.getContent o r d], ?_, traced_read hg (fun _ _ _ => rfl), ?_⟩
      · exact List.Sublist.cons₂ _ (List.nil_sublist _)
      · intro hok
        simp [isOk] at hok
  · rw [hg] at h
    cases h
    refine ⟨[.getContent o r d], ?_, traced_read hg (fun e he => by cases he), ?_⟩
    · exact List.Sublist.cons₂ _ (List.nil_sublist _)
    · intro _
      have hs := getContent_snd hg
      subst hs
      exact ⟨by simpa using (getContent_ok hg).2, .inl (getContent_ok hg).2⟩

theorem traced_runStep (o r : Option String) (s : Step) (w : World) :
    ∃ l, List.Sublist l (s.calls o r) ∧
      Traced w (isOk (runStep o r s w).1) (runStep o r s w).2 l := by
  cases s with
  | ensure d m =>
    obtain ⟨l, hl, ht, _⟩ := traced_ensure (rfl : ensureFolder o r d m w = (_, _))
    exact ⟨l, hl, ht⟩
  | write p m c =>
    refine ⟨_, List.Sublist.refl _, ?_⟩
    rcases hc : createOrUpdateFileContents o r p m c "main" w with ⟨e | x, w1⟩
    · have := traced_write hc
      simpa [runStep, hc, isOk] using this
    · have := traced_write hc
      simpa [runStep, hc, isOk] using this

theorem traced_runSteps (o r : Option String) (steps : List Step) :
    ∀ w : World, ∃ l, List.Sublist l (maxTrace o r steps) ∧
      Traced w (isOk (runSteps o r steps w).1) (runSteps o r steps w).2 l := by
  induction steps with
  | nil => intro w; exact ⟨[], List.Sublist.refl _, Traced.nil w⟩
  | cons s ss ih =>
    intro w
    obtain ⟨l1, hl1, t1⟩ := traced_runStep o r s w
    rcases hs : runStep o r s w with ⟨e | u, w1⟩
    · rw [hs] at t1
      refine ⟨l1, ?_, ?_⟩
      · simpa [maxTrace] using hl1.trans (List.sublist_append_left _ _)
      · simpa [runSteps, hs] using t1
    · rw [hs] at t1
      obtain ⟨l2, hl2, t2⟩ := ih w1
      refine ⟨l1 ++ l2, ?_, ?_⟩
      · simpa [maxTrace] using List.Sublist.append hl1 hl2
      · simpa [runSteps, hs] using Traced.trans t1 t2

theorem runSteps_append (o r : Option String) (a b : List Step) :
    ∀ w : World, runSteps o r (a ++ b) w =
      match runSteps o r a w with
      | (.ok _, v) => runSteps o r b v
      | (.error e, v) => (.error e, v) := by
  induction a with
  | nil => intro w; simp [runSteps]
  | cons s ss ih =>
    intro w
    rcases hs : runStep o r s w with ⟨e | u, w1⟩
    · simp [runSteps, hs]
    · simp [runSteps, hs, ih]

theorem pathExists_replay_mono (faults : Nat → Option RemoteError) (l : List Call) (q : String) :
    ∀ (n : Nat) (t : Tree), pathExists t q = true → pathExists (replay faults n l t) q = true := by
  induction l with
  | nil => intro n t h; simpa [replay] using h
  | cons c cs ih =>
    intro n t h
    simp only [replay]
    apply ih
    split
    · exact pathExists_putFile_mono _ _ _ _ h
    · exact h

/-- A write that did not fail has its file in the tree after any further calls. -/
theorem pathExists_replay_written (faults : Nat → Option RemoteError) (l : List Call) :
    ∀ (n : Nat) (t : Tree) (k : Nat) (c : Call), l[k]? = some c → c.isWrite = true →
      faults (n + k) = none → pathExists (replay faults n l t) c.path = true := by
  induction l with
  | nil => intro n t k c h; simp at h
  | cons x xs ih =>
    intro n t k c h hw hf
    cases k with
    | zero =>
      simp at h
      subst h
      simp only [replay]
      apply pathExists_replay_mono
      simp at hf
      simp [hw, hf, pathExists_putFile_self]
    | succ k =>
      simp at h
      simp only [replay]
      apply ih (n + 1) _ k c h hw
      have : n + 1 + k = n + (k + 1) := by omega
      rw [this]; exact hf

theorem nodup_of_keys {l : List Call} (h : (l.map Call.key).Nodup) : l.Nodup :=
  List.Nodup.of_map _ h

theorem fileAt_replay_other (faults : Nat → Option RemoteError) (q : String) (l : List Call) :
    ∀ (n : Nat) (t : Tree), (∀ x ∈ l, x.isWrite = true → x.path ≠ q) →
      fileAt (replay faults n l t) q = fileAt t q := by
  induction l with
  | nil => intro n t _; rfl
  | cons x xs ih =>
    intro n t h
    simp only [replay]
    rw [ih _ _ (fun y hy => h y (List.mem_cons_of_mem _ hy))]
    split
    · rename_i hx
      simp only [Bool.and_eq_true] at hx
      exact fileAt_putFile_ne _ _ _ _ (h x (List.mem_cons_self _ _) hx.1)
    · rfl

/-- A write that did not fail has its file, as written, in the tree after the further
calls, when no two calls of the run are of the same kind on the same path. -/
theorem fileAt_replay_written (faults : Nat → Option RemoteError) (l : List Call) :
    ∀ (n : Nat) (t : Tree) (k : Nat) (c : Call), (l.map Call.key).Nodup → l[k]? = some c →
      c.isWrite = true → faults (n + k) = none →
      fileAt (replay faults n l t) c.path = some c.content := by
  induction l with
  | nil => intro n t k c _ h; simp at h
  | cons x xs ih =>
    intro n t k c hN h hw hf
    simp only [List.map_cons, List.nodup_cons] at hN
    cases k with
    | zero =>
      simp at h
      subst h
      simp only [replay]
      rw [fileAt_replay_other]
      · simp at hf
        simp [hw, hf, fileAt_putFile_self]
      · intro y hy hyw hp
        apply hN.1
        simp only [List.mem_map]
        exact ⟨y, hy, by simp [Call.key, hyw, hw, hp]⟩
    | succ k =>
      simp at h
      simp only [replay]
      apply ih (n + 1) _ k c hN.2 h hw
      have : n + 1 + k = n + (k + 1) := by omega
      rw [this]; exact hf

theorem aborts_of_traced {w : World} {out : Response × World} {ok : Bool} {l M : List Call}
    (t : Traced w ok out.2 l) (hs : List.Sublist l M) (hM : (M.map Call.key).Nodup)
    (hf : ok = false → 400 ≤ out.1.status ∧ out.1.success ≠ some true) :
    abortsAtFirstFailure w out := by
  have hk : (l.map Call.key).Nodup := List.Nodup.sublist (List.Sublist.map _ hs) hM
  refine ⟨l, t.log, nodup_of_keys hk, ?_, ?_⟩
  · intro k hk
    obtain ⟨h1, h2⟩ := t.abort k hk
    exact ⟨h1.symm, hf h2⟩
  · intro k c hc hw hfk
    rw [t.tree]
    exact fileAt_replay_written _ _ _ _ _ _ hk hc hw hfk

theorem Traced.congr {w w1 w2 : World} {ok : Bool} {l : List Call} (t : Traced w ok w1 l)
    (hl : w2.log = w1.log) (ht : w2.tree = w1.tree) (hf : w2.faults = w1.faults) :
    Traced w ok w2 l :=
  ⟨hl ▸ t.log, hf ▸ t.faults, ht ▸ t.tree, t.abort⟩

theorem aborts_of_follows {w0 w : World} {out : Response × World} {l0 : List Call}
    {o r : Option String} {steps : List Step} (f : Follows w0 out l0 w o r steps)
    (hM : ((l0 ++ maxTrace o r steps).map Call.key).Nodup) : abortsAtFirstFailure w0 out := by
  obtain ⟨l, hs, t⟩ := traced_runSteps o r steps w
  have t2 := (f.reads.trans t).congr f.log f.tree f.faults
  refine aborts_of_traced t2 (List.Sublist.append (List.Sublist.refl _) hs) hM ?_
  intro hok
  exact f.failure hok

theorem traced_ensure_first (o r : Option String) (d m : String) (mid : List Step) (w : World) :
    ∃ l, List.Sublist l (maxTrace o r (.ensure d m :: mid)) ∧
      Traced w (isOk (runSteps o r (.ensure d m :: mid) w).1)
        (runSteps o r (.ensure d m :: mid) w).2 l ∧
      (isOk (runSteps o r (.ensure d m :: mid) w).1 = true →
        pathExists (runSteps o r (.ensure d m :: mid) w).2.tree d = true ∧
        (pathExists w.tree d = true ∨
          (l[1]? = some (marker o r d m) ∧ w.faults (w.log.length + 1) = none))) := by
  rcases hs : ensureFolder o r d m w with ⟨e | u, w1⟩
  · obtain ⟨l1, hl1, t1, _⟩ := traced_ensure hs
    refine ⟨l1, ?_, ?_, ?_⟩
    · simpa [maxTrace, Step.calls] using hl1.trans (List.sublist_append_left _ _)
    · simpa [runSteps, runStep, hs] using t1
    · simp [runSteps, runStep, hs, isOk]
  · obtain ⟨l1, hl1, t1, h1⟩ := traced_ensure hs
    obtain ⟨l2, hl2, t2⟩ := traced_runSteps o r mid w1
    refine ⟨l1 ++ l2, ?_, ?_, ?_⟩
    · simpa [maxTrace, Step.calls] using List.Sublist.append hl1 hl2
    · simpa [runSteps, runStep, hs] using Traced.trans t1 t2
    · intro _
      obtain ⟨hp, hd⟩ := h1 rfl
      constructor
      · simp only [runSteps, runStep, hs]
        rw [t2.tree]
        exact pathExists_replay_mono _ _ _ _ _ hp
      · rcases hd with hd | ⟨hl, hf⟩
        · exact .inl hd
        · exact .inr ⟨by simp [hl], hf⟩

theorem split_unique {α : Type} {x : α} :
    ∀ {a c post : List α}, a ++ x :: post = c ++ [x] → x ∉ c → a = c := by
  intro a
  induction a with
  | nil =>
    intro c post h hx
    cases c with
    | nil => rfl
    | cons y c =>
      simp at h
      exact absurd (h.1 ▸ List.mem_cons_self _ _) hx
  | cons z a ih =>
    intro c post h hx
    cases c with
    | nil => simp at h
    | cons y c =>
      simp only [List.cons_append, List.cons.injEq] at h
      rw [h.1, ih h.2 (fun hm => hx (List.mem_cons_of_mem _ hm))]

theorem present_of_follows {w0 w : World} {out : Response × World} {l0 : List Call}
    {o r : Option String} {d m : String} {mid : List Step} {p msg c : String}
    (f : Follows w0 out l0 w o r (.ensure d m :: mid ++ [.write p msg c]))
    (hW : .createOrUpdateFileContents o r p msg c "main" ∉
      l0 ++ maxTrace o r (.ensure d m :: mid)) :
    folderPresentAtLeaf w0 out (.createOrUpdateFileContents o r p msg c "main") d
      (marker o r d m) := by
  intro a post hlog
  rw [f.log] at hlog
  have happ := runSteps_append o r (.ensure d m :: mid) [.write p msg c] w
  obtain ⟨l, hs, t, hsucc⟩ := traced_ensure_first o r d m mid w
  have hlen : w.log.length = w0.log.length + l0.length := by rw [f.reads.log]; simp
  rcases hr : runSteps o r (.ensure d m :: mid) w with ⟨e | u, v⟩
  · rw [hr] at t happ
    simp only at happ
    have T := f.reads.trans t
    rw [happ, T.log, List.append_assoc] at hlog
    have hl := List.append_cancel_left hlog
    have hmem : Call.createOrUpdateFileContents o r p msg c "main" ∈ l0 ++ l := by
      rw [hl]; simp
    apply absurd _ hW
    rcases List.mem_append.1 hmem with h | h
    · exact List.mem_append_left _ h
    · exact List.mem_append_right _ (hs.subset h)
  · rw [hr] at t happ hsucc
    simp only at happ
    have T := f.reads.trans t
    obtain ⟨l2, hl2, t2⟩ := traced_runStep o r (.write p msg c) v
    have hl2eq : l2 = [.createOrUpdateFileContents o r p msg c "main"] := by
      have := t2.log
      rcases hc : createOrUpdateFileContents o r p msg c "main" v with ⟨e2 | x2, v2⟩
      · have t3 := traced_write hc
        simp only [runStep, hc] at this
        rw [t3.log] at this
        exact (List.append_cancel_left this).symm
      · have t3 := traced_write hc
        simp only [runStep, hc] at this
        rw [t3.log] at this
        exact (List.append_cancel_left this).symm
    subst hl2eq
    have hfull : (runSteps o r (.ensure d m :: mid ++ [.write p msg c]) w).2.log =
        v.log ++ [.createOrUpdateFileContents o r p msg c "main"] := by
      rw [happ]
      rcases hst : runStep o r (.write p msg c) v with ⟨e2 | u2, v2⟩
      · rw [hst] at t2
        simp only [runSteps, hst]
        exact t2.log
      · rw [hst] at t2
        simp only [runSteps, hst]
        exact t2.log
    rw [hfull, T.log] at hlog
    simp only [List.append_assoc] at hlog
    have hl : (l0 ++ l) ++ [Call.createOrUpdateFileContents o r p msg c "main"] =
        a ++ Call.createOrUpdateFileContents o r p msg c "main" :: post := by
      rw [List.append_assoc]; exact List.append_cancel_left hlog
    have hnot : Call.createOrUpdateFileContents o r p msg c "main" ∉ l0 ++ l := by
      intro hmem
      apply hW
      rcases List.mem_append.1 hmem with h | h
      · exact List.mem_append_left _ h
      · exact List.mem_append_right _ (hs.subset h)
    have ha : a = l0 ++ l := split_unique hl.symm hnot
    subst ha
    obtain ⟨hp, hd⟩ := hsucc rfl
    refine ⟨?_, ?_⟩
    · rw [← T.tree]; exact hp
    · rcases hd with hd | ⟨hm, hf⟩
      · left; rw [← f.same]; exact hd
      · right
        refine ⟨l0.length + 1, ?_, rfl, ?_⟩
        · rw [List.getElem?_append_right (by omega)]
          simpa using hm
        · rw [← f.reads.faults, ← Nat.add_assoc, ← hlen]
          exact hf

theorem present_of_absent {w : World} {out : Response × World} {l : List Call} {leaf : Call}
    {folder : String} {mark : Call} (hlog : out.2.log = w.log ++ l) (hl : leaf ∉ l) :
    folderPresentAtLeaf w out leaf folder mark := by
  intro a post h
  rw [hlog, List.append_assoc] at h
  have := List.append_cancel_left h
  exact absurd (this ▸ (by simp : leaf ∈ a ++ leaf :: post)) hl

theorem maxTrace_append (o r : Option String) (a b : List Step) :
    maxTrace o r (a ++ b) = maxTrace o r a ++ maxTrace o r b := by
  induction a with
  | nil => rfl
  | cons s ss ih => simp [maxTrace, ih]

/-- Both properties of a run that went through an ensure step, further steps and a
final write, no two of whose calls are of the same kind on the same path. -/
theorem claims_of_follows {w0 w : World} {out : Response × World} {l0 : List Call}
    {o r : Option String} {d m : String} (mid : List Step) {p msg c : String} {steps : List Step}
    (hsteps : steps = .ensure d m :: mid ++ [.write p msg c])
    (f : Follows w0 out l0 w o r steps)
    (hM : ((l0 ++ maxTrace o r steps).map Call.key).Nodup) :
    abortsAtFirstFailure w0 out ∧
    folderPresentAtLeaf w0 out (.createOrUpdateFileContents o r p msg c "main") d
      (marker o r d m) := by
  subst hsteps
  refine ⟨aborts_of_follows f hM, present_of_follows f ?_⟩
  have hN := nodup_of_keys hM
  rw [maxTrace_append, ← List.append_assoc] at hN
  simp only [maxTrace, Step.calls, List.append_nil] at hN
  have := (List.nodup_append.1 hN).2.2
  intro hmem
  exact this hmem (List.mem_singleton_self _)

/-- Both properties of a run that stopped after the calls `l`, the write `leaf` not
among them. -/
theorem claims_of_stop {w : World} {out : Response × World} (ok : Bool) {l : List Call}
    {leaf mark : Call} {folder : String} (t : Traced w ok out.2 l)
    (hN : (l.map Call.key).Nodup) (hl : leaf ∉ l)
    (hf : ok = false → 400 ≤ out.1.status ∧ out.1.success ≠ some true) :
    abortsAtFirstFailure w out ∧ folderPresentAtLeaf w out leaf folder mark :=
  ⟨aborts_of_traced t (List.Sublist.refl _) hN hf, present_of_absent t.log hl⟩

/-- Both properties of a run that issued no call. -/
theorem claims_of_noop {w : World} {out : Response × World} {leaf mark : Call} {folder : String}
    (h : out.2 = w) :
    abortsAtFirstFailure w out ∧ folderPresentAtLeaf w out leaf folder mark := by
  have t : Traced w true out.2 [] := by rw [h]; exact Traced.nil w
  exact claims_of_stop true t (by simp) (by simp) (by simp)

theorem appCreateManifests_follows {yamlLoad : String → Except String Unit}
    {b : AppManifestsBody} {w : World}
    (ht : truthy w.token = true) (hn : truthy b.appName = true)
    (hy : truthy b.deploymentYaml = true) (hl : yamlLoad (str b.deploymentYaml) = .ok ()) :
    Follows w (appCreateManifests yamlLoad b w) [] w b.orgName b.repoName
      (appCreateManifestsSteps b) := by
  rcases h1 : ensureFolder b.orgName b.repoName "manifests" "Create manifests directory" w
    with ⟨e1 | u1, w1⟩
  · refine ⟨Traced.nil w, rfl, ?_, ?_, ?_, ?_⟩ <;>
    simp [appCreateManifests, appCreateManifestsTry, appCreateManifestsSteps, runSteps, runStep,
      getGitHubToken, ht, hn, hy, hl, h1, isOk]
  · rcases h2 : createOrUpdateFileContents b.orgName b.repoName
        ("manifests/" ++ str b.appName ++ "/.gitkeep")
        ("Create " ++ str b.appName ++ " directory") "" "main" w1 with ⟨e2 | x2, w2⟩
    · refine ⟨Traced.nil w, rfl, ?_, ?_, ?_, ?_⟩ <;>
      simp [appCreateManifests, appCreateManifestsTry, appCreateManifestsSteps, runSteps, runStep,
        getGitHubToken, ht, hn, hy, hl, h1, h2, isOk]
    · rcases h3 : createOrUpdateFileContents b.orgName b.repoName
          ("manifests/" ++ str b.appName ++ "/deployment.yaml")
          ("Add deployment for " ++ str b.appName) (str b.deploymentYaml) "main" w2
        with ⟨e3 | x3, w3⟩ <;>
      refine ⟨Traced.nil w, rfl, ?_, ?_, ?_, ?_⟩ <;>
      simp [appCreateManifests, appCreateManifestsTry, appCreateManifestsSteps, runSteps, runStep,
        getGitHubToken, ht, hn, hy, hl, h1, h2, h3, isOk]

theorem appCreateManifestsSteps_nodup (b : AppManifestsBody) :
    (([] ++ maxTrace b.orgName b.repoName (appCreateManifestsSteps b)).map Call.key).Nodup := by
  have h1 : "manifests/.gitkeep" ≠ "manifests/" ++ str b.appName ++ "/.gitkeep" := fun h => by
    simpa [String.data_append] using congrArg (fun s => s.data.length) h
  have h2 : "manifests/.gitkeep" ≠ "manifests/" ++ str b.appName ++ "/deployment.yaml" :=
    fun h => by simpa [String.data_append] using congrArg (fun s => s.data.length) h
  have h3 : "manifests/" ++ str b.appName ++ "/.gitkeep" ≠
      "manifests/" ++ str b.appName ++ "/deployment.yaml" :=
    fun h => by simpa [String.data_append] using congrArg (fun s => s.data.length) h
  simp [appCreateManifestsSteps, maxTrace, Step.calls, marker, Call.key, Call.isWrite, Call.path,
    h1, h2, h3]

theorem appCreateManifests_claims (yamlLoad : String → Except String Unit)
    (b : AppManifestsBody) (w : World) :
    abortsAtFirstFailure w (appCreateManifests yamlLoad b w) ∧
    folderPresentAtLeaf w (appCreateManifests yamlLoad b w)
      (.createOrUpdateFileContents b.orgName b.repoName
        ("manifests/" ++ str b.appName ++ "/deployment.yaml")
        ("Add deployment for " ++ str b.appName) (str b.deploymentYaml) "main")
      "manifests" (marker b.orgName b.repoName "manifests" "Create manifests directory") := by
  by_cases ht : truthy w.token = true
  · by_cases hn : truthy b.appName = true
    · by_cases hy : truthy b.deploymentYaml = true
      · cases hl : yamlLoad (str b.deploymentYaml) with
        | error msg =>
          exact claims_of_noop (by
            simp [appCreateManifests, appCreateManifestsTry, getGitHubToken, ht, hn, hy, hl])
        | ok u =>
          exact claims_of_follows
            [.write ("manifests/" ++ str b.appName ++ "/.gitkeep")
              ("Create " ++ str b.appName ++ " directory") ""] rfl
            (appCreateManifests_follows ht hn hy hl) (appCreateManifestsSteps_nodup b)
      · exact claims_of_noop (by
          simp [appCreateManifests, appCreateManifestsTry, getGitHubToken, ht, hn, hy])
    · exact claims_of_noop (by
        simp [appCreateManifests, appCreateManifestsTry, getGitHubToken, ht, hn])
  · exact claims_of_noop (by
      simp [appCreateManifests, appCreateManifestsTry, getGitHubToken, ht])

theorem appDeploy_follows {b : AppDeployBody} {w : World}
    (ht : truthy w.token = true) (ho : truthy b.orgName = true) (hr : truthy b.repoName = true)
    (hn : truthy b.appName = true) :
    Follows w (appDeploy b w) [] w b.orgName b.repoName (appDeploySteps b) := by
  rcases h1 : ensureFolder b.orgName b.repoName "apps" "Create apps directory" w
    with ⟨e1 | u1, w1⟩
  · refine ⟨Traced.nil w, rfl, ?_, ?_, ?_, ?_⟩ <;>
    simp [appDeploy, appDeployTry, appDeploySteps, runSteps, runStep,
      getGitHubToken, ht, ho, hr, hn, h1, isOk]
  · rcases h2 : createOrUpdateFileContents b.orgName b.repoName
        ("apps/" ++ str b.appName ++ "/.gitkeep")
        ("Create " ++ str b.appName ++ " app directory") "" "main" w1 with ⟨e2 | x2, w2⟩
    · refine ⟨Traced.nil w, rfl, ?_, ?_, ?_, ?_⟩ <;>
      simp [appDeploy, appDeployTry, appDeploySteps, runSteps, runStep,
      getGitHubToken, ht, ho, hr, hn, h1, h2, isOk]
    · rcases h3 : createOrUpdateFileContents b.orgName b.repoName
          ("apps/" ++ str b.appName ++ "/config_dir.json")
          ("Add ArgoCD config for " ++ str b.appName) (appDeployConfig b).stringify "main" w2
        with ⟨e3 | x3, w3⟩ <;>
      refine ⟨Traced.nil w, rfl, ?_, ?_, ?_, ?_⟩ <;>
      simp [appDeploy, appDeployTry, appDeploySteps, runSteps, runStep,
      getGitHubToken, ht, ho, hr, hn, h1, h2, h3, isOk]

theorem appDeploySteps_nodup (b : AppDeployBody) :
    (([] ++ maxTrace b.orgName b.repoName (appDeploySteps b)).map Call.key).Nodup := by
  have h1 : "apps/.gitkeep" ≠ "apps/" ++ str b.appName ++ "/.gitkeep" := fun h => by
    simpa [String.data_append] using congrArg (fun s => s.data.length) h
  have h2 : "apps/.gitkeep" ≠ "apps/" ++ str b.appName ++ "/config_dir.json" := fun h => by
    simpa [String.data_append] using congrArg (fun s => s.data.length) h
  have h3 : "apps/" ++ str b.appName ++ "/.gitkeep" ≠
      "apps/" ++ str b.appName ++ "/config_dir.json" := fun h => by
    simpa [String.data_append] using congrArg (fun s => s.data.length) h
  simp [appDeploySteps, maxTrace, Step.calls, marker, Call.key, Call.isWrite, Call.path, h1, h2, h3]

theorem appDeploy_claims (b : AppDeployBody) (w : World) :
    abortsAtFirstFailure w (appDeploy b w) ∧
    folderPresentAtLeaf w (appDeploy b w)
      (.createOrUpdateFileContents b.orgName b.repoName
        ("apps/" ++ str b.appName ++ "/config_dir.json")
        ("Add ArgoCD config for " ++ str b.appName) (appDeployConfig b).stringify "main")
      "apps" (marker b.orgName b.repoName "apps" "Create apps directory") := by
  by_cases ht : truthy w.token = true
  · by_cases ho : truthy b.orgName = true
    · by_cases hr : truthy b.repoName = true
      · by_cases hn : truthy b.appName = true
        · exact claims_of_follows
            [.write ("apps/" ++ str b.appName ++ "/.gitkeep")
              ("Create " ++ str b.appName ++ " app directory") ""] rfl
            (appDeploy_follows ht ho hr hn) (appDeploySteps_nodup b)
        · exact claims_of_noop (by
            simp [appDeploy, appDeployTry, getGitHubToken, ht, ho, hr, hn])
      · exact claims_of_noop (by
          simp [appDeploy, appDeployTry, getGitHubToken, ht, ho, hr])
    · exact claims_of_noop (by
        simp [appDeploy, appDeployTry, getGitHubToken, ht, ho])
  · exact claims_of_noop (by
      simp [appDeploy, appDeployTry, getGitHubToken, ht])

theorem mlDeploy_follows {yamlLoad : String → Except String Unit} {b : MlDeployBody} {w : World}
    (ht : truthy w.token = true) (ho : truthy b.orgName = true) (hr : truthy b.repoName = true)
    (hn : truthy b.modelName = true) (hy : truthy b.deploymentYaml = true)
    (hl : yamlLoad (str b.deploymentYaml) = .ok ()) :
    Follows w (mlDeploy yamlLoad b w) [] w b.orgName b.repoName (mlDeploySteps b) := by
  rcases h1 : ensureFolder b.orgName b.repoName "ml-models" "Create ml-models directory" w
    with ⟨e1 | u1, w1⟩
  · refine ⟨Traced.nil w, rfl, ?_, ?_, ?_, ?_⟩ <;>
    simp [mlDeploy, mlDeployTry, mlDeploySteps, runSteps, runStep,
      getGitHubToken, ht, ho, hr, hn, hy, hl, h1, isOk]
  · rcases h2 : createOrUpdateFileContents b.orgName b.repoName
        ("ml-models/" ++ str b.modelName ++ "/.gitkeep")
        ("Create " ++ str b.modelName ++ " directory") "" "main" w1 with ⟨e2 | x2, w2⟩
    · refine ⟨Traced.nil w, rfl, ?_, ?_, ?_, ?_⟩ <;>
      simp [mlDeploy, mlDeployTry, mlDeploySteps, runSteps, runStep,
      getGitHubToken, ht, ho, hr, hn, hy, hl, h1, h2, isOk]
    · rcases h3 : createOrUpdateFileContents b.orgName b.repoName
          ("ml-models/" ++ str b.modelName ++ "/deployment.yaml")
          ("Add deployment for " ++ str b.modelName) (str b.deploymentYaml) "main" w2
        with ⟨e3 | x3, w3⟩ <;>
      refine ⟨Traced.nil w, rfl, ?_, ?_, ?_, ?_⟩ <;>
      simp [mlDeploy, mlDeployTry, mlDeploySteps, runSteps, runStep,
      getGitHubToken, ht, ho, hr, hn, hy, hl, h1, h2, h3, isOk]

theorem mlDeploySteps_nodup (b : MlDeployBody) :
    (([] ++ maxTrace b.orgName b.repoName (mlDeploySteps b)).map Call.key).Nodup := by
  have h1 : "ml-models/.gitkeep" ≠ "ml-models/" ++ str b.modelName ++ "/.gitkeep" := fun h => by
    simpa [String.data_append] using congrArg (fun s => s.data.length) h
  have h2 : "ml-models/.gitkeep" ≠ "ml-models/" ++ str b.modelName ++ "/deployment.yaml" := fun h => by
    simpa [String.data_append] using congrArg (fun s => s.data.length) h
  have h3 : "ml-models/" ++ str b.modelName ++ "/.gitkeep" ≠
      "ml-models/" ++ str b.modelName ++ "/deployment.yaml" := fun h => by
    simpa [String.data_append] using congrArg (fun s => s.data.length) h
  simp [mlDeploySteps, maxTrace, Step.calls, marker, Call.key, Call.isWrite, Call.path, h1, h2, h3]

theorem mlDeploy_claims (yamlLoad : String → Except String Unit) (b : MlDeployBody) (w : World) :
    abortsAtFirstFailure w (mlDeploy yamlLoad b w) ∧
    folderPresentAtLeaf w (mlDeploy yamlLoad b w)
      (.createOrUpdateFileContents b.orgName b.repoName
        ("ml-models/" ++ str b.modelName ++ "/deployment.yaml")
        ("Add deployment for " ++ str b.modelName) (str b.deploymentYaml) "main")
      "ml-models" (marker b.orgName b.repoName "ml-models" "Create ml-models directory") := by
  by_cases ht : truthy w.token = true
  · by_cases ho : truthy b.orgName = true
    · by_cases hr : truthy b.repoName = true
      · by_cases hn : truthy b.modelName = true
        · by_cases hy : truthy b.deploymentYaml = true
          · cases hl : yamlLoad (str b.deploymentYaml) with
            | error msg =>
              exact claims_of_noop (by
                simp [mlDeploy, mlDeployTry, getGitHubToken, ht, ho, hr, hn, hy, hl])
            | ok u =>
              exact claims_of_follows
                [.write ("ml-models/" ++ str b.modelName ++ "/.gitkeep")
                  ("Create " ++ str b.modelName ++ " directory") ""] rfl
                (mlDeploy_follows ht ho hr hn hy hl) (mlDeploySteps_nodup b)
          · exact claims_of_noop (by
              simp [mlDeploy, mlDeployTry, getGitHubToken, ht, ho, hr, hn, hy])
        · exact claims_of_noop (by
            simp [mlDeploy, mlDeployTry, getGitHubToken, ht, ho, hr, hn])
      · exact claims_of_noop (by
          simp [mlDeploy, mlDeployTry, getGitHubToken, ht, ho, hr])
    · exact claims_of_noop (by
        simp [mlDeploy, mlDeployTry, getGitHubToken, ht, ho])
  · exact claims_of_noop (by
      simp [mlDeploy, mlDeployTry, getGitHubToken, ht])

theorem mlDeployArgocd_follows {b : MlDeployArgocdBody} {w : World}
    (ht : truthy w.token = true) (ho : truthy b.orgName = true) (hr : truthy b.repoName = true)
    (hn : truthy b.modelName = true) :
    Follows w (mlDeployArgocd b w) [] w b.orgName b.repoName (mlDeployArgocdSteps b) := by
  rcases h1 : ensureFolder b.orgName b.repoName "apps" "Create apps directory" w
    with ⟨e1 | u1, w1⟩
  · refine ⟨Traced.nil w, rfl, ?_, ?_, ?_, ?_⟩ <;>
    simp [mlDeployArgocd, mlDeployArgocdTry, mlDeployArgocdSteps, runSteps, runStep,
      getGitHubToken, ht, ho, hr, hn, h1, isOk]
  · rcases h2 : createOrUpdateFileContents b.orgName b.repoName
        ("apps/" ++ str b.modelName ++ "/.gitkeep")
        ("Create " ++ str b.modelName ++ " app directory") "" "main" w1 with ⟨e2 | x2, w2⟩
    · refine ⟨Traced.nil w, rfl, ?_, ?_, ?_, ?_⟩ <;>
      simp [mlDeployArgocd, mlDeployArgocdTry, mlDeployArgocdSteps, runSteps, runStep,
      getGitHubToken, ht, ho, hr, hn, h1, h2, isOk]
    · rcases h3 : createOrUpdateFileContents b.orgName b.repoName
          ("apps/" ++ str b.modelName ++ "/config_dir.json")
          ("Add ArgoCD config for " ++ str b.modelName) (mlAppConfig b).stringify "main" w2
        with ⟨e3 | x3, w3⟩ <;>
      refine ⟨Traced.nil w, rfl, ?_, ?_, ?_, ?_⟩ <;>
      simp [mlDeployArgocd, mlDeployArgocdTry, mlDeployArgocdSteps, runSteps, runStep,
      getGitHubToken, ht, ho, hr, hn, h1, h2, h3, isOk]

theorem mlDeployArgocdSteps_nodup (b : MlDeployArgocdBody) :
    (([] ++ maxTrace b.orgName b.repoName (mlDeployArgocdSteps b)).map Call.key).Nodup := by
  have h1 : "apps/.gitkeep" ≠ "apps/" ++ str b.modelName ++ "/.gitkeep" := fun h => by
    simpa [String.data_append] using congrArg (fun s => s.data.length) h
  have h2 : "apps/.gitkeep" ≠ "apps/" ++ str b.modelName ++ "/config_dir.json" := fun h => by
    simpa [String.data_append] using congrArg (fun s => s.data.length) h
  have h3 : "apps/" ++ str b.modelName ++ "/.gitkeep" ≠
      "apps/" ++ str b.modelName ++ "/config_dir.json" := fun h => by
    simpa [String.data_append] using congrArg (fun s => s.data.length) h
  simp [mlDeployArgocdSteps, maxTrace, Step.calls, marker, Call.key, Call.isWrite, Call.path, h1,
    h2, h3]

theorem mlDeployArgocd_claims (b : MlDeployArgocdBody) (w : World) :
    abortsAtFirstFailure w (mlDeployArgocd b w) ∧
    folderPresentAtLeaf w (mlDeployArgocd b w)
      (.createOrUpdateFileContents b.orgName b.repoName
        ("apps/" ++ str b.modelName ++ "/config_dir.json")
        ("Add ArgoCD config for " ++ str b.modelName) (mlAppConfig b).stringify "main")
      "apps" (marker b.orgName b.repoName "apps" "Create apps directory") := by
  by_cases ht : truthy w.token = true
  · by_cases ho : truthy b.orgName = true
    · by_cases hr : truthy b.repoName = true
      · by_cases hn : truthy b.modelName = true
        · exact claims_of_follows
            [.write ("apps/" ++ str b.modelName ++ "/.gitkeep")
              ("Create " ++ str b.modelName ++ " app directory") ""] rfl
            (mlDeployArgocd_follows ht ho hr hn) (mlDeployArgocdSteps_nodup b)
        · exact claims_of_noop (by
            simp [mlDeployArgocd, mlDeployArgocdTry, getGitHubToken, ht, ho, hr, hn])
      · exact claims_of_noop (by
          simp [mlDeployArgocd, mlDeployArgocdTry, getGitHubToken, ht, ho, hr])
    · exact claims_of_noop (by
        simp [mlDeployArgocd, mlDeployArgocdTry, getGitHubToken, ht, ho])
  · exact claims_of_noop (by
      simp [mlDeployArgocd, mlDeployArgocdTry, getGitHubToken, ht])

theorem monitoringCreateManifests_follows {b : MonitoringManifestsBody} {w : World}
    (ht : truthy w.token = true) (ho : truthy b.orgName = true) (hr : truthy b.repoName = true) :
    Follows w (monitoringCreateManifests b w) [] w b.orgName b.repoName monitoringCreateManifestsSteps := by
  rcases h1 : ensureFolder b.orgName b.repoName "monitoring" "Create monitoring directory" w
    with ⟨e1 | u1, w1⟩
  · refine ⟨Traced.nil w, rfl, ?_, ?_, ?_, ?_⟩ <;>
    simp [monitoringCreateManifests, monitoringCreateManifestsTry, monitoringCreateManifestsSteps,
      runSteps, runStep,
      getGitHubToken, ht, ho, hr, h1, isOk]
  · rcases h2 : createOrUpdateFileContents b.orgName b.repoName
        "monitoring/grafana/.gitkeep"
        "Create grafana directory" "" "main" w1 with ⟨e2 | x2, w2⟩
    · refine ⟨Traced.nil w, rfl, ?_, ?_, ?_, ?_⟩ <;>
      simp [monitoringCreateManifests, monitoringCreateManifestsTry,
        monitoringCreateManifestsSteps, runSteps, runStep,
      getGitHubToken, ht, ho, hr, h1, h2, isOk]
    · rcases h3 : createOrUpdateFileContents b.orgName b.repoName
          "monitoring/grafana/deployment.yaml"
          "Add deployment for Grafana" grafanaDeploymentTemplate "main" w2
        with ⟨e3 | x3, w3⟩ <;>
      refine ⟨Traced.nil w, rfl, ?_, ?_, ?_, ?_⟩ <;>
      simp [monitoringCreateManifests, monitoringCreateManifestsTry,
        monitoringCreateManifestsSteps, runSteps, runStep,
      getGitHubToken, ht, ho, hr, h1, h2, h3, isOk]

theorem monitoringCreateManifestsSteps_nodup (b : MonitoringManifestsBody) :
    (([] ++ maxTrace b.orgName b.repoName monitoringCreateManifestsSteps).map Call.key).Nodup := by
  have h1 : "monitoring/.gitkeep" ≠ "monitoring/grafana/.gitkeep" := fun h => by
    simpa [String.data_append] using congrArg (fun s => s.data.length) h
  have h2 : "monitoring/.gitkeep" ≠ "monitoring/grafana/deployment.yaml" := fun h => by
    simpa [String.data_append] using congrArg (fun s => s.data.length) h
  have h3 : "monitoring/grafana/.gitkeep" ≠
      "monitoring/grafana/deployment.yaml" := fun h => by
    simpa [String.data_append] using congrArg (fun s => s.data.length) h
  simp [monitoringCreateManifestsSteps, maxTrace, Step.calls, marker, Call.key, Call.isWrite,
    Call.path, h1, h2, h3]

theorem monitoringCreateManifests_claims (b : MonitoringManifestsBody) (w : World) :
    abortsAtFirstFailure w (monitoringCreateManifests b w) ∧
    folderPresentAtLeaf w (monitoringCreateManifests b w)
      (.createOrUpdateFileContents b.orgName b.repoName
        "monitoring/grafana/deployment.yaml"
        "Add deployment for Grafana" grafanaDeploymentTemplate "main")
      "monitoring" (marker b.orgName b.repoName "monitoring" "Create monitoring directory") := by
  by_cases ht : truthy w.token = true
  · by_cases ho : truthy b.orgName = true
    · by_cases hr : truthy b.repoName = true
      · exact claims_of_follows
          [.write "monitoring/grafana/.gitkeep"
            "Create grafana directory" ""] rfl
          (monitoringCreateManifests_follows ht ho hr) (monitoringCreateManifestsSteps_nodup b)
      · exact claims_of_noop (by
          simp [monitoringCreateManifests, monitoringCreateManifestsTry, getGitHubToken, ht, ho,
            hr])
    · exact claims_of_noop (by
        simp [monitoringCreateManifests, monitoringCreateManifestsTry, getGitHubToken, ht, ho])
  · exact claims_of_noop (by
      simp [monitoringCreateManifests, monitoringCreateManifestsTry, getGitHubToken, ht])

theorem createPipeline_follows {b : CreatePipelineBody} {w : World}
    (ht : truthy w.token = true) (hn : truthy b.pipelineName = true)
    (hc : truthy b.pipelineContent = true) :
    Follows w (createPipeline b w) [] w b.orgName b.repoName (createPipelineSteps b) := by
  rcases h1 : ensureFolder b.orgName b.repoName "cicd" "Create CICD directory" w
    with ⟨e1 | u1, w1⟩
  · refine ⟨Traced.nil w, rfl, ?_, ?_, ?_, ?_⟩ <;>
    simp [createPipeline, createPipelineTry, createPipelineSteps, runSteps, runStep,
      getGitHubToken, ht, hn, hc, h1, isOk]
  · rcases h2 : createOrUpdateFileContents b.orgName b.repoName
        (pipelinePath (str b.pipelineName))
        ("Add " ++ str b.pipelineName ++ " pipeline via InfraPilotX")
        (str b.pipelineContent) "main" w1 with ⟨e2 | x2, w2⟩ <;>
    refine ⟨Traced.nil w, rfl, ?_, ?_, ?_, ?_⟩ <;>
    simp [createPipeline, createPipelineTry, createPipelineSteps, runSteps, runStep,
      getGitHubToken, ht, hn, hc, h1, h2, isOk]

theorem marker_ne_pipelinePath (n : String) : "cicd/.gitkeep" ≠ pipelinePath n := by
  intro h
  have h2 := congrArg (fun s => s.data.reverse.head?) h
  simp [pipelinePath, String.data_append] at h2

theorem marker_ne_projectPath (n : String) : "projects/.gitkeep" ≠ projectPath n := by
  intro h
  have h2 := congrArg (fun s => s.data.reverse.head?) h
  simp [projectPath, String.data_append] at h2

theorem createPipelineSteps_nodup (b : CreatePipelineBody) :
    (([] ++ maxTrace b.orgName b.repoName (createPipelineSteps b)).map Call.key).Nodup := by
  simp [createPipelineSteps, maxTrace, Step.calls, marker, Call.key, Call.isWrite, Call.path,
    marker_ne_pipelinePath]

theorem createPipeline_claims (b : CreatePipelineBody) (w : World) :
    abortsAtFirstFailure w (createPipeline b w) ∧
    folderPresentAtLeaf w (createPipeline b w)
      (.createOrUpdateFileContents b.orgName b.repoName (pipelinePath (str b.pipelineName))
        ("Add " ++ str b.pipelineName ++ " pipeline via InfraPilotX")
        (str b.pipelineContent) "main")
      "cicd" (marker b.orgName b.repoName "cicd" "Create CICD directory") := by
  by_cases ht : truthy w.token = true
  · by_cases hn : truthy b.pipelineName = true
    · by_cases hc : truthy b.pipelineContent = true
      · exact claims_of_follows [] rfl (createPipeline_follows ht hn hc)
          (createPipelineSteps_nodup b)
      · exact claims_of_noop (by
          simp [createPipeline, createPipelineTry, getGitHubToken, ht, hn, hc])
    · exact claims_of_noop (by
        simp [createPipeline, createPipelineTry, getGitHubToken, ht, hn])
  · exact claims_of_noop (by
      simp [createPipeline, createPipelineTry, getGitHubToken, ht])

theorem createProjectCatch_failure (e : RemoteError) :
    400 ≤ (createProjectCatch e).status ∧ (createProjectCatch e).success ≠ some true := by
  unfold createProjectCatch
  split <;> simp

theorem createProject_follows {b : CreateProjectBody} {w w1 : World} {e : RemoteError}
    (hc : b.complete = true) (ht : truthy w.token = true)
    (hg : getContent b.orgName b.repoName (projectPath (str b.projectName)) w = (.error e, w1))
    (h404 : e.status = 404) :
    Follows w (createProject b w)
      [.getContent b.orgName b.repoName (projectPath (str b.projectName))] w1
      b.orgName b.repoName (createProjectSteps b) := by
  obtain ⟨f1, f2, f3, f4, f5⟩ := complete_fields hc
  have hread : Traced w true w1
      [.getContent b.orgName b.repoName (projectPath (str b.projectName))] :=
    traced_read hg (fun e2 he hne => by cases he; exact absurd h404 hne)
  have hsame : w1.tree = w.tree := by rw [getContent_snd hg]; simp
  rcases h1 : ensureFolder b.orgName b.repoName "projects" "Create projects directory" w1
    with ⟨e1 | u1, w2⟩
  · refine ⟨hread, hsame, ?_, ?_, ?_, ?_⟩ <;>
    simp [createProject, createProjectTry, createProjectSteps, runSteps, runStep,
      getGitHubToken, ht, f1, f2, f3, f4, f5, hg, h404, h1, isOk, createProjectCatch_failure]
  · rcases h2 : createOrUpdateFileContents b.orgName b.repoName
        (projectPath (str b.projectName)) ("Add project " ++ str b.projectName)
        (projectYaml (str b.projectName) (str b.clusterUrl) (str b.repoUrl)) "main" w2
      with ⟨e2 | x2, w3⟩ <;>
    refine ⟨hread, hsame, ?_, ?_, ?_, ?_⟩ <;>
    simp [createProject, createProjectTry, createProjectSteps, runSteps, runStep,
      getGitHubToken, ht, f1, f2, f3, f4, f5, hg, h404, h1, h2, isOk, createProjectCatch_failure]

theorem createProjectSteps_nodup (b : CreateProjectBody) :
    (([Call.getContent b.orgName b.repoName (projectPath (str b.projectName))] ++
      maxTrace b.orgName b.repoName (createProjectSteps b)).map Call.key).Nodup := by
  simp [createProjectSteps, maxTrace, Step.calls, marker, Call.key, Call.isWrite, Call.path,
    marker_ne_projectPath, projectPath_ne]

theorem createProject_claims (b : CreateProjectBody) (w : World) :
    abortsAtFirstFailure w (createProject b w) ∧
    folderPresentAtLeaf w (createProject b w)
      (.createOrUpdateFileContents b.orgName b.repoName (projectPath (str b.projectName))
        ("Add project " ++ str b.projectName)
        (projectYaml (str b.projectName) (str b.clusterUrl) (str b.repoUrl)) "main")
      "projects" (marker b.orgName b.repoName "projects" "Create projects directory") := by
  by_cases hc : b.complete = true
  · by_cases ht : truthy w.token = true
    · obtain ⟨f1, f2, f3, f4, f5⟩ := complete_fields hc
      rcases hg : getContent b.orgName b.repoName (projectPath (str b.projectName)) w
        with ⟨e | c, w1⟩
      · by_cases h404 : e.status = 404
        · exact claims_of_follows [] rfl (createProject_follows hc ht hg h404)
            (createProjectSteps_nodup b)
        · have hout : createProject b w = (createProjectCatch e, w1) := by
            simp [createProject, createProjectTry, getGitHubToken, ht, f1, f2, f3, f4, f5, hg,
              h404]
          rw [hout]
          exact claims_of_stop false (traced_read hg (fun _ _ _ => rfl)) (by simp)
            (by simp) (fun _ => createProjectCatch_failure e)
      · have hout : createProject b w =
            ({ status := 422,
               message := some ("Project \"" ++ str b.projectName ++ "\" already exists") },
             w1) := by
          simp [createProject, createProjectTry, getGitHubToken, ht, f1, f2, f3, f4, f5, hg]
        rw [hout]
        exact claims_of_stop true (traced_read hg (fun e he => by cases he)) (by simp)
          (by simp) (by simp)
    · obtain ⟨f1, f2, f3, f4, f5⟩ := complete_fields hc
      exact claims_of_noop (by
        simp [createProject, createProjectTry, getGitHubToken, ht, f1, f2, f3, f4, f5])
  · have hcond : (!truthy b.orgName || !truthy b.repoName || !truthy b.projectName
        || !truthy b.clusterUrl || !truthy b.repoUrl) = true := by
      have hc2 : b.complete = false := by simpa using hc
      unfold CreateProjectBody.complete at hc2
      revert hc2
      cases truthy b.orgName <;> cases truthy b.repoName <;> cases truthy b.projectName <;>
        cases truthy b.clusterUrl <;> cases truthy b.repoUrl <;> simp
    exact claims_of_noop (by
      simp only [createProject, createProjectTry, hcond, if_true])

theorem monitoringDeployArgocd_follows {b : MonitoringDeployBody} {w w1 : World} {c : Content}
    (ht : truthy w.token = true) (ho : truthy b.orgName = true) (hr : truthy b.repoName = true)
    (hg : getContent b.orgName b.repoName "monitoring/grafana/deployment.yaml" w = (.ok c, w1)) :
    Follows w (monitoringDeployArgocd b w)
      [.getContent b.orgName b.repoName "monitoring/grafana/deployment.yaml"] w1
      b.orgName b.repoName (monitoringDeployArgocdSteps b) := by
  have hread : Traced w true w1
      [.getContent b.orgName b.repoName "monitoring/grafana/deployment.yaml"] :=
    traced_read hg (fun e he => by cases he)
  have hsame : w1.tree = w.tree := by rw [getContent_snd hg]; simp
  rcases h1 : ensureFolder b.orgName b.repoName "apps/grafana" "Create grafana app directory" w1
    with ⟨e1 | u1, w2⟩
  · refine ⟨hread, hsame, ?_, ?_, ?_, ?_⟩ <;>
    simp [monitoringDeployArgocd, monitoringDeployArgocdTry, monitoringDeployArgocdSteps,
      runSteps, runStep, getGitHubToken, ht, ho, hr, hg, h1, isOk]
  · rcases h2 : createOrUpdateFileContents b.orgName b.repoName "apps/grafana/config_dir.json"
        "Add ArgoCD config for Grafana" (monitoringAppConfig b).stringify "main" w2
      with ⟨e2 | x2, w3⟩ <;>
    refine ⟨hread, hsame, ?_, ?_, ?_, ?_⟩ <;>
    simp [monitoringDeployArgocd, monitoringDeployArgocdTry, monitoringDeployArgocdSteps,
      runSteps, runStep, getGitHubToken, ht, ho, hr, hg, h1, h2, isOk]

theorem monitoringDeployArgocdSteps_nodup (b : MonitoringDeployBody) :
    (([Call.getContent b.orgName b.repoName "monitoring/grafana/deployment.yaml"] ++
      maxTrace b.orgName b.repoName (monitoringDeployArgocdSteps b)).map Call.key).Nodup := by
  simp [monitoringDeployArgocdSteps, maxTrace, Step.calls, marker, Call.key, Call.isWrite,
    Call.path]

theorem monitoringDeployArgocd_claims (b : MonitoringDeployBody) (w : World) :
    abortsAtFirstFailure w (monitoringDeployArgocd b w) ∧
    folderPresentAtLeaf w (monitoringDeployArgocd b w)
      (.createOrUpdateFileContents b.orgName b.repoName "apps/grafana/config_dir.json"
        "Add ArgoCD config for Grafana" (monitoringAppConfig b).stringify "main")
      "apps/grafana"
      (marker b.orgName b.repoName "apps/grafana" "Create grafana app directory") := by
  by_cases ht : truthy w.token = true
  · by_cases ho : truthy b.orgName = true
    · by_cases hr : truthy b.repoName = true
      · rcases hg : getContent b.orgName b.repoName "monitoring/grafana/deployment.yaml" w
          with ⟨e | c, w1⟩
        · by_cases h404 : e.status = 404
          · have hout : monitoringDeployArgocd b w =
                ({ status := 400, success := some false,
                   message := some "Grafana manifests not found. Please create them first." },
                 w1) := by
              simp [monitoringDeployArgocd, monitoringDeployArgocdTry, getGitHubToken, ht, ho, hr,
                hg, h404]
            rw [hout]
            exact claims_of_stop true
              (traced_read hg (fun e2 he hne => by cases he; exact absurd h404 hne)) (by simp)
              (by simp) (by simp)
          · have hout : monitoringDeployArgocd b w =
                ({ status := 500, success := some false,
                   message := some "Failed to deploy Grafana via ArgoCD, already there",
                   error := some e.message }, w1) := by
              simp [monitoringDeployArgocd, monitoringDeployArgocdTry, getGitHubToken, ht, ho, hr,
                hg, h404]
            rw [hout]
            exact claims_of_stop false (traced_read hg (fun _ _ _ => rfl)) (by simp)
              (by simp) (by simp)
        · exact claims_of_follows [] rfl (monitoringDeployArgocd_follows ht ho hr hg)
            (monitoringDeployArgocdSteps_nodup b)
      · exact claims_of_noop (by
          simp [monitoringDeployArgocd, monitoringDeployArgocdTry, getGitHubToken, ht, ho, hr])
    · exact claims_of_noop (by
        simp [monitoringDeployArgocd, monitoringDeployArgocdTry, getGitHubToken, ht, ho])
  · exact claims_of_noop (by
      simp [monitoringDeployArgocd, monitoringDeployArgocdTry, getGitHubToken, ht])

theorem present_parent {w : World} {out : Response × World} {leaf mark : Call}
    (dir rest : String) (h : folderPresentAtLeaf w out leaf (dir ++ "/" ++ rest) mark) :
    folderPresentAtLeaf w out leaf dir mark := by
  intro a post hlog
  obtain ⟨h1, h2⟩ := h a post hlog
  exact ⟨pathExists_parent _ _ _ h1, h2.imp (pathExists_parent _ _ _) id⟩

/-! ## Claims on failing writes and on the order of writes -/

/-- The third call of an app create-manifests run on an empty repository is the write of
the item marker; when the remote refuses it the answer is a failure with status 500,
the run has issued the folder read, the folder marker write and the refused write and
nothing else, and the folder marker is in the tree. -/
theorem appCreateManifests_item_marker_refused :
    (appCreateManifests acceptAll billingManifests thirdCallRefused).1.status = 500 ∧
    (appCreateManifests acceptAll billingManifests thirdCallRefused).2.log.map Call.path =
      ["manifests", "manifests/.gitkeep", "manifests/billing/.gitkeep"] ∧
    (appCreateManifests acceptAll billingManifests thirdCallRefused).2.tree =
      [("manifests/.gitkeep", "")] := by
  decide

/-- C22: every handler aborts at the first remote call that fails, under every schedule
of failures and for every request: the calls of the run are pairwise distinct (none is
issued twice), a failed call (a write that raised an error, or a read that raised an
error other than 404) is the last call of the run and the answer is then a failure
(status at least 400, never `success: true`), and every write that did not fail,
markers included, has its file with the content written in the tree the run leaves. -/
theorem workflows_abort_at_first_failure (yamlLoad : String → Except String Unit) (w : World) :
    (∀ b, abortsAtFirstFailure w (appCreateManifests yamlLoad b w)) ∧
    (∀ b, abortsAtFirstFailure w (appDeploy b w)) ∧
    (∀ b, abortsAtFirstFailure w (mlDeploy yamlLoad b w)) ∧
    (∀ b, abortsAtFirstFailure w (mlDeployArgocd b w)) ∧
    (∀ b, abortsAtFirstFailure w (monitoringCreateManifests b w)) ∧
    (∀ b, abortsAtFirstFailure w (monitoringDeployArgocd b w)) ∧
    (∀ b, abortsAtFirstFailure w (createPipeline b w)) ∧
    (∀ b, abortsAtFirstFailure w (createProject b w)) :=
  ⟨fun b => (appCreateManifests_claims yamlLoad b w).1,
   fun b => (appDeploy_claims b w).1,
   fun b => (mlDeploy_claims yamlLoad b w).1,
   fun b => (mlDeployArgocd_claims b w).1,
   fun b => (monitoringCreateManifests_claims b w).1,
   fun b => (monitoringDeployArgocd_claims b w).1,
   fun b => (createPipeline_claims b w).1,
   fun b => (createProject_claims b w).1⟩

/-- C23: in every run of every handler, under every schedule of failures, whenever the
leaf write is issued its domain folder (for the registrations, the shared folder
`apps`) is in the remote tree that the calls before it have produced, and the folder
was in the tree before the run or its zero-byte marker was written, without failing,
by one of those earlier calls. -/
theorem folder_present_before_leaf (yamlLoad : String → Except String Unit) (w : World) :
    (∀ b : AppManifestsBody, folderPresentAtLeaf w (appCreateManifests yamlLoad b w)
      (.createOrUpdateFileContents b.orgName b.repoName
        ("manifests/" ++ str b.appName ++ "/deployment.yaml")
        ("Add deployment for " ++ str b.appName) (str b.deploymentYaml) "main")
      "manifests" (marker b.orgName b.repoName "manifests" "Create manifests directory")) ∧
    (∀ b : CreatePipelineBody, folderPresentAtLeaf w (createPipeline b w)
      (.createOrUpdateFileContents b.orgName b.repoName (pipelinePath (str b.pipelineName))
        ("Add " ++ str b.pipelineName ++ " pipeline via InfraPilotX")
        (str b.pipelineContent) "main")
      "cicd" (marker b.orgName b.repoName "cicd" "Create CICD directory")) ∧
    (∀ b : CreateProjectBody, folderPresentAtLeaf w (createProject b w)
      (.createOrUpdateFileContents b.orgName b.repoName (projectPath (str b.projectName))
        ("Add project " ++ str b.projectName)
        (projectYaml (str b.projectName) (str b.clusterUrl) (str b.repoUrl)) "main")
      "projects" (marker b.orgName b.repoName "projects" "Create projects directory")) ∧
    (∀ b : MonitoringManifestsBody, folderPresentAtLeaf w (monitoringCreateManifests b w)
      (.createOrUpdateFileContents b.orgName b.repoName "monitoring/grafana/deployment.yaml"
        "Add deployment for Grafana" grafanaDeploymentTemplate "main")
      "monitoring" (marker b.orgName b.repoName "monitoring" "Create monitoring directory")) ∧
    (∀ b : MlDeployBody, folderPresentAtLeaf w (mlDeploy yamlLoad b w)
      (.createOrUpdateFileContents b.orgName b.repoName
        ("ml-models/" ++ str b.modelName ++ "/deployment.yaml")
        ("Add deployment for " ++ str b.modelName) (str b.deploymentYaml) "main")
      "ml-models" (marker b.orgName b.repoName "ml-models" "Create ml-models directory")) ∧
    (∀ b : AppDeployBody, folderPresentAtLeaf w (appDeploy b w)
      (.createOrUpdateFileContents b.orgName b.repoName
        ("apps/" ++ str b.appName ++ "/config_dir.json")
        ("Add ArgoCD config for " ++ str b.appName) (appDeployConfig b).stringify "main")
      "apps" (marker b.orgName b.repoName "apps" "Create apps directory")) ∧
    (∀ b : MlDeployArgocdBody, folderPresentAtLeaf w (mlDeployArgocd b w)
      (.createOrUpdateFileContents b.orgName b.repoName
        ("apps/" ++ str b.modelName ++ "/config_dir.json")
        ("Add ArgoCD config for " ++ str b.modelName) (mlAppConfig b).stringify "main")
      "apps" (marker b.orgName b.repoName "apps" "Create apps directory")) ∧
    (∀ b : MonitoringDeployBody, folderPresentAtLeaf w (monitoringDeployArgocd b w)
      (.createOrUpdateFileContents b.orgName b.repoName "apps/grafana/config_dir.json"
        "Add ArgoCD config for Grafana" (monitoringAppConfig b).stringify "main")
      "apps" (marker b.orgName b.repoName "apps/grafana" "Create grafana app directory")) :=
  ⟨fun b => (appCreateManifests_claims yamlLoad b w).2,
   fun b => (createPipeline_claims b w).2,
   fun b => (createProject_claims b w).2,
   fun b => (monitoringCreateManifests_claims b w).2,
   fun b => (mlDeploy_claims yamlLoad b w).2,
   fun b => (appDeploy_claims b w).2,
   fun b => (mlDeployArgocd_claims b w).2,
   fun b => present_parent "apps" "grafana" (monitoringDeployArgocd_claims b w).2⟩

/-- The leaf write of an app create-manifests run in which no call fails comes after the
folder read, the folder marker write and the item marker write. -/
theorem appCreateManifests_leaf_issued :
    (appCreateManifests acceptAll billingManifests { token := some "ghp_x" }).2.log =
      [.getContent (some "acme") (some "infra") "manifests",
       marker (some "acme") (some "infra") "manifests" "Create manifests directory",
       .createOrUpdateFileContents (some "acme") (some "infra") "manifests/billing/.gitkeep"
         "Create billing directory" "" "main"] ++
      .createOrUpdateFileContents (some "acme") (some "infra")
        "manifests/billing/deployment.yaml" "Add deployment for billing"
        "kind: Deployment\nmetadata: \x7b\x7d" "main" :: [] := by
  decide

end InfraPilotX
